import Mathlib

/-!
# SIL Kit: lifecycle service, VAsio connection, participant, discovery, time sync,
dashboard, hourglass, RPC demo, LIN controller

A shallow embedding of these parts of the middleware:

* the per-participant lifecycle state machine (`LifecycleService`), whose implementation
  files are not part of the sources; it is modelled from the transition table of the
  specification (section 4.6) and pinned down by the unit tests of
  `LifecycleServiceTest.cpp`, which are replayed below as theorems;
* the receiver and service registration of `VAsioConnection` (`VAsioConnection.hpp`);
* the controller creation of the participant and its data publishers and orchestration
  services (`Participant_impl.hpp`);
* the service discovery and the time sync service, whose implementation files are not
  part of the sources; they are modelled from sections 4.4 and 4.7 of the specification;
* the participant list of the dashboard (`Dashboard.cpp`), the LIN frame conversions and
  the logger of the hourglass (`LinController.hpp`, `Logger.hpp`) and the remote function
  of the RPC demo (`RpcDemo.cpp`);
* the LIN controller, whose implementation file is not part of the sources; it is
  modelled from section 7 of the specification and `LinControllerDetailedSimTest.cpp`.
-/

namespace SilKit
namespace Services
namespace Orchestration

/-- The state set of section 4.6; the tests refer to the members as `ParticipantState::X`. -/
inductive ParticipantState where
  | Invalid
  | ServicesCreated
  | CommunicationInitializing
  | CommunicationInitialized
  | ReadyToRun
  | Running
  | Paused
  | Stopping
  | Stopped
  | Error
  | ShuttingDown
  | Shutdown
  | Aborting
  deriving DecidableEq, Repr

/-- The cluster-wide state handed to `NewSystemState`; it ranges over the same progression
as the participant states (section 4.6, system state derivation). -/
inductive SystemState where
  | Invalid
  | ServicesCreated
  | CommunicationInitializing
  | CommunicationInitialized
  | ReadyToRun
  | Running
  | Paused
  | Stopping
  | Stopped
  | Error
  | ShuttingDown
  | Shutdown
  | Aborting
  deriving DecidableEq, Repr

/-- The kinds of `SystemCommand` the tests construct (`SystemCommand::Kind::X`). -/
inductive SystemCommandKind where
  | Run
  | Stop
  | AbortSimulation
  deriving DecidableEq, Repr

/-- A cluster-wide command, `SystemCommand{kind}`. -/
structure SystemCommand where
  kind : SystemCommandKind
  deriving DecidableEq, Repr

/-- The kinds of `ParticipantCommand` the tests construct (`ParticipantCommand::Kind::X`). -/
inductive ParticipantCommandKind where
  | Restart
  | Shutdown
  deriving DecidableEq, Repr

/-- A command addressed to one participant, `ParticipantCommand{participant, kind}`. -/
structure ParticipantCommand where
  participant : Nat
  kind : ParticipantCommandKind
  deriving DecidableEq, Repr

/-- The two coordination flags of `LifecycleConfiguration` (test helper `StartCoordinated`
sets both; `StartLifecycle({})` leaves both unset). -/
structure LifecycleConfiguration where
  coordinatedStart : Bool
  coordinatedStop : Bool
  deriving DecidableEq, Repr

/-- What a registered CommunicationReady or Starting callback does when it is invoked:
the mocks of the tests either return or throw. -/
inductive HandlerBehaviour where
  | returns
  | throws
  deriving DecidableEq, Repr

/-- What a registered Stop or Shutdown callback does when it is invoked: return, throw, or
(tests `Abort_Stopping`, `Abort_ShuttingDown`) receive `SystemCommand::AbortSimulation`
while it runs, read `State()` and return. -/
inductive FinalHandlerBehaviour where
  | returns
  | throws
  | receivesAbort
  deriving DecidableEq, Repr

/-- Modelled from the spec: the lifecycle service (`LifecycleService.hpp/.cpp` and its state
classes are not part of the sources; only `LifecycleServiceTest.cpp` is). The record holds
the lifecycle state of section 3 (current state, configuration, registered callbacks)
together with what the mocks of the tests observe: the states of the `ParticipantStatus`
messages passed to `SendMsg` in order (`sent`; reason and enter time are left out), the
number of invocations of each callback, and the values of `State()` read inside a
callback. `abortRequested` remembers an abort that arrived while the Stop callback ran. -/
structure LifecycleService where
  participantId : Nat
  config : LifecycleConfiguration
  commReadyHandler : Option HandlerBehaviour
  startingHandler : Option HandlerBehaviour
  stopHandler : Option FinalHandlerBehaviour
  shutdownHandler : Option FinalHandlerBehaviour
  state : ParticipantState
  abortRequested : Bool
  sent : List ParticipantState
  commReadyCalls : Nat
  startingCalls : Nat
  stopCalls : Nat
  shutdownCalls : Nat
  observedInHandler : List ParticipantState
  deriving DecidableEq, Repr

namespace LifecycleService

/-- Modelled from the spec: a freshly constructed service (the constructor is not part of
the sources): state `Invalid`, nothing sent, no callback invoked, as test
`Abort_LifecycleNotExecuted` observes before `StartLifecycle`. -/
def create (participantId : Nat) (commReady starting : Option HandlerBehaviour)
    (stop shutdown : Option FinalHandlerBehaviour) : LifecycleService :=
  { participantId := participantId
    config := { coordinatedStart := false, coordinatedStop := false }
    commReadyHandler := commReady
    startingHandler := starting
    stopHandler := stop
    shutdownHandler := shutdown
    state := .Invalid
    abortRequested := false
    sent := []
    commReadyCalls := 0
    startingCalls := 0
    stopCalls := 0
    shutdownCalls := 0
    observedInHandler := [] }

/-- Modelled from the spec: the accessor `State()`, the current participant state. -/
def State (svc : LifecycleService) : ParticipantState := svc.state

/-- Modelled from the spec: entering a state publishes one `ParticipantStatus` carrying it
(section 6, participant state events). -/
def ChangeState (svc : LifecycleService) (s : ParticipantState) : LifecycleService :=
  { svc with state := s, sent := svc.sent ++ [s] }

/-- Modelled from the spec: the transition to `Error` (table row "handler throws or invalid
command arrives"). `Shutdown` is final: the tests repeat commands in `Shutdown` and expect
no `Error` status. -/
def ReportError (svc : LifecycleService) : LifecycleService :=
  match svc.state with
  | .Shutdown => svc
  | _ => ChangeState svc .Error

/-- Modelled from the spec: `AbortSimulation` arriving while the Stop or the Shutdown
callback runs. In `Stopping` it is remembered until the callback has returned (test
`Abort_Stopping`: `State()` is still `Stopping`); in `ShuttingDown` the shutdown already
under way simply completes (test `Abort_ShuttingDown`). -/
def AbortSimulationInCallback (svc : LifecycleService) : LifecycleService :=
  match svc.state with
  | .Stopping => { svc with abortRequested := true }
  | _ => svc

/-- Modelled from the spec: row "ShuttingDown -> (ShutdownHandler returns) -> Shutdown". -/
def ShutdownHandlerDone (svc : LifecycleService) : LifecycleService :=
  ChangeState svc .Shutdown

/-- Modelled from the spec: row "Stopped -> ShuttingDown" followed by the Shutdown callback.
An exception escaping the Shutdown callback is suppressed (section 4.6, callback
contracts), so `Shutdown` is reached in every case. -/
def HandleShutdown (svc : LifecycleService) : LifecycleService :=
  let s1 := ChangeState svc .ShuttingDown
  match s1.shutdownHandler with
  | none => ShutdownHandlerDone s1
  | some .returns => ShutdownHandlerDone { s1 with shutdownCalls := s1.shutdownCalls + 1 }
  | some .throws => ShutdownHandlerDone { s1 with shutdownCalls := s1.shutdownCalls + 1 }
  | some .receivesAbort =>
      let s2 := AbortSimulationInCallback { s1 with shutdownCalls := s1.shutdownCalls + 1 }
      ShutdownHandlerDone { s2 with observedInHandler := s2.observedInHandler ++ [s2.state] }

/-- Modelled from the spec: row "Stopping -> (StopHandler returns) -> Stopped". A remembered
abort is carried out now; without stop coordination the shutdown follows by itself (row
"Stopped -> ... or auto", test `start_stop_uncoordinated`). -/
def StopHandlerDone (svc : LifecycleService) : LifecycleService :=
  let s1 := ChangeState svc .Stopped
  if s1.abortRequested then HandleShutdown { s1 with abortRequested := false }
  else if s1.config.coordinatedStop then s1
  else HandleShutdown s1

/-- Modelled from the spec: row "Running -> Stopping" followed by the Stop callback; an
exception escaping it drives the participant to `Error`. -/
def HandleStop (svc : LifecycleService) : LifecycleService :=
  let s1 := ChangeState svc .Stopping
  match s1.stopHandler with
  | none => StopHandlerDone s1
  | some .returns => StopHandlerDone { s1 with stopCalls := s1.stopCalls + 1 }
  | some .throws => ReportError { s1 with stopCalls := s1.stopCalls + 1 }
  | some .receivesAbort =>
      let s2 := AbortSimulationInCallback { s1 with stopCalls := s1.stopCalls + 1 }
      StopHandlerDone { s2 with observedInHandler := s2.observedInHandler ++ [s2.state] }

/-- Modelled from the spec: row "CommunicationInitialized -> (CommunicationReadyHandler
returns) -> ReadyToRun"; an exception escaping the callback drives to `Error`. -/
def HandleCommunicationReady (svc : LifecycleService) : LifecycleService :=
  match svc.commReadyHandler with
  | none => ChangeState svc .ReadyToRun
  | some .returns =>
      ChangeState { svc with commReadyCalls := svc.commReadyCalls + 1 } .ReadyToRun
  | some .throws => ReportError { svc with commReadyCalls := svc.commReadyCalls + 1 }

/-- Modelled from the spec: row "ReadyToRun -> Running", entered after the Starting callback;
an exception escaping the callback drives to `Error` (test
`error_handling_exception_in_starting_callback`). -/
def HandleStarting (svc : LifecycleService) : LifecycleService :=
  match svc.startingHandler with
  | none => ChangeState svc .Running
  | some .returns => ChangeState { svc with startingCalls := svc.startingCalls + 1 } .Running
  | some .throws => ReportError { svc with startingCalls := svc.startingCalls + 1 }

/-- Modelled from the spec: the autonomous start drives the state machine locally from
`ServicesCreated` to `Running` (test `start_stop_uncoordinated`). -/
def SkipSetupPhase (svc : LifecycleService) : LifecycleService :=
  let s1 := ChangeState svc .CommunicationInitializing
  let s2 := ChangeState s1 .CommunicationInitialized
  let s3 := HandleCommunicationReady s2
  match s3.state with
  | .ReadyToRun => HandleStarting s3
  | _ => s3

/-- Modelled from the spec: the start of a cycle, rows "Invalid -> ServicesCreated" and
"Error -> ServicesCreated (fresh cycle)". -/
def EnterServicesCreated (svc : LifecycleService) : LifecycleService :=
  let s1 := ChangeState svc .ServicesCreated
  if s1.config.coordinatedStart then s1 else SkipSetupPhase s1

/-- Modelled from the spec: `StartLifecycle(configuration)`, row "Invalid -> StartLifecycle
-> ServicesCreated". Only this row is specified; elsewhere the service is left as it is. -/
def StartLifecycle (svc : LifecycleService) (cfg : LifecycleConfiguration) :
    LifecycleService :=
  match svc.state with
  | .Invalid => EnterServicesCreated { svc with config := cfg }
  | _ => svc

/-- Modelled from the spec: `NewSystemState(systemState)`, the three rows triggered by the
system state. The tests show that the CommunicationReady callback runs when the system
state `CommunicationInitialized` arrives, and that other system states leave the
participant where it is (`NewSystemState(ReadyToRun)` in `ReadyToRun`). -/
def NewSystemState (svc : LifecycleService) (sys : SystemState) : LifecycleService :=
  match svc.state, sys with
  | .ServicesCreated, .ServicesCreated => ChangeState svc .CommunicationInitializing
  | .CommunicationInitializing, .CommunicationInitializing =>
      ChangeState svc .CommunicationInitialized
  | .CommunicationInitialized, .CommunicationInitialized => HandleCommunicationReady svc
  | _, _ => svc

/-- Modelled from the spec: the command `Run`. Row "ReadyToRun -> Running"; a repeated `Run`
in `Running` is ignored (tests: "repeat signal (must be ignored)"); `Shutdown` is final;
in every other state the command is invalid and drives to `Error`. -/
def Run (svc : LifecycleService) : LifecycleService :=
  match svc.state with
  | .ReadyToRun => HandleStarting svc
  | .Running => svc
  | .Shutdown => svc
  | _ => ReportError svc

/-- Modelled from the spec: `Stop(reason)` and the command `Stop`. Row "Running -> Stopping";
a repeated `Stop` in `Stopped` is ignored (test: "transitions to own state must not
fail"); `Shutdown` is final; in every other state the command is invalid. -/
def Stop (svc : LifecycleService) : LifecycleService :=
  match svc.state with
  | .Running => HandleStop svc
  | .Stopped => svc
  | .Shutdown => svc
  | _ => ReportError svc

/-- Modelled from the spec: the command `Shutdown`. Rows "Stopped -> ShuttingDown" and
"Error -> Shutdown"; a repeated `Shutdown` in `Shutdown` is ignored (test
`start_restart_stop_coordinated`); in every other state the command is invalid (tests
`error_handling_run_run_shutdown`, `error_handling_error_recovery_restart`). -/
def Shutdown (svc : LifecycleService) : LifecycleService :=
  match svc.state with
  | .Stopped => HandleShutdown svc
  | .Error => HandleShutdown svc
  | .Shutdown => svc
  | _ => ReportError svc

/-- Modelled from the spec: the command `Restart`. Row "Error -> ServicesCreated (fresh
cycle)"; test `start_restart_stop_coordinated` restarts from `Stopped` in the same way;
`Shutdown` is final; in every other state the command is invalid. -/
def Restart (svc : LifecycleService) : LifecycleService :=
  match svc.state with
  | .Error => EnterServicesCreated svc
  | .Stopped => EnterServicesCreated svc
  | .Shutdown => svc
  | _ => ReportError svc

/-- Modelled from the spec: `SystemCommand::AbortSimulation`, row "any except Shutdown ->
Shutdown (callbacks still fire)". The tests fix the published states: `Stopped`,
`ShuttingDown`, `Shutdown` from `ReadyToRun`, `Running` and `Paused`; `ShuttingDown`,
`Shutdown` from `Stopped`; nothing at all before `StartLifecycle` (state `Invalid`). -/
def AbortSimulation (svc : LifecycleService) : LifecycleService :=
  match svc.state with
  | .Invalid => svc
  | .Shutdown => svc
  | .Stopping => AbortSimulationInCallback svc
  | .ShuttingDown => AbortSimulationInCallback svc
  | .Stopped => HandleShutdown svc
  | _ => HandleShutdown (ChangeState svc .Stopped)

/-- Modelled from the spec: `ReceiveMsg(from, SystemCommand)`. A system command that arrives
before `StartLifecycle` is not acted upon (test `Abort_LifecycleNotExecuted`). -/
def ReceiveMsgSystemCommand (svc : LifecycleService) (cmd : SystemCommand) :
    LifecycleService :=
  match svc.state with
  | .Invalid => svc
  | _ =>
    match cmd.kind with
    | .Run => Run svc
    | .Stop => Stop svc
    | .AbortSimulation => AbortSimulation svc

/-- Modelled from the spec: `ReceiveMsg(from, ParticipantCommand)`. The tests address the
command with the participant id of the service descriptor; a command for another
participant is not acted upon. -/
def ReceiveMsgParticipantCommand (svc : LifecycleService) (cmd : ParticipantCommand) :
    LifecycleService :=
  if cmd.participant = svc.participantId then
    match cmd.kind with
    | .Restart => Restart svc
    | .Shutdown => Shutdown svc
  else svc

/-- Modelled from the spec: `Pause(reason)`, row "Running -> Paused". In any other state the
call is a state error: it is reported (transition to `Error`) and surfaced to the caller;
the second component is `true` when `std::runtime_error` is thrown. -/
def Pause (svc : LifecycleService) : LifecycleService × Bool :=
  match svc.state with
  | .Running => (ChangeState svc .Paused, false)
  | _ => (ReportError svc, true)

/-- Modelled from the spec: `Continue()`, row "Paused -> Running"; in any other state a
state error like for `Pause`. -/
def Continue (svc : LifecycleService) : LifecycleService × Bool :=
  match svc.state with
  | .Paused => (ChangeState svc .Running, false)
  | _ => (ReportError svc, true)

/-- Modelled from the spec: the return of the callback in progress, if there is one. The
participant is in `Stopping` only while the Stop callback runs and in `ShuttingDown` only
while the Shutdown callback runs; when the callback returns the row "Stopping -> Stopped"
resp. "ShuttingDown -> Shutdown" is taken. In every other state nothing is in progress. -/
def CallbackReturns (svc : LifecycleService) : LifecycleService :=
  match svc.state with
  | .Stopping => StopHandlerDone svc
  | .ShuttingDown => ShutdownHandlerDone svc
  | _ => svc

end LifecycleService

open LifecycleService

/-- The test helper `PrepareLifecycle`: the four system states up to `ReadyToRun`. -/
def PrepareLifecycle (svc : LifecycleService) : LifecycleService :=
  NewSystemState
    (NewSystemState
      (NewSystemState (NewSystemState svc .ServicesCreated) .CommunicationInitializing)
      .CommunicationInitialized)
    .ReadyToRun

/-- The test helper `StartCoordinated`. -/
def StartCoordinated : LifecycleConfiguration :=
  { coordinatedStart := true, coordinatedStop := true }

/-- One input to the lifecycle service: a call of its interface or a received message. -/
inductive Input where
  | StartLifecycle (cfg : LifecycleConfiguration)
  | SystemState (sys : SystemState)
  | SystemCommand (kind : SystemCommandKind)
  | ParticipantCommand (cmd : ParticipantCommand)
  | Pause
  | Continue
  | Stop
  deriving DecidableEq, Repr

/-- The effect of one input on the service (an exception thrown to the caller of `Pause`
or `Continue` is not part of the service state). -/
def step (svc : LifecycleService) : Input → LifecycleService
  | .StartLifecycle cfg => StartLifecycle svc cfg
  | .SystemState sys => NewSystemState svc sys
  | .SystemCommand kind => ReceiveMsgSystemCommand svc { kind := kind }
  | .ParticipantCommand cmd => ReceiveMsgParticipantCommand svc cmd
  | .Pause => (Pause svc).1
  | .Continue => (Continue svc).1
  | .Stop => LifecycleService.Stop svc

/-- The effect of a sequence of inputs, first to last. -/
def run (svc : LifecycleService) (inputs : List Input) : LifecycleService :=
  inputs.foldl step svc

/-- The inputs of the test helper `PrepareLifecycle`. -/
def prepareInputs : List Input :=
  [.SystemState .ServicesCreated, .SystemState .CommunicationInitializing,
   .SystemState .CommunicationInitialized, .SystemState .ReadyToRun]

/-- Modelled from the spec: the transition table of section 4.6, read as a predicate: does
the table have a row for this input in this state? A row whose trigger is the return of a
callback continues the row that started the callback, so it adds no input of its own; the
CommunicationReady callback is started by the system state `CommunicationInitialized`
(test `start_restart_stop_coordinated`). The `Shutdown` and `Restart` commands of the
table are the participant commands of the tests. -/
def hasRow (s : ParticipantState) : Input → Bool
  | .StartLifecycle _ => decide (s = .Invalid)
  | .SystemState sys =>
      decide ((s = .ServicesCreated ∧ sys = .ServicesCreated)
        ∨ (s = .CommunicationInitializing ∧ sys = .CommunicationInitializing)
        ∨ (s = .CommunicationInitialized ∧ sys = .CommunicationInitialized))
  | .SystemCommand .Run => decide (s = .ReadyToRun)
  | .SystemCommand .Stop => decide (s = .Running)
  | .SystemCommand .AbortSimulation => decide (s ≠ .Shutdown)
  | .ParticipantCommand cmd =>
      match cmd.kind with
      | .Shutdown => decide (s = .Stopped ∨ s = .Error)
      | .Restart => decide (s = .Error)
  | .Pause => decide (s = .Running)
  | .Continue => decide (s = .Paused)
  | .Stop => decide (s = .Running)

/-- The inputs of a coordinated test up to `ReadyToRun`: `StartLifecycle(StartCoordinated())`
followed by `PrepareLifecycle`. -/
def coordinatedSetup : List Input :=
  .StartLifecycle StartCoordinated :: prepareInputs

/-- The inputs of claim C1 after a fresh construction: coordinated start, the four system
states, `Run`, `Stop` and the participant command `Shutdown` addressed to `pid`. -/
def cleanRunInputs (pid : Nat) : List Input :=
  coordinatedSetup ++ [.SystemCommand .Run, .SystemCommand .Stop,
    .ParticipantCommand { participant := pid, kind := .Shutdown }]

end Orchestration
end Services
end SilKit

namespace SilKit
namespace Core

/-- The message types a connection routes: the members of the tuple `SilKitMessageTypes`
of `VAsioConnection.hpp`, in its order. -/
inductive SilKitMessageTypes where
  | LogMsg
  | NextSimTask
  | SystemCommand
  | ParticipantCommand
  | ParticipantStatus
  | WorkflowConfiguration
  | DataMessageEvent
  | FunctionCall
  | FunctionCallResponse
  | CanFrameEvent
  | CanFrameTransmitEvent
  | CanControllerStatus
  | CanConfigureBaudrate
  | CanSetControllerMode
  | EthernetFrameEvent
  | EthernetFrameTransmitEvent
  | EthernetStatus
  | EthernetSetMode
  | LinSendFrameRequest
  | LinSendFrameHeaderRequest
  | LinTransmission
  | LinWakeupPulse
  | LinControllerConfig
  | LinControllerStatusUpdate
  | LinFrameResponseUpdate
  | FlexrayFrameEvent
  | FlexrayFrameTransmitEvent
  | FlexraySymbolEvent
  | FlexraySymbolTransmitEvent
  | FlexrayCycleStartEvent
  | FlexrayHostCommand
  | FlexrayControllerConfig
  | FlexrayTxBufferConfigUpdate
  | FlexrayTxBufferUpdate
  | FlexrayPocStatusEvent
  | ParticipantDiscoveryEvent
  | ServiceDiscoveryEvent
  | TestMessageVersion1
  | TestMessageVersion2
  | TestFrameEvent
  deriving DecidableEq, Repr

/-- What the headers that are not part of the sources declare and `VAsioConnection.hpp`
uses, taken as a parameter: `SilKitMsgTraits<MsgT>::SerdesName()` and `::Version()` of
every message type (`traits/SilKitMsgTraits.hpp`), and the width in bits of the unsigned
field `VAsioMsgSubscriber::receiverIdx` that the receiver count is cast to. -/
structure VAsioDeclarations where
  SerdesName : SilKitMessageTypes → String
  Version : SilKitMessageTypes → Nat
  receiverIdxBits : Nat

/-- The fields of `ServiceDescriptor` that identify a service: participant name, network
name, service name and the endpoint id (`Participant::CreateController` sets them). -/
structure ServiceDescriptor where
  participantName : String
  networkName : String
  serviceName : String
  serviceId : Nat
  deriving DecidableEq, Repr

/-- The setter `ServiceDescriptor::SetParticipantName`. -/
def ServiceDescriptor.SetParticipantName (d : ServiceDescriptor) (name : String) :
    ServiceDescriptor :=
  { d with participantName := name }

/-- A local receiver, `IMessageReceiver<MsgT>*`: the address of the object and the service
descriptor it carries as an `IServiceEndpoint`. -/
structure MessageReceiver where
  address : Nat
  serviceDescriptor : ServiceDescriptor
  deriving DecidableEq, Repr

/-- The subscription record `VAsioMsgSubscriber`. -/
structure VAsioMsgSubscriber where
  receiverIdx : Nat
  networkName : String
  msgTypeName : String
  version : Nat
  deriving DecidableEq, Repr

/-- Modelled from the spec: the link of one network and message type (`SilKitLink.hpp` is
not part of the sources); of a link only the table of local receivers is needed here, to
which `AddLocalReceiver` appends (section 4.3, "append a receiver to the table"). -/
structure SilKitLink where
  name : String
  localReceivers : List MessageReceiver
  deriving DecidableEq, Repr

/-- Modelled from the spec: `SilKitLink::AddLocalReceiver`, see `SilKitLink`. -/
def SilKitLink.AddLocalReceiver (link : SilKitLink) (receiver : MessageReceiver) :
    SilKitLink :=
  { link with localReceivers := link.localReceivers ++ [receiver] }

/-- An element of `_vasioReceivers`, `VAsioReceiver<MsgT>`: built from the subscription
record and the link (named by its network), it carries a service descriptor. -/
structure VAsioReceiver where
  subscriptionInfo : VAsioMsgSubscriber
  messageType : SilKitMessageTypes
  linkName : String
  serviceDescriptor : ServiceDescriptor
  deriving DecidableEq, Repr

/-- A connected peer, `IVAsioPeer`: the address of the object and the subscription records
passed to its `Subscribe`, first to last. -/
structure VAsioPeer where
  address : Nat
  subscribed : List VAsioMsgSubscriber
  deriving DecidableEq, Repr

/-- The call `peer->Subscribe(subscriptionInfo)`. -/
def VAsioPeer.Subscribe (peer : VAsioPeer) (info : VAsioMsgSubscriber) : VAsioPeer :=
  { peer with subscribed := peer.subscribed ++ [info] }

/-- The members of `VAsioConnection` that receiver registration reads or writes: `_links`
(one map from network name to link per message type), `_vasioReceivers`,
`_vasioUniqueReceiverIds`, `_peers` and `_pendingSubscriptionAcknowledges` (peer address
and subscription record). -/
structure VAsioConnection where
  participantName : String
  links : SilKitMessageTypes → String → Option SilKitLink
  vasioReceivers : List VAsioReceiver
  vasioUniqueReceiverIds : List String
  peers : List VAsioPeer
  pendingSubscriptionAcknowledges : List (Nat × VAsioMsgSubscriber)

namespace VAsioConnection

/-- A connection as constructed: no link, no receiver, no receiver id, no pending
acknowledgement; the peers are those connected so far. -/
def create (participantName : String) (peers : List VAsioPeer) : VAsioConnection :=
  { participantName := participantName
    links := fun _ _ => none
    vasioReceivers := []
    vasioUniqueReceiverIds := []
    peers := peers
    pendingSubscriptionAcknowledges := [] }

/-- Replaces the link stored under message type `msg` and network `networkName`. -/
def setLink (conn : VAsioConnection) (msg : SilKitMessageTypes) (networkName : String)
    (link : SilKitLink) : VAsioConnection :=
  { conn with
    links := fun m n => if m = msg ∧ n = networkName then some link else conn.links m n }

/-- The lookup `GetLinkByName<MsgT>(networkName)`: the link stored under the network name,
created (and stored) first if there is none. -/
def GetLinkByName (conn : VAsioConnection) (msg : SilKitMessageTypes) (networkName : String) :
    VAsioConnection × SilKitLink :=
  match conn.links msg networkName with
  | some link => (conn, link)
  | none =>
      let link : SilKitLink := { name := networkName, localReceivers := [] }
      (setLink conn msg networkName link, link)

/-- The string `networkName + "/" + msgSerdesName` of `RegisterSilKitMsgReceiver`. -/
def uniqueReceiverId (networkName msgSerdesName : String) : String :=
  networkName ++ "/" ++ msgSerdesName

/-- The loop `for (auto&& peer : _peers)` of `RegisterSilKitMsgReceiver`: for a service
without asynchronous registration one pending acknowledgement per peer is recorded, and
`Subscribe` is called on every peer. -/
def subscribeAtPeers (useAsyncRegistration : Bool) (info : VAsioMsgSubscriber) :
    List VAsioPeer → List (Nat × VAsioMsgSubscriber) →
      List VAsioPeer × List (Nat × VAsioMsgSubscriber)
  | [], pending => ([], pending)
  | peer :: rest, pending =>
      let pending1 := if !useAsyncRegistration then pending ++ [(peer.address, info)] else pending
      let done := subscribeAtPeers useAsyncRegistration info rest pending1
      (peer.Subscribe info :: done.1, done.2)

/-- The member function `RegisterSilKitMsgReceiver<SilKitMessageT, SilKitServiceT>`
of `VAsioConnection.hpp`, called with `(networkName, receiver)`; `msg` stands for
`SilKitMessageT`, and `useAsyncRegistration` for the value of
`SilKitServiceTraits<SilKitServiceT>::UseAsyncRegistration()`. -/
def RegisterSilKitMsgReceiver (D : VAsioDeclarations) (useAsyncRegistration : Bool)
    (conn : VAsioConnection) (msg : SilKitMessageTypes) (networkName : String)
    (receiver : MessageReceiver) : VAsioConnection :=
  let found := GetLinkByName conn msg networkName
  let conn1 := setLink found.1 msg networkName (found.2.AddLocalReceiver receiver)
  let msgSerdesName := D.SerdesName msg
  let uniqueReceiverId := uniqueReceiverId networkName msgSerdesName
  if uniqueReceiverId ∈ conn1.vasioUniqueReceiverIds then
    conn1
  else
    let subscriptionInfo : VAsioMsgSubscriber :=
      { receiverIdx := conn1.vasioReceivers.length % 2 ^ D.receiverIdxBits
        networkName := networkName
        msgTypeName := msgSerdesName
        version := D.Version msg }
    let rawReceiver : VAsioReceiver :=
      { subscriptionInfo := subscriptionInfo
        messageType := msg
        linkName := networkName
        serviceDescriptor :=
          receiver.serviceDescriptor.SetParticipantName conn1.participantName }
    let subscribed :=
      subscribeAtPeers useAsyncRegistration subscriptionInfo conn1.peers
        conn1.pendingSubscriptionAcknowledges
    { conn1 with
      vasioUniqueReceiverIds := uniqueReceiverId :: conn1.vasioUniqueReceiverIds
      vasioReceivers := conn1.vasioReceivers ++ [rawReceiver]
      peers := subscribed.1
      pendingSubscriptionAcknowledges := subscribed.2 }

end VAsioConnection

/-- One call of `RegisterSilKitMsgReceiver`: its template and function arguments. -/
structure ReceiverRegistration where
  msg : SilKitMessageTypes
  useAsyncRegistration : Bool
  networkName : String
  receiver : MessageReceiver
  deriving DecidableEq, Repr

/-- The subscription key of a registration: network name and message serdes name. -/
def ReceiverRegistration.key (D : VAsioDeclarations) (r : ReceiverRegistration) :
    String × String :=
  (r.networkName, D.SerdesName r.msg)

/-- Performs one registration on the connection. -/
def VAsioConnection.register (D : VAsioDeclarations) (conn : VAsioConnection)
    (r : ReceiverRegistration) : VAsioConnection :=
  VAsioConnection.RegisterSilKitMsgReceiver D r.useAsyncRegistration conn r.msg r.networkName
    r.receiver

/-- Performs a sequence of registrations, first to last. -/
def VAsioConnection.registerAll (D : VAsioDeclarations) (conn : VAsioConnection)
    (regs : List ReceiverRegistration) : VAsioConnection :=
  regs.foldl (VAsioConnection.register D) conn

/-- The local receivers of the link stored for a message type and network (none if there
is no such link). -/
def VAsioConnection.localReceivers (conn : VAsioConnection) (msg : SilKitMessageTypes)
    (networkName : String) : List MessageReceiver :=
  match conn.links msg networkName with
  | some link => link.localReceivers
  | none => []

/-- A sample instance of the declarations: upper-case serdes names without a slash,
version 1 for every message type, a 16-bit receiver index. -/
def sampleDeclarations : VAsioDeclarations :=
  { SerdesName := fun m =>
      match m with
      | .LogMsg => "LOGMSG"
      | .CanFrameEvent => "CANFRAMEEVENT"
      | .ParticipantStatus => "PARTICIPANTSTATUS"
      | _ => "TESTMESSAGE"
    Version := fun _ => 1
    receiverIdxBits := 16 }

/-- A sample local receiver: an object at the given address on network `CAN1`. -/
def sampleReceiver (address : Nat) : MessageReceiver :=
  { address := address
    serviceDescriptor :=
      { participantName := "", networkName := "CAN1", serviceName := "CanController1",
        serviceId := address } }

/-- A sample network name for every number: the letter `n`, the number plus one times. -/
def sampleNetworkName (i : Nat) : String :=
  String.mk (List.replicate (i + 1) 'n')

/-- The registration of a CAN frame receiver on the sample network of a number. -/
def sampleRegistration (i : Nat) : ReceiverRegistration :=
  { msg := .CanFrameEvent, useAsyncRegistration := false, networkName := sampleNetworkName i,
    receiver := sampleReceiver i }

/-- Sample registrations of a CAN frame receiver on `count` networks, one after the
other. -/
def sampleRegistrations (count : Nat) : List ReceiverRegistration :=
  (List.range count).map sampleRegistration

end Core
end SilKit

namespace SilKit
namespace Core

/-! ## The participant (`Participant_impl.hpp`) -/

/-- The exceptions `Participant_impl.hpp` throws, with their message. -/
inductive SilKitException where
  | ConfigurationError (what : String)
  | SilKitError (what : String)
  deriving DecidableEq, Repr

/-- The controller classes `Participant_impl.hpp` instantiates `CreateController` and
`GetController` with. Each selects its own map of `_controllers` through
`predicative_get<IsControllerMap, ControllerT>`. -/
inductive ControllerT where
  | CanController
  | EthController
  | FlexrayController
  | LinController
  | DataPublisher
  | DataSubscriber
  | DataSubscriberInternal
  | RpcClient
  | RpcServer
  | RpcServerInternal
  | LogMsgSender
  | LogMsgReceiver
  | LifecycleService
  | SystemMonitor
  | SystemController
  | TimeSyncService
  | ServiceDiscovery
  | RequestReplyService
  deriving DecidableEq, Repr

/-- The enumeration `Config::NetworkType` of `Configuration.hpp`. -/
inductive NetworkType where
  | Undefined
  | Invalid
  | CAN
  | LIN
  | Ethernet
  | FlexRay
  | Data
  | RPC
  deriving DecidableEq, Repr

/-- The operation modes of `LifecycleConfiguration::operationMode`, as
`FormatLifecycleConfigurationForLogging` lists them. -/
inductive OperationMode where
  | Invalid
  | Coordinated
  | Autonomous
  deriving DecidableEq, Repr

/-- The type `SupplementalData`, a map from string to string, as a list of entries. -/
abbrev SupplementalData := List (String × String)

/-- The assignment `supplementalData[key] = value`: replaces the entry of the key or adds
one. -/
def SupplementalData.set (data : SupplementalData) (key value : String) : SupplementalData :=
  if data.any (fun entry => entry.1 == key) then
    data.map (fun entry => if entry.1 == key then (key, value) else entry)
  else data ++ [(key, value)]

/-- The descriptor `CreateController` gives a controller: the identifying fields of
`ServiceDescriptor` together with network type and supplemental data. -/
structure ControllerDescriptor where
  descriptor : ServiceDescriptor
  networkType : NetworkType
  supplementalData : SupplementalData
  deriving DecidableEq, Repr

/-- A controller owned by the participant: its class, its descriptor, and what the
participant sets on it after creation (`TimeSyncService::SetLifecycleService`, given the
address of the lifecycle service, and `LifecycleService::SetLifecycleConfiguration`). -/
structure Controller where
  controllerT : ControllerT
  serviceDescriptor : ControllerDescriptor
  lifecycleService : Option Nat
  lifecycleConfiguration : Option OperationMode
  deriving DecidableEq, Repr

/-- The accessor `GetServiceDescriptor().GetServiceName()`. -/
def Controller.serviceName (c : Controller) : String :=
  c.serviceDescriptor.descriptor.serviceName

/-- The accessor `GetServiceDescriptor().GetServiceId()`. -/
def Controller.serviceId (c : Controller) : Nat :=
  c.serviceDescriptor.descriptor.serviceId

/-- The calls the participant makes on its connection (`SilKitConnectionT` is a template
parameter of `Participant`): the controllers passed to `RegisterSilKitService`, the
arguments of `SetHistoryLengthForLink`, and the controller classes for which a peer
shutdown callback or a message receiver was registered, each first to last. -/
structure ConnectionCalls where
  registeredServices : List ControllerDescriptor
  historyLengths : List (Nat × ControllerDescriptor)
  peerShutdownCallbacks : List ControllerT
  messageReceivers : List ControllerT
  deriving DecidableEq, Repr

/-- A configured data publisher, `Config::DataPublisher`: the fields
`CreateDataPublisher` reads. -/
structure DataPublisherConfig where
  name : String
  topic : Option String
  useTraceSinks : List String
  deriving DecidableEq, Repr

/-- The kinds of a `MatchingLabel`. -/
inductive MatchingLabelKind where
  | Optional
  | Mandatory
  deriving DecidableEq, Repr

/-- A label of a publisher or subscriber, `MatchingLabel`. -/
structure MatchingLabel where
  key : String
  value : String
  kind : MatchingLabelKind
  deriving DecidableEq, Repr

/-- The specification `PubSubSpec` of a publisher or subscriber. -/
structure PubSubSpec where
  topic : String
  mediaType : String
  labels : List MatchingLabel
  deriving DecidableEq, Repr

/-- What the headers that are not part of the sources declare and `Participant_impl.hpp`
uses, taken as a parameter: the string constants of namespace `Discovery`, the width in
bits of the unsigned `EndpointId` of `_localEndpointId`, the label serialization
`Config::Serialize`, which controller classes derive from `ITraceMessageSource` (the
outcome of the `dynamic_cast` in the creation functions), and the network type
`config.GetNetworkType()` of the configuration of each controller class. -/
structure ParticipantDeclarations where
  controllerType : String
  controllerTypeLifecycleService : String
  controllerTypeTimeSyncService : String
  controllerTypeSystemMonitor : String
  controllerTypeServiceDiscovery : String
  controllerTypeDataPublisher : String
  supplKeyDataPublisherTopic : String
  supplKeyDataPublisherPubUUID : String
  supplKeyDataPublisherMediaType : String
  supplKeyDataPublisherPubLabels : String
  endpointIdBits : Nat
  SerializeLabels : List MatchingLabel → String
  isTraceMessageSource : ControllerT → Bool
  GetNetworkType : ControllerT → NetworkType

/-- The members of `Participant` that controller creation reads or writes: the name, the
configured data publishers and trace sinks, the controller maps `_controllers` (one per
controller class, keyed by service name), `_localEndpointId`, the two creation flags, the
connection, the descriptors passed to `NotifyServiceCreated` of the service discovery,
and the messages given to `_logger->Info`. -/
structure Participant where
  participantName : String
  dataPublishers : List DataPublisherConfig
  traceSinks : List String
  controllers : ControllerT → String → Option Controller
  localEndpointId : Nat
  isLifecycleServiceCreated : Bool
  isSystemMonitorCreated : Bool
  connection : ConnectionCalls
  notifiedServiceCreated : List ControllerDescriptor
  loggedInfo : List String

/-- What a call on the participant ends with: it returns a value, or it throws, both with
the participant as the call left it; `unfinished` stands for a nesting of controller
creations deeper than the given bound. -/
inductive Outcome (α : Type) where
  | returned (p : Participant) (value : α)
  | thrown (p : Participant) (e : SilKitException)
  | unfinished

namespace Participant

/-- A participant as constructed: no controller, nothing registered or notified, both
creation flags unset; `firstEndpointId` is the initial value of `_localEndpointId`. -/
def create (participantName : String) (dataPublishers : List DataPublisherConfig)
    (traceSinks : List String) (firstEndpointId : Nat) : Participant :=
  { participantName := participantName
    dataPublishers := dataPublishers
    traceSinks := traceSinks
    controllers := fun _ _ => none
    localEndpointId := firstEndpointId
    isLifecycleServiceCreated := false
    isSystemMonitorCreated := false
    connection :=
      { registeredServices := [], historyLengths := [], peerShutdownCallbacks := [],
        messageReceivers := [] }
    notifiedServiceCreated := []
    loggedInfo := [] }

/-- The lookup `GetController<ControllerT>(serviceName)`: the controller stored under the
name in the map of the controller class, if there is one. -/
def GetController (p : Participant) (controllerT : ControllerT) (serviceName : String) :
    Option Controller :=
  p.controllers controllerT serviceName

/-- The assignment `controllerMap[qualifiedName] = controller`. -/
def storeController (p : Participant) (controllerT : ControllerT) (name : String)
    (c : Controller) : Participant :=
  { p with
    controllers := fun t n => if t = controllerT ∧ n = name then some c else p.controllers t n }

/-- The call `_connection.RegisterSilKitService(controllerPtr)`. -/
def registerSilKitService (p : Participant) (d : ControllerDescriptor) : Participant :=
  { p with
    connection :=
      { p.connection with registeredServices := p.connection.registeredServices ++ [d] } }

/-- The call `_connection.RegisterPeerShutdownCallback(...)` with a callback into the
controller of the given class. -/
def registerPeerShutdownCallback (p : Participant) (controllerT : ControllerT) :
    Participant :=
  { p with
    connection :=
      { p.connection with
        peerShutdownCallbacks := p.connection.peerShutdownCallbacks ++ [controllerT] } }

/-- The call `_connection.RegisterMessageReceiver(...)` with a callback into the controller
of the given class. -/
def registerMessageReceiver (p : Participant) (controllerT : ControllerT) : Participant :=
  { p with
    connection :=
      { p.connection with
        messageReceivers := p.connection.messageReceivers ++ [controllerT] } }

/-- The call `NotifyServiceCreated(descriptor)` on the service discovery controller. -/
def notifyServiceCreated (p : Participant) (d : ControllerDescriptor) : Participant :=
  { p with notifiedServiceCreated := p.notifiedServiceCreated ++ [d] }

/-- The call `_connection.SetHistoryLengthForLink(history, controller)`. -/
def setHistoryLengthForLink (p : Participant) (history : Nat) (d : ControllerDescriptor) :
    Participant :=
  { p with
    connection :=
      { p.connection with historyLengths := p.connection.historyLengths ++ [(history, d)] } }

/-- The arguments of one `CreateController<ControllerT>` call: the controller class, the
configured name and network type, the network, the supplemental data and
`publishService`. The constructor arguments of the controller are not modelled. -/
structure CreateControllerArgs where
  controllerT : ControllerT
  name : String
  networkType : NetworkType
  network : String
  supplementalData : SupplementalData
  publishService : Bool
  deriving DecidableEq, Repr

/-- The middle part of `CreateController`, from `std::make_unique<ControllerT>` to the
assignment into the controller map: the controller is constructed, takes the current
`_localEndpointId` (which is incremented) as service id, gets its descriptor, is
registered at the connection and stored under its name. -/
def constructController (p : Participant) (D : ParticipantDeclarations)
    (a : CreateControllerArgs) : Participant × Controller :=
  let localEndpoint := p.localEndpointId
  let p1 := { p with localEndpointId := (p.localEndpointId + 1) % 2 ^ D.endpointIdBits }
  let descriptor : ControllerDescriptor :=
    { descriptor :=
        { participantName := p1.participantName
          networkName := a.network
          serviceName := a.name
          serviceId := localEndpoint }
      networkType := a.networkType
      supplementalData := a.supplementalData }
  let controller : Controller :=
    { controllerT := a.controllerT
      serviceDescriptor := descriptor
      lifecycleService := none
      lifecycleConfiguration := none }
  ((p1.registerSilKitService descriptor).storeController a.controllerT a.name controller,
    controller)

/-- The arguments `GetServiceDiscovery` creates the service discovery controller with: the
name `Discovery::controllerTypeServiceDiscovery`, network `default`, the controller type
as supplemental data, published. -/
def serviceDiscoveryArgs (D : ParticipantDeclarations) : CreateControllerArgs :=
  { controllerT := .ServiceDiscovery
    name := D.controllerTypeServiceDiscovery
    networkType := D.GetNetworkType .ServiceDiscovery
    network := "default"
    supplementalData :=
      SupplementalData.set [] D.controllerType D.controllerTypeServiceDiscovery
    publishService := true }

/-- The body of `GetServiceDiscovery`, with the nested `CreateController` call passed in
as `createController`. -/
def GetServiceDiscoveryWith (D : ParticipantDeclarations)
    (createController : Participant → CreateControllerArgs → Outcome Controller)
    (p : Participant) : Outcome Controller :=
  match p.GetController .ServiceDiscovery D.controllerTypeServiceDiscovery with
  | some controller => .returned p controller
  | none =>
      match createController p (serviceDiscoveryArgs D) with
      | .returned p1 controller =>
          .returned (p1.registerPeerShutdownCallback .ServiceDiscovery) controller
      | .thrown p1 e => .thrown p1 e
      | .unfinished => .unfinished

/-- The member function `CreateController<ControllerT>(config, network, supplementalData,
publishService, args...)`: the two name checks, the construction (`constructController`)
and the publication through `GetServiceDiscovery()->NotifyServiceCreated`. The first
argument bounds the nesting of controller creations (publishing a controller may create
the service discovery controller, which is published in turn). -/
def CreateController (D : ParticipantDeclarations) :
    Nat → Participant → CreateControllerArgs → Outcome Controller
  | 0, _, _ => .unfinished
  | fuel + 1, p, a =>
      if a.name = "" then
        .thrown p (.ConfigurationError "Services must have a non-empty name.")
      else
        match p.GetController a.controllerT a.name with
        | some _ =>
            .thrown p (.ConfigurationError
              ("Service " ++ a.name ++ " in network " ++ a.network ++ " already exists."))
        | none =>
            let constructed := p.constructController D a
            let p3 := constructed.1
            let controller := constructed.2
            if a.publishService then
              match GetServiceDiscoveryWith D (fun q b => CreateController D fuel q b) p3 with
              | .returned p4 _ =>
                  .returned (p4.notifyServiceCreated controller.serviceDescriptor) controller
              | .thrown p4 e => .thrown p4 e
              | .unfinished => .unfinished
            else .returned p3 controller

/-- The member function `GetServiceDiscovery`. -/
def GetServiceDiscovery (D : ParticipantDeclarations) (fuel : Nat) (p : Participant) :
    Outcome Controller :=
  GetServiceDiscoveryWith D (fun q b => CreateController D fuel q b) p

/-- The static member function `GetConfigByControllerName(controllers, canonicalName)` for
data publishers: the first configured controller of that name, and otherwise a default
constructed configuration with the name set. -/
def GetConfigByControllerName (controllers : List DataPublisherConfig)
    (canonicalName : String) : DataPublisherConfig :=
  match controllers.find? (fun controllerConfig => controllerConfig.name == canonicalName) with
  | some found => found
  | none => { name := canonicalName, topic := none, useTraceSinks := [] }

/-- The member function `LogMismatchBetweenConfigAndPassedValue`: one message to
`_logger->Info`. -/
def LogMismatchBetweenConfigAndPassedValue {ValueT : Type} [ToString ValueT]
    (p : Participant) (canonicalName : String) (passedValue configuredValue : ValueT) :
    Participant :=
  { p with
    loggedInfo := p.loggedInfo ++
      ["Mismatch between a configured and programmatically passed value. "
        ++ "The configured value will be used.\n"
        ++ "Controller name: " ++ canonicalName ++ "\n"
        ++ "Passed value: " ++ toString passedValue ++ "\n"
        ++ "Configured value: " ++ toString configuredValue ++ "\n"] }

/-- The member function `UpdateOptionalConfigValue(controllerName, configuredValue,
passedValue)`; the second component is `configuredValue` after the call. -/
def UpdateOptionalConfigValue {ValueT : Type} [DecidableEq ValueT] [ToString ValueT]
    (p : Participant) (controllerName : String) (configuredValue : Option ValueT)
    (passedValue : ValueT) : Participant × Option ValueT :=
  match configuredValue with
  | none => (p, some passedValue)
  | some value =>
      if value ≠ passedValue then
        (p.LogMismatchBetweenConfigAndPassedValue controllerName passedValue value,
          some value)
      else (p, some value)

/-- The loop of `AddTraceSinksToSource` over `config.useTraceSinks`: a sink name that is
not among the participant's trace sinks ends it with a `ConfigurationError`. -/
def AddTraceSinksToSource (p : Participant) (configName : String) :
    List String → Option SilKitException
  | [] => none
  | sinkName :: rest =>
      if sinkName ∈ p.traceSinks then AddTraceSinksToSource p configName rest
      else
        some (.ConfigurationError
          ("Controller " ++ configName ++ " refers to non-existing sink " ++ sinkName))

/-- The member function `CreateDataPublisher(canonicalName, dataSpec, history)`; `uuid` is
the value of `to_string(Util::Uuid::GenerateRandom())`. The structure follows the source:
the history check, the merge of configuration and arguments, the sorted labels, the
supplemental data, `CreateController`, `SetHistoryLengthForLink`, the trace sinks. Trace
logging and the replay scheduler touch no member of the participant modelled here. -/
def CreateDataPublisher (D : ParticipantDeclarations) (fuel : Nat) (p : Participant)
    (canonicalName : String) (dataSpec : PubSubSpec) (history : Nat) (uuid : String) :
    Outcome Controller :=
  if history > 1 then
    .thrown p (.ConfigurationError "DataPublishers do not support history > 1.")
  else
    let network := uuid
    let found := GetConfigByControllerName p.dataPublishers canonicalName
    let updated := p.UpdateOptionalConfigValue canonicalName found.topic dataSpec.topic
    let controllerConfig := { found with topic := updated.2 }
    let labels := dataSpec.labels.insertionSort (fun v1 v2 => v1.key ≤ v2.key)
    let configuredDataNodeSpec : PubSubSpec :=
      { topic := controllerConfig.topic.getD "", mediaType := dataSpec.mediaType,
        labels := labels }
    let supplementalData :=
      ((((SupplementalData.set [] D.controllerType D.controllerTypeDataPublisher).set
          D.supplKeyDataPublisherTopic configuredDataNodeSpec.topic).set
          D.supplKeyDataPublisherPubUUID network).set
          D.supplKeyDataPublisherMediaType configuredDataNodeSpec.mediaType).set
          D.supplKeyDataPublisherPubLabels (D.SerializeLabels labels)
    match CreateController D fuel updated.1
        { controllerT := .DataPublisher
          name := controllerConfig.name
          networkType := D.GetNetworkType .DataPublisher
          network := network
          supplementalData := supplementalData
          publishService := true } with
    | .returned p1 controller =>
        let p2 := p1.setHistoryLengthForLink history controller.serviceDescriptor
        if D.isTraceMessageSource .DataPublisher then
          match p2.AddTraceSinksToSource controllerConfig.name controllerConfig.useTraceSinks with
          | some e => .thrown p2 e
          | none => .returned p2 controller
        else .returned p2 controller
    | .thrown p1 e => .thrown p1 e
    | .unfinished => .unfinished

/-- The member function `GetLifecycleService`. -/
def GetLifecycleService (D : ParticipantDeclarations) (fuel : Nat) (p : Participant) :
    Outcome Controller :=
  match p.GetController .LifecycleService D.controllerTypeLifecycleService with
  | some lifecycleService => .returned p lifecycleService
  | none =>
      CreateController D fuel p
        { controllerT := .LifecycleService
          name := D.controllerTypeLifecycleService
          networkType := D.GetNetworkType .LifecycleService
          network := "default"
          supplementalData :=
            SupplementalData.set [] D.controllerType D.controllerTypeLifecycleService
          publishService := false }

/-- The member function `CreateLifecycleService(startConfiguration)`. -/
def CreateLifecycleService (D : ParticipantDeclarations) (fuel : Nat) (p : Participant)
    (startConfiguration : OperationMode) : Outcome Controller :=
  if p.isLifecycleServiceCreated then
    .thrown p (.SilKitError "You may not create the lifecycle service more than once.")
  else
    match GetLifecycleService D fuel { p with isLifecycleServiceCreated := true } with
    | .returned p1 lifecycleService =>
        let configured :=
          { lifecycleService with lifecycleConfiguration := some startConfiguration }
        .returned
          (p1.storeController .LifecycleService D.controllerTypeLifecycleService configured)
          configured
    | .thrown p1 e => .thrown p1 e
    | .unfinished => .unfinished

/-- The member function `GetSystemMonitor`. -/
def GetSystemMonitor (D : ParticipantDeclarations) (fuel : Nat) (p : Participant) :
    Outcome Controller :=
  match p.GetController .SystemMonitor D.controllerTypeSystemMonitor with
  | some controller => .returned p controller
  | none =>
      match CreateController D fuel p
          { controllerT := .SystemMonitor
            name := D.controllerTypeSystemMonitor
            networkType := D.GetNetworkType .SystemMonitor
            network := "default"
            supplementalData :=
              SupplementalData.set [] D.controllerType D.controllerTypeSystemMonitor
            publishService := true } with
      | .returned p1 controller =>
          .returned
            ((p1.registerMessageReceiver .SystemMonitor).registerPeerShutdownCallback
              .SystemMonitor)
            controller
      | .thrown p1 e => .thrown p1 e
      | .unfinished => .unfinished

/-- The member function `CreateSystemMonitor`. -/
def CreateSystemMonitor (D : ParticipantDeclarations) (fuel : Nat) (p : Participant) :
    Outcome Controller :=
  if p.isSystemMonitorCreated then
    .thrown p (.SilKitError "You may not create the system monitor more than once.")
  else GetSystemMonitor D fuel { p with isSystemMonitorCreated := true }

/-- The member function `CreateTimeSyncService(service)`; `service` is the address of the
lifecycle service. -/
def CreateTimeSyncService (D : ParticipantDeclarations) (fuel : Nat) (p : Participant)
    (service : Nat) : Outcome Controller :=
  match p.GetController .TimeSyncService D.controllerTypeTimeSyncService with
  | some _ => .thrown p (.SilKitError "Tried to instantiate TimeSyncService multiple times!")
  | none =>
      match CreateController D fuel p
          { controllerT := .TimeSyncService
            name := D.controllerTypeTimeSyncService
            networkType := D.GetNetworkType .TimeSyncService
            network := "default"
            supplementalData :=
              SupplementalData.set [] D.controllerType D.controllerTypeTimeSyncService
            publishService := false } with
      | .returned p1 timeSyncService =>
          let bound := { timeSyncService with lifecycleService := some service }
          .returned
            (p1.storeController .TimeSyncService D.controllerTypeTimeSyncService bound) bound
      | .thrown p1 e => .thrown p1 e
      | .unfinished => .unfinished

/-- A sequence of `CreateController` calls, first to last, on the participant each call
leaves behind; the second component lists the controllers the successful calls
returned, in the order of their creation. -/
def createControllers (D : ParticipantDeclarations) (fuel : Nat) :
    Participant → List CreateControllerArgs → Participant × List Controller
  | p, [] => (p, [])
  | p, a :: rest =>
      match CreateController D fuel p a with
      | .returned p1 controller =>
          ((createControllers D fuel p1 rest).1,
            controller :: (createControllers D fuel p1 rest).2)
      | .thrown p1 _ => createControllers D fuel p1 rest
      | .unfinished => createControllers D fuel p rest

/-- The controllers of a participant are consistent: each is stored under its own class
and service name, its service id is below `_localEndpointId`, and no two stored
controllers share a service id. -/
def Consistent (p : Participant) : Prop :=
  ∀ t n c, p.controllers t n = some c →
    c.controllerT = t ∧ c.serviceName = n ∧ c.serviceId < p.localEndpointId
      ∧ ∀ t2 n2 c2, p.controllers t2 n2 = some c2 → c2.serviceId = c.serviceId →
          t2 = t ∧ n2 = n

end Participant

end Core
end SilKit

namespace SilKit
namespace Core

/-- A sample instance of the declarations: the names of the internal controllers, a
64-bit endpoint id, labels serialized as `key=value;`, no controller class a trace
message source. -/
def sampleParticipantDeclarations : ParticipantDeclarations :=
  { controllerType := "controller.type"
    controllerTypeLifecycleService := "LifecycleService"
    controllerTypeTimeSyncService := "TimeSyncService"
    controllerTypeSystemMonitor := "SystemMonitor"
    controllerTypeServiceDiscovery := "ServiceDiscovery"
    controllerTypeDataPublisher := "DataPublisher"
    supplKeyDataPublisherTopic := "controller.type.dataPublisher.topic"
    supplKeyDataPublisherPubUUID := "controller.type.dataPublisher.pubUUID"
    supplKeyDataPublisherMediaType := "controller.type.dataPublisher.mediaType"
    supplKeyDataPublisherPubLabels := "controller.type.dataPublisher.pubLabels"
    endpointIdBits := 64
    SerializeLabels := fun labels =>
      String.join (labels.map (fun label => label.key ++ "=" ++ label.value ++ ";"))
    isTraceMessageSource := fun _ => false
    GetNetworkType := fun controllerT =>
      match controllerT with
      | .CanController => .CAN
      | .EthController => .Ethernet
      | .FlexrayController => .FlexRay
      | .LinController => .LIN
      | .DataPublisher => .Data
      | .DataSubscriber => .Data
      | .DataSubscriberInternal => .Data
      | .RpcClient => .RPC
      | .RpcServer => .RPC
      | .RpcServerInternal => .RPC
      | _ => .Undefined }

/-- A sample participant `P1` as constructed, without configured controllers, first
endpoint id 1. -/
def sampleParticipant : Participant :=
  Participant.create "P1" [] [] 1

/-- Sample arguments of a published controller of the given class and name on network
`NET1`. -/
def sampleCreateArgs (controllerT : ControllerT) (name : String) :
    Participant.CreateControllerArgs :=
  { controllerT := controllerT
    name := name
    networkType := sampleParticipantDeclarations.GetNetworkType controllerT
    network := "NET1"
    supplementalData := []
    publishService := true }

end Core
end SilKit

namespace SilKit
namespace Core

/-- The participant a call leaves behind: the one of the outcome, and the one before the
call where the outcome has none. -/
def Outcome.participantAfter {α : Type} (p : Participant) : Outcome α → Participant
  | .returned p1 _ => p1
  | .thrown p1 _ => p1
  | .unfinished => p

/-- The calls on a participant modelled here, with their arguments. -/
inductive ParticipantCall where
  | CreateController (a : Participant.CreateControllerArgs)
  | CreateDataPublisher (canonicalName : String) (dataSpec : PubSubSpec) (history : Nat)
      (uuid : String)
  | CreateLifecycleService (startConfiguration : OperationMode)
  | CreateSystemMonitor
  | CreateTimeSyncService (service : Nat)
  | GetLifecycleService
  | GetSystemMonitor
  | GetServiceDiscovery

/-- One call on the participant. -/
def ParticipantCall.run (D : ParticipantDeclarations) (fuel : Nat) (p : Participant) :
    ParticipantCall → Outcome Controller
  | .CreateController a => p.CreateController D fuel a
  | .CreateDataPublisher canonicalName dataSpec history uuid =>
      p.CreateDataPublisher D fuel canonicalName dataSpec history uuid
  | .CreateLifecycleService startConfiguration =>
      p.CreateLifecycleService D fuel startConfiguration
  | .CreateSystemMonitor => p.CreateSystemMonitor D fuel
  | .CreateTimeSyncService service => p.CreateTimeSyncService D fuel service
  | .GetLifecycleService => p.GetLifecycleService D fuel
  | .GetSystemMonitor => p.GetSystemMonitor D fuel
  | .GetServiceDiscovery => p.GetServiceDiscovery D fuel

/-- A sequence of calls on the participant, first to last; a call that throws leaves the
participant as it was at the throw. -/
def runCalls (D : ParticipantDeclarations) (fuel : Nat) :
    Participant → List ParticipantCall → Participant
  | p, [] => p
  | p, call :: rest => runCalls D fuel ((call.run D fuel p).participantAfter p) rest

end Core
end SilKit

namespace SilKit
namespace Core

/-- What registration uses of a service class `SilKitServiceT`: its member types
`SilKitReceiveMessagesTypes` and `SilKitSendMessagesTypes` (tuples of message types, here
lists in the order of the tuple) and the value of
`SilKitServiceTraits<SilKitServiceT>::UseAsyncRegistration()`. The service classes and
`SilKitServiceTraits.hpp` are declared outside the sources at hand, so they are a
parameter. -/
structure SilKitServiceTraits where
  SilKitReceiveMessagesTypes : List SilKitMessageTypes
  SilKitSendMessagesTypes : List SilKitMessageTypes
  UseAsyncRegistration : Bool

/-- A `std::promise<void>` that has a shared state, by whether a value is stored in it. -/
structure Promise where
  satisfied : Bool
  deriving DecidableEq, Repr

/-- A promise as constructed, `std::promise<void>{}`: no value is stored. -/
def Promise.fresh : Promise :=
  { satisfied := false }

/-- The exception `std::future_error`, by its error code; `set_value` throws it with
`std::future_errc::promise_already_satisfied`. -/
inductive future_error where
  | promise_already_satisfied
  deriving DecidableEq, Repr

/-- The call `set_value()`: it stores the value, and it throws `std::future_error` if a
value is stored already. -/
def Promise.set_value (promise : Promise) : Except future_error Promise :=
  if promise.satisfied then .error .promise_already_satisfied
  else .ok { satisfied := true }

/-- The connection with the two further members that service registration reads or writes:
`_serviceToLinkMap` (per message type, from the network name of the service to the link,
which is named by its network) and the promise `_receivedAllSubscriptionAcknowledges`. -/
structure VAsioConnectionServices where
  connection : VAsioConnection
  serviceToLinkMap : SilKitMessageTypes → String → Option String
  receivedAllSubscriptionAcknowledges : Promise

namespace VAsioConnectionServices

/-- The two members as constructed, around a connection. -/
def create (connection : VAsioConnection) : VAsioConnectionServices :=
  { connection := connection
    serviceToLinkMap := fun _ _ => none
    receivedAllSubscriptionAcknowledges := Promise.fresh }

/-- The member function `RegisterSilKitMsgSender<SilKitMessageT>(networkName,
serviceId)`. -/
def RegisterSilKitMsgSender (s : VAsioConnectionServices) (msg : SilKitMessageTypes)
    (networkName : String) (serviceId : ServiceDescriptor) : VAsioConnectionServices :=
  let found := s.connection.GetLinkByName msg networkName
  { s with
    connection := found.1
    serviceToLinkMap := fun m n =>
      if m = msg ∧ n = serviceId.networkName then some found.2.name
      else s.serviceToLinkMap m n }

/-- The first loop of `RegisterSilKitServiceImpl`: `RegisterSilKitMsgReceiver` for every
message type the service receives. -/
def registerReceivers (D : VAsioDeclarations) (useAsyncRegistration : Bool)
    (link : String) (service : MessageReceiver) :
    List SilKitMessageTypes → VAsioConnection → VAsioConnection
  | [], conn => conn
  | msg :: rest, conn =>
      registerReceivers D useAsyncRegistration link service rest
        (VAsioConnection.RegisterSilKitMsgReceiver D useAsyncRegistration conn msg link service)

/-- The second loop of `RegisterSilKitServiceImpl`: `RegisterSilKitMsgSender` for every
message type the service sends. -/
def registerSenders (link : String) (service : MessageReceiver) :
    List SilKitMessageTypes → VAsioConnectionServices → VAsioConnectionServices
  | [], s => s
  | msg :: rest, s =>
      registerSenders link service rest
        (s.RegisterSilKitMsgSender msg link service.serviceDescriptor)

/-- The member function `RegisterSilKitServiceImpl<SilKitServiceT>(link, endpointId,
service)`; `traits` stands for `SilKitServiceT`, and the service object is both the local
receiver and the service endpoint. The second component is the exception the call ends
with, if `set_value` throws; the registrations are done by then. -/
def RegisterSilKitServiceImpl (D : VAsioDeclarations) (traits : SilKitServiceTraits)
    (s : VAsioConnectionServices) (link : String) (service : MessageReceiver) :
    VAsioConnectionServices × Option future_error :=
  let s1 :=
    { s with
      connection :=
        registerReceivers D traits.UseAsyncRegistration link service
          traits.SilKitReceiveMessagesTypes s.connection }
  let s2 := registerSenders link service traits.SilKitSendMessagesTypes s1
  if !traits.UseAsyncRegistration then
    if s2.connection.pendingSubscriptionAcknowledges.isEmpty then
      match s2.receivedAllSubscriptionAcknowledges.set_value with
      | .ok promise => ({ s2 with receivedAllSubscriptionAcknowledges := promise }, none)
      | .error e => (s2, some e)
    else (s2, none)
  else (s2, none)

/-- The member function `RegisterSilKitService<SilKitServiceT>(link, endpointId, service)`
up to the wait on the future: for synchronous registration the promise is replaced by a
fresh one, then `RegisterSilKitServiceImpl` runs. The caller then waits until the promise
is fulfilled. The `assert` that no acknowledgement is pending is a precondition. -/
def RegisterSilKitService (D : VAsioDeclarations) (traits : SilKitServiceTraits)
    (s : VAsioConnectionServices) (link : String) (service : MessageReceiver) :
    VAsioConnectionServices × Option future_error :=
  let s1 :=
    if !traits.UseAsyncRegistration then
      { s with receivedAllSubscriptionAcknowledges := Promise.fresh }
    else s
  RegisterSilKitServiceImpl D traits s1 link service

end VAsioConnectionServices

/-- The subscription records of the receivers allocated between two states of the
connection, in the order of allocation. -/
def VAsioConnection.subscriptionsSince (before after : VAsioConnection) :
    List VAsioMsgSubscriber :=
  (after.vasioReceivers.drop before.vasioReceivers.length).map (fun r => r.subscriptionInfo)

/-- The new subscription keys of a service registration, by their receiver ids: the ids
`link + "/" + serdes name` of the message types the service receives, each once, that
are not among the receiver ids registered before. This follows the words of the
specification ("if new, allocate a fresh receiver index"), not the code. -/
def newSubscriptionKeys (D : VAsioDeclarations) (registered : List String) (link : String)
    (receiveMessageTypes : List SilKitMessageTypes) : List String :=
  ((receiveMessageTypes.map
      (fun msg => VAsioConnection.uniqueReceiverId link (D.SerdesName msg))).dedup).filter
    (fun id => id ∉ registered)

/-- Sample traits of a service that receives two message types and sends one, registered
synchronously. -/
def sampleTraits : SilKitServiceTraits :=
  { SilKitReceiveMessagesTypes := [.CanFrameEvent, .ParticipantStatus]
    SilKitSendMessagesTypes := [.CanFrameEvent]
    UseAsyncRegistration := false }

/-- A sample state: participant `P1`, connected to two peers, nothing registered. -/
def sampleConnectionServices : VAsioConnectionServices :=
  VAsioConnectionServices.create
    (VAsioConnection.create "P1"
      [{ address := 10, subscribed := [] }, { address := 11, subscribed := [] }])

end Core
end SilKit

namespace SilKit
namespace Core
namespace Discovery

/-- Modelled from the spec: the type of a `ServiceDiscoveryEvent` (section 4.4,
`ServiceDiscoveryEvent {Created|Removed, ServiceDescriptor}`); the enumerators are those
the handler of `ServiceDiscoveryITest.cpp` switches over. `ServiceDiscovery.cpp` and the
discovery data types are not part of the sources. -/
inductive ServiceDiscoveryEventType where
  | Invalid
  | ServiceCreated
  | ServiceRemoved
  deriving DecidableEq, Repr

/-- Modelled from the spec: a discovery event as a handler is called with it, the type
and the service descriptor (the data types of the discovery are not part of the
sources). -/
structure ServiceDiscoveryEvent where
  type : ServiceDiscoveryEventType
  serviceDescriptor : ServiceDescriptor
  deriving DecidableEq, Repr

/-- Modelled from the spec: the service discovery of one participant
(`ServiceDiscovery.cpp` is not part of the sources). `cache` is the table
`participantName → (serviceUniqueKey → ServiceDescriptor)` of section 4.4 as the list of
the cached descriptors, the unique key of a descriptor identifying it; the table of a
participant is the descriptors with its name. `handlers` holds, per registered generic
handler in the order of registration, the events the handler was called with. -/
structure ServiceDiscovery where
  participantName : String
  cache : List ServiceDescriptor
  handlers : List (List ServiceDiscoveryEvent)

namespace ServiceDiscovery

/-- Modelled from the spec: the service discovery as constructed, nothing cached and no
handler registered (`ServiceDiscovery.cpp` is not part of the sources). -/
def create (participantName : String) : ServiceDiscovery :=
  { participantName := participantName, cache := [], handlers := [] }

/-- Modelled from the spec: the cached table of one participant, "the cached table for
that participant" of section 4.4 (`ServiceDiscovery.cpp` is not part of the sources). -/
def servicesByParticipant (sd : ServiceDiscovery) (participantName : String) :
    List ServiceDescriptor :=
  sd.cache.filter (fun d => d.participantName = participantName)

/-- Modelled from the spec: `CallHandlers`, declared in `ServiceDiscovery.hpp`, whose
body is not part of the sources: "a generic handler fires for every create/remove"
(section 4.4). -/
def CallHandlers (sd : ServiceDiscovery) (type : ServiceDiscoveryEventType)
    (serviceDescriptor : ServiceDescriptor) : ServiceDiscovery :=
  { sd with
    handlers :=
      sd.handlers.map (fun called =>
        called ++ [{ type := type, serviceDescriptor := serviceDescriptor }]) }

/-- Modelled from the spec: `ReceivedServiceAddition`, declared in `ServiceDiscovery.hpp`,
whose body is not part of the sources: a descriptor that is not cached is cached and
the handlers are called with `ServiceCreated`; a cached one is known already ("a service
descriptor, once announced", section 3). -/
def ReceivedServiceAddition (sd : ServiceDiscovery) (serviceDescriptor : ServiceDescriptor) :
    ServiceDiscovery :=
  if serviceDescriptor ∈ sd.cache then sd
  else
    CallHandlers { sd with cache := sd.cache ++ [serviceDescriptor] } .ServiceCreated
      serviceDescriptor

/-- Modelled from the spec: `ReceivedServiceRemoval`, declared in `ServiceDiscovery.hpp`,
whose body is not part of the sources: a cached descriptor is erased and the handlers
are called with `ServiceRemoved`; for a descriptor that is not cached nothing happens ("is
removed exactly once per source", section 3; "a `ServiceRemoved` for a given descriptor is
never observed before its `ServiceCreated`", section 5). -/
def ReceivedServiceRemoval (sd : ServiceDiscovery) (serviceDescriptor : ServiceDescriptor) :
    ServiceDiscovery :=
  if serviceDescriptor ∈ sd.cache then
    CallHandlers { sd with cache := sd.cache.erase serviceDescriptor } .ServiceRemoved
      serviceDescriptor
  else sd

/-- Modelled from the spec: the loop of the peer-shutdown callback over the cached table,
one `ServiceRemoved` per descriptor (`ServiceDiscovery.cpp` is not part of the
sources). -/
def removeAll : List ServiceDescriptor → ServiceDiscovery → ServiceDiscovery
  | [], sd => sd
  | d :: rest, sd => removeAll rest (sd.CallHandlers .ServiceRemoved d)

/-- Modelled from the spec: `OnParticpantRemoval(participantName)`, the peer-shutdown
callback `Participant::GetServiceDiscovery` registers, whose body is not part of the
sources: "the cached table for that participant is iterated and a `Removed` event is
synthesized for each descriptor before the entry is deleted" (section 4.4). -/
def OnParticpantRemoval (sd : ServiceDiscovery) (participantName : String) :
    ServiceDiscovery :=
  { removeAll (sd.servicesByParticipant participantName) sd with
    cache := sd.cache.filter (fun d => ¬ d.participantName = participantName) }

/-- Modelled from the spec: `RegisterServiceDiscoveryHandler`, whose body is not part of
the sources: the handler is registered and "the source invokes the handler immediately
for cached entries" (section 9, open question 1; `ServiceDiscoveryITest.cpp`: "the
registration will trigger the provided handler immediately"). -/
def RegisterServiceDiscoveryHandler (sd : ServiceDiscovery) : ServiceDiscovery :=
  { sd with
    handlers :=
      sd.handlers ++
        [sd.cache.map (fun d => { type := .ServiceCreated, serviceDescriptor := d })] }

/-- Modelled from the spec: the reception of a `ParticipantDiscoveryEvent`, the full
service table a participant dumps on the handshake (section 4.4): every descriptor is
an addition (`ServiceDiscovery.cpp` is not part of the sources). -/
def ReceiveParticipantDiscoveryEvent :
    List ServiceDescriptor → ServiceDiscovery → ServiceDiscovery
  | [], sd => sd
  | d :: rest, sd => ReceiveParticipantDiscoveryEvent rest (sd.ReceivedServiceAddition d)

/-- Modelled from the spec: the reception of a `ServiceDiscoveryEvent`, an incremental
update (section 4.4; `ServiceDiscovery.cpp` is not part of the sources). -/
def ReceiveServiceDiscoveryEvent (sd : ServiceDiscovery) (event : ServiceDiscoveryEvent) :
    ServiceDiscovery :=
  match event.type with
  | .ServiceCreated => sd.ReceivedServiceAddition event.serviceDescriptor
  | .ServiceRemoved => sd.ReceivedServiceRemoval event.serviceDescriptor
  | .Invalid => sd

end ServiceDiscovery

/-- Modelled from the spec: what happens to the service discovery of a participant: a
handler is registered, a discovery message of a peer arrives, or a peer disconnects
(section 4.4; `ServiceDiscovery.cpp` is not part of the sources). -/
inductive DiscoveryInput where
  | RegisterServiceDiscoveryHandler
  | ParticipantDiscoveryEvent (services : List ServiceDescriptor)
  | ServiceDiscoveryEvent (event : ServiceDiscoveryEvent)
  | OnParticpantRemoval (participantName : String)
  deriving DecidableEq, Repr

/-- Modelled from the spec: one input on the service discovery (see `DiscoveryInput`). -/
def ServiceDiscovery.step (sd : ServiceDiscovery) : DiscoveryInput → ServiceDiscovery
  | .RegisterServiceDiscoveryHandler => sd.RegisterServiceDiscoveryHandler
  | .ParticipantDiscoveryEvent services =>
      ServiceDiscovery.ReceiveParticipantDiscoveryEvent services sd
  | .ServiceDiscoveryEvent event => sd.ReceiveServiceDiscoveryEvent event
  | .OnParticpantRemoval participantName => sd.OnParticpantRemoval participantName

/-- Modelled from the spec: a sequence of inputs, first to last (see
`DiscoveryInput`). -/
def ServiceDiscovery.run (sd : ServiceDiscovery) (inputs : List DiscoveryInput) :
    ServiceDiscovery :=
  inputs.foldl ServiceDiscovery.step sd

/-- What a handler has seen of one descriptor, read off the events it was called with:
`some true` after a `ServiceCreated` that no `ServiceRemoved` has followed yet, `some
false` before the first `ServiceCreated` and after each `ServiceRemoved`, and `none` once
a `ServiceRemoved` came without a `ServiceCreated` before it or a second `ServiceCreated`
without a `ServiceRemoved` in between. -/
def observedOf (serviceDescriptor : ServiceDescriptor) :
    Option Bool → ServiceDiscoveryEvent → Option Bool
  | none, _ => none
  | some created, event =>
      if event.serviceDescriptor = serviceDescriptor then
        match event.type with
        | .ServiceCreated => if created then none else some true
        | .ServiceRemoved => if created then some false else none
        | .Invalid => some created
      else some created

/-- The state `observedOf` ends in over the events a handler was called with. -/
def observed (called : List ServiceDiscoveryEvent) (serviceDescriptor : ServiceDescriptor) :
    Option Bool :=
  called.foldl (observedOf serviceDescriptor) (some false)

/-- The service names of the events of one type about services of one participant, as
the handler of `ServiceDiscoveryITest.cpp` collects them. -/
def serviceNamesOf (type : ServiceDiscoveryEventType) (participantName : String)
    (called : List ServiceDiscoveryEvent) : List String :=
  (called.filter (fun event =>
      event.type = type ∧ event.serviceDescriptor.participantName = participantName)).map
    (fun event => event.serviceDescriptor.serviceName)

/-- The number of events of one type about one descriptor. -/
def countOf (type : ServiceDiscoveryEventType) (serviceDescriptor : ServiceDescriptor)
    (called : List ServiceDiscoveryEvent) : Nat :=
  called.count { type := type, serviceDescriptor := serviceDescriptor }

/-- The service discovery is coherent: no descriptor is cached twice, and every handler has
seen the creation, not yet followed by a removal, of exactly the cached descriptors. -/
def ServiceDiscovery.Coherent (sd : ServiceDiscovery) : Prop :=
  sd.cache.Nodup
    ∧ ∀ called ∈ sd.handlers, ∀ d, observed called d = some (decide (d ∈ sd.cache))

/-- The inputs of the test `discover_services` as the subscriber sees them: the publisher
announces five publishers, the handler is registered, the publisher leaves. -/
def discoverServicesInputs : List DiscoveryInput :=
  [.ParticipantDiscoveryEvent
      ((List.range 5).map (fun i =>
        { participantName := "Publisher", networkName := "default",
          serviceName := "PubCtrl" ++ toString i, serviceId := i + 1 })),
    .RegisterServiceDiscoveryHandler,
    .OnParticpantRemoval "Publisher"]

/-- The events the handler of the test `discover_services` is called with on
`discoverServicesInputs`: five creations, five removals. -/
def discoverServicesCalled : List ServiceDiscoveryEvent :=
  (List.range 5).map (fun i =>
      { type := .ServiceCreated
        serviceDescriptor :=
          { participantName := "Publisher", networkName := "default",
            serviceName := "PubCtrl" ++ toString i, serviceId := i + 1 } })
    ++ (List.range 5).map (fun i =>
      { type := .ServiceRemoved
        serviceDescriptor :=
          { participantName := "Publisher", networkName := "default",
            serviceName := "PubCtrl" ++ toString i, serviceId := i + 1 } })

end Discovery
end Core
end SilKit

namespace SilKit
namespace Services
namespace Orchestration

/-- Modelled from the spec: the time sync service of one synchronized participant under
the distributed time-quantum policy of section 4.7 (`TimeSyncService.cpp`, the policy and
`TimeConfiguration.hpp` are not part of the sources, only the class declaration is).
Times are nanoseconds. `stepSize` is the configured step size and `isAsync` tells which
of `SetSimulationStepHandler` and `SetSimulationStepHandlerAsync` set the handler;
`now` is the time of the step to execute next, or of the step in flight;
`otherNextTasks` is the quantum table, the last `NextSimTask` value received from every
other synchronized participant; `stepInFlight` holds while an asynchronous step waits for
`CompleteSimulationStep`; `handlerCalls` lists the arguments `(now, duration)` of the
handler invocations and `sentNextSimTasks` the values broadcast, first to last. -/
structure TimeSyncService where
  stepSize : Nat
  isAsync : Bool
  now : Nat
  otherNextTasks : List (String × Nat)
  isRunning : Bool
  stepInFlight : Bool
  handlerCalls : List (Nat × Nat)
  sentNextSimTasks : List Nat
  deriving DecidableEq, Repr

namespace TimeSyncService

/-- Modelled from the spec: the service after `SetSimulationStepHandler(fn, stepSize)` or
`SetSimulationStepHandlerAsync(fn, stepSize)`, before the time starts: the first step is
the one at 0 ("first `NextSimTask` value equals the step size, not 0", section 8), and
nothing was received from the other synchronized participants (`TimeSyncService.cpp` is
not part of the sources). -/
def create (stepSize : Nat) (isAsync : Bool) (others : List String) : TimeSyncService :=
  { stepSize := stepSize
    isAsync := isAsync
    now := 0
    otherNextTasks := others.map (fun name => (name, 0))
    isRunning := false
    stepInFlight := false
    handlerCalls := []
    sentNextSimTasks := [] }

/-- Modelled from the spec: the end of a simulation step: "after executing the simulation
step at time `t`, it broadcasts `NextSimTask{t + Δ}`" (section 4.7), and `t + Δ` is the
step to execute next (`TimeSyncService.cpp` is not part of the sources). -/
def finishStep (s : TimeSyncService) : TimeSyncService :=
  { s with
    stepInFlight := false
    now := s.now + s.stepSize
    sentNextSimTasks := s.sentNextSimTasks ++ [s.now + s.stepSize] }

/-- Modelled from the spec: `ExecuteSimStep(timePoint, duration)`, declared in
`TimeSyncService.hpp`, whose body is not part of the sources: the handler is invoked
with `(now, stepSize)`; a synchronous handler "runs to completion before the next
NextSimTask is issued", an asynchronous one leaves the step in flight until
`CompleteSimulationStep` (section 4.7). -/
def ExecuteSimStep (s : TimeSyncService) : TimeSyncService :=
  let invoked := { s with handlerCalls := s.handlerCalls ++ [(s.now, s.stepSize)] }
  if s.isAsync then { invoked with stepInFlight := true } else invoked.finishStep

/-- Modelled from the spec: the barrier of the policy: the step at `now` may be executed
when the time runs, no step is in flight, and every other synchronized participant has
sent a `NextSimTask` with a value of at least `now` (section 4.7; the policy is not part
of the sources). -/
def mayExecute (s : TimeSyncService) : Bool :=
  s.isRunning && !s.stepInFlight && s.otherNextTasks.all (fun other => decide (s.now ≤ other.2))

/-- Modelled from the spec: the policy executes the next step if the barrier allows it,
one step at a time (section 4.7; the policy is not part of the sources). -/
def processTimeUpdate (s : TimeSyncService) : TimeSyncService :=
  if s.mayExecute then s.ExecuteSimStep else s

/-- Modelled from the spec: `StartTime`, declared in `TimeSyncService.hpp`, whose body is
not part of the sources: the time runs and the policy looks for the first step. -/
def StartTime (s : TimeSyncService) : TimeSyncService :=
  processTimeUpdate { s with isRunning := true }

/-- Modelled from the spec: `ReceiveMsg(from, NextSimTask)`, declared in
`TimeSyncService.hpp`, whose body is not part of the sources: the value is entered in the
quantum table under the sender, and the policy looks for the next step
(section 4.7). -/
def ReceiveMsg (s : TimeSyncService) (sender : String) (nextSimTask : Nat) :
    TimeSyncService :=
  processTimeUpdate
    { s with
      otherNextTasks :=
        s.otherNextTasks.filter (fun other => other.1 ≠ sender) ++ [(sender, nextSimTask)] }

/-- Modelled from the spec: `CompleteSimulationStep`, declared in `TimeSyncService.hpp`,
whose body is not part of the sources: it ends the asynchronous step in flight and
"releases the barrier"; "calling it while no step is in flight is a no-op"
(section 4.7). The next step is looked for when the executor resumes (section 5:
"it posts a resume onto the executor"). -/
def CompleteSimulationStep (s : TimeSyncService) : TimeSyncService :=
  if s.stepInFlight then s.finishStep else s

/-- Modelled from the spec: a lost peer is removed from the quantum table (section 4.3,
failure semantics), and the policy looks for the next step (`TimeSyncService.cpp` is not
part of the sources). -/
def RemoveParticipant (s : TimeSyncService) (participantName : String) : TimeSyncService :=
  processTimeUpdate
    { s with otherNextTasks := s.otherNextTasks.filter (fun other => other.1 ≠ participantName) }

end TimeSyncService

/-- Modelled from the spec: what happens to the time sync service, in the order of the
executor: the time starts, a `NextSimTask` of another participant arrives, the user calls
`CompleteSimulationStep`, the executor resumes the policy, a peer is lost (sections 4.7
and 5; `TimeSyncService.cpp` is not part of the sources). -/
inductive TimeSyncInput where
  | StartTime
  | ReceiveNextSimTask (sender : String) (nextSimTask : Nat)
  | CompleteSimulationStep
  | Resume
  | RemoveParticipant (participantName : String)
  deriving DecidableEq, Repr

/-- Modelled from the spec: one input on the time sync service (see `TimeSyncInput`). -/
def TimeSyncService.step (s : TimeSyncService) : TimeSyncInput → TimeSyncService
  | .StartTime => s.StartTime
  | .ReceiveNextSimTask sender nextSimTask => s.ReceiveMsg sender nextSimTask
  | .CompleteSimulationStep => s.CompleteSimulationStep
  | .Resume => s.processTimeUpdate
  | .RemoveParticipant participantName => s.RemoveParticipant participantName

/-- Modelled from the spec: a sequence of inputs, first to last (see `TimeSyncInput`). -/
def TimeSyncService.run (s : TimeSyncService) (inputs : List TimeSyncInput) :
    TimeSyncService :=
  inputs.foldl TimeSyncService.step s

/-- The time sync service is in step: the handler was invoked at 0, at the step size, at
twice the step size and so on, `now` is the time of the last invocation while that step is
in flight and one step size further otherwise, and every step that is not in flight was
followed by one `NextSimTask`. -/
def TimeSyncService.InStep (s : TimeSyncService) : Prop :=
  s.handlerCalls
      = (List.range s.handlerCalls.length).map (fun i => (i * s.stepSize, s.stepSize))
    ∧ s.handlerCalls.length = s.sentNextSimTasks.length + (if s.stepInFlight then 1 else 0)
    ∧ s.now = s.sentNextSimTasks.length * s.stepSize

/-- One millisecond in nanoseconds. -/
def ms : Nat := 1000000

/-- The inputs of the asynchronous participant of `AsyncSimTaskITest.cpp` (step size 7 ms)
next to a synchronous participant `Sync` with step size 1 ms, for its first three steps;
the handler calls `CompleteSimulationStep` three times in every step, as in the test
`test_async_simtask_multiple_completion_calls`. -/
def asyncParticipantInputs : List TimeSyncInput :=
  [.StartTime, .CompleteSimulationStep, .CompleteSimulationStep, .CompleteSimulationStep]
    ++ (List.range 7).map (fun i => .ReceiveNextSimTask "Sync" ((i + 1) * ms))
    ++ [.CompleteSimulationStep, .CompleteSimulationStep, .CompleteSimulationStep]
    ++ (List.range 7).map (fun i => .ReceiveNextSimTask "Sync" ((i + 8) * ms))
    ++ [.CompleteSimulationStep, .CompleteSimulationStep, .CompleteSimulationStep]

end Orchestration
end Services
end SilKit

namespace SilKit
namespace Core

/-! ## Further members of the participant and of the connection -/

namespace Participant

/-- The static member function template `GetConfigByControllerName<ConfigT>(controllers,
canonicalName)` for any configuration class: `name` reads the member `name`, and
`named n` is a default constructed `ConfigT` whose member `name` was set to `n`. -/
def GetConfigByControllerNameOf {ConfigT : Type} (name : ConfigT → String)
    (named : String → ConfigT) (controllers : List ConfigT) (canonicalName : String) :
    ConfigT :=
  match controllers.find? (fun controllerConfig => name controllerConfig == canonicalName) with
  | some found => found
  | none => named canonicalName

end Participant

namespace Participant

/-- The labels as `CreateDataPublisher` and `CreateDataSubscriber` sort them,
`std::sort(labels.begin(), labels.end(), ...)` with the comparison `v1.key < v2.key`. The
order `std::sort` leaves labels of equal keys in is not specified; here they keep the
order they came in. -/
def sortedLabels (labels : List MatchingLabel) : List MatchingLabel :=
  labels.insertionSort (fun v1 v2 => v1.key ≤ v2.key)

/-- The `configuredDataNodeSpec` of `CreateDataPublisher` and `CreateDataSubscriber`: the
configured topic, the media type of the specification passed, and its labels, sorted,
added one by one. -/
def configuredDataNodeSpec (topic : Option String) (dataSpec : PubSubSpec) : PubSubSpec :=
  { topic := topic.getD "", mediaType := dataSpec.mediaType,
    labels := sortedLabels dataSpec.labels }

end Participant

/-- A call the connection makes on a link when sending (`SilKitLink.hpp` is not part of
the sources, so the call is recorded, not carried out): the link, named by its network,
the sender, the message type and the message, and for `DispatchSilKitMessageToTarget`
the name of the target participant. -/
inductive LinkCall where
  | DistributeLocalSilKitMessage (link : String) (sender : ServiceDescriptor)
      (msg : SilKitMessageTypes) (message : Nat)
  | DispatchSilKitMessageToTarget (link : String) (sender : ServiceDescriptor)
      (targetParticipantName : String) (msg : SilKitMessageTypes) (message : Nat)
  deriving DecidableEq, Repr

namespace VAsioConnectionServices

/-- The member function `SendMsgImpl<SilKitMessageT>(from, msg)`: it throws
`std::runtime_error` (here the error, with the text of `what()`), or it calls
`DistributeLocalSilKitMessage` on the link found; the state is given back as the call
left it. `message` identifies the message. -/
def SendMsgImpl (s : VAsioConnectionServices) (msg : SilKitMessageTypes)
    (sender : ServiceDescriptor) (message : Nat) :
    Except String (VAsioConnectionServices × LinkCall) :=
  let key := sender.networkName
  match s.serviceToLinkMap msg key with
  | none => .error ("VAsioConnection::SendMsgImpl: sending on empty link for " ++ key)
  | some link => .ok (s, .DistributeLocalSilKitMessage link sender msg message)

/-- The member function `SendMsgToTargetImpl<SilKitMessageT>(from, targetParticipantName,
msg)`, see `SendMsgImpl`. -/
def SendMsgToTargetImpl (s : VAsioConnectionServices) (msg : SilKitMessageTypes)
    (sender : ServiceDescriptor) (targetParticipantName : String) (message : Nat) :
    Except String (VAsioConnectionServices × LinkCall) :=
  let key := sender.networkName
  match s.serviceToLinkMap msg key with
  | none => .error ("VAsioConnection::SendMsgImpl: sending on empty link for " ++ key)
  | some link =>
      .ok (s, .DispatchSilKitMessageToTarget link sender targetParticipantName msg message)

end VAsioConnectionServices

end Core
end SilKit

namespace SilKit
namespace Dashboard

/-! ## The dashboard (`Dashboard.cpp`) -/

/-- The calls on the caching event handler that the member functions of `Dashboard` pass
to `AccessCachingEventHandler`. Of the participant status, the system state and the
discovery event only a number is kept. -/
inductive CachingEventHandlerCall where
  | OnParticipantConnected (participantName : String)
  | OnLastParticipantDisconnected
  | OnParticipantStatusChanged (participantName : String) (status : Nat)
  | OnSystemStateChanged (systemState : Nat)
  | OnServiceDiscoveryEvent (discoveryType : Nat) (participantName : String)
      (serviceName : String)
  deriving DecidableEq, Repr

/-- The members of `Dashboard` that its handlers read or write: the participant name
`_participantInternal->GetParticipantName()`, the list `_connectedParticipants`, and the
calls passed to `AccessCachingEventHandler`, first to last. -/
structure Dashboard where
  participantName : String
  connectedParticipants : List String
  cachingEventHandlerCalls : List CachingEventHandlerCall
  deriving DecidableEq, Repr

namespace Dashboard

/-- The dashboard as constructed: nobody connected, no call made. -/
def create (participantName : String) : Dashboard :=
  { participantName := participantName, connectedParticipants := [],
    cachingEventHandlerCalls := [] }

/-- The call `AccessCachingEventHandler(...)` with a callable that makes the given call
on the caching event handler. -/
def AccessCachingEventHandler (d : Dashboard) (call : CachingEventHandlerCall) : Dashboard :=
  { d with cachingEventHandlerCalls := d.cachingEventHandlerCalls ++ [call] }

/-- The member function `OnParticipantConnected(participantInformation)`. -/
def OnParticipantConnected (d : Dashboard) (participantName : String) : Dashboard :=
  if participantName = d.participantName then d
  else
    AccessCachingEventHandler
      { d with connectedParticipants := d.connectedParticipants ++ [participantName] }
      (.OnParticipantConnected participantName)

/-- The member function `LastParticipantDisconnected(participantInformation)`: the
`erase` of what `std::remove_if` moved behind, and whether the list is empty then. -/
def LastParticipantDisconnected (d : Dashboard) (participantName : String) :
    Dashboard × Bool :=
  let remaining := d.connectedParticipants.filter (fun connected => !(connected == participantName))
  ({ d with connectedParticipants := remaining }, remaining.isEmpty)

/-- The member function `OnParticipantDisconnected(participantInformation)`. -/
def OnParticipantDisconnected (d : Dashboard) (participantName : String) : Dashboard :=
  if participantName = d.participantName then d
  else
    let last := d.LastParticipantDisconnected participantName
    if last.2 then AccessCachingEventHandler last.1 .OnLastParticipantDisconnected
    else last.1

/-- The member function `OnParticipantStatusChanged(participantStatus)`. -/
def OnParticipantStatusChanged (d : Dashboard) (participantName : String) (status : Nat) :
    Dashboard :=
  if participantName = d.participantName then d
  else AccessCachingEventHandler d (.OnParticipantStatusChanged participantName status)

/-- The member function `OnSystemStateChanged(systemState)`. -/
def OnSystemStateChanged (d : Dashboard) (systemState : Nat) : Dashboard :=
  AccessCachingEventHandler d (.OnSystemStateChanged systemState)

/-- The member function `OnServiceDiscoveryEvent(discoveryType, serviceDescriptor)`. -/
def OnServiceDiscoveryEvent (d : Dashboard) (discoveryType : Nat) (participantName : String)
    (serviceName : String) : Dashboard :=
  if participantName = d.participantName then d
  else
    AccessCachingEventHandler d
      (.OnServiceDiscoveryEvent discoveryType participantName serviceName)

end Dashboard

/-- The handlers the constructor of `Dashboard` registers at the system monitor and the
service discovery, as the events that invoke them. -/
inductive DashboardEvent where
  | ParticipantConnected (participantName : String)
  | ParticipantDisconnected (participantName : String)
  | ParticipantStatusChanged (participantName : String) (status : Nat)
  | SystemStateChanged (systemState : Nat)
  | ServiceDiscoveryEvent (discoveryType : Nat) (participantName : String)
      (serviceName : String)
  deriving DecidableEq, Repr

/-- One event: the handler registered for it runs. -/
def Dashboard.handle (d : Dashboard) : DashboardEvent → Dashboard
  | .ParticipantConnected participantName => d.OnParticipantConnected participantName
  | .ParticipantDisconnected participantName => d.OnParticipantDisconnected participantName
  | .ParticipantStatusChanged participantName status =>
      d.OnParticipantStatusChanged participantName status
  | .SystemStateChanged systemState => d.OnSystemStateChanged systemState
  | .ServiceDiscoveryEvent discoveryType participantName serviceName =>
      d.OnServiceDiscoveryEvent discoveryType participantName serviceName

/-- A sequence of events, first to last. -/
def Dashboard.handleAll (d : Dashboard) (events : List DashboardEvent) : Dashboard :=
  events.foldl Dashboard.handle d

end Dashboard

namespace Hourglass
namespace Impl
namespace Services
namespace Lin

/-! ## The LIN frame conversions of the hourglass (`LinController.hpp`) -/

/-- What the headers that are not part of the sources declare about the two frame types,
taken as a parameter: the widths in bits of the members `id`, `checksumModel` (the
underlying type of the enumeration), `dataLength` and of the elements of `data`, for the
C++ type `LinFrame` and for the C type `SilKit_LinFrame`; the number of elements of
`data` (the `static_assert` of `CxxToC` makes the two arrays the same size); and the
struct header `SilKit_Struct_Init(SilKit_LinFrame, ...)` sets. -/
structure LinFrameDeclarations where
  idBits : Nat
  checksumModelBits : Nat
  dataLengthBits : Nat
  dataBits : Nat
  cIdBits : Nat
  cChecksumModelBits : Nat
  cDataLengthBits : Nat
  cDataBits : Nat
  dataSize : Nat
  structHeader : Nat

/-- The C++ frame `SilKit::Services::Lin::LinFrame`; the checksum model by its underlying
value. -/
structure LinFrame where
  id : Nat
  checksumModel : Nat
  dataLength : Nat
  data : List Nat
  deriving DecidableEq, Repr

/-- The C frame `SilKit_LinFrame`. -/
structure SilKit_LinFrame where
  structHeader : Nat
  id : Nat
  checksumModel : Nat
  dataLength : Nat
  data : List Nat
  deriving DecidableEq, Repr

/-- A C++ frame holds values of its member types: every member is below two to the width
of its type, and `data` has `dataSize` elements. -/
def LinFrame.WellFormed (D : LinFrameDeclarations) (frame : LinFrame) : Prop :=
  frame.id < 2 ^ D.idBits ∧ frame.checksumModel < 2 ^ D.checksumModelBits
    ∧ frame.dataLength < 2 ^ D.dataLengthBits ∧ frame.data.length = D.dataSize
    ∧ ∀ x ∈ frame.data, x < 2 ^ D.dataBits

/-- The algorithm `std::copy_n(first, count, result)` on arrays as lists: the first
`count` elements of the source, converted to the element type of the destination of
`bits` bits, replace the first `count` elements of the destination. -/
def copy_n (bits : Nat) (source : List Nat) (count : Nat) (destination : List Nat) :
    List Nat :=
  (source.take count).map (fun x => x % 2 ^ bits) ++ destination.drop count

/-- The function `CxxToC(cxxLinFrame, cLinFrame)`; the result is `cLinFrame` after the
call (`SilKit_Struct_Init` zeroes the frame and sets its header). -/
def CxxToC (D : LinFrameDeclarations) (cxxLinFrame : LinFrame) : SilKit_LinFrame :=
  { structHeader := D.structHeader
    id := cxxLinFrame.id % 2 ^ D.cIdBits
    checksumModel := cxxLinFrame.checksumModel % 2 ^ D.cChecksumModelBits
    dataLength := cxxLinFrame.dataLength % 2 ^ D.cDataLengthBits
    data := copy_n D.cDataBits cxxLinFrame.data cxxLinFrame.data.length
      (List.replicate D.dataSize 0) }

/-- The frame of the event that the `cHandler` of `AddFrameStatusHandler` builds from the
frame of the C event: `event{}` is value initialized, then the members are assigned and
the data copied. The other members of the event (timestamp, status) are not modelled. -/
def cHandlerFrame (D : LinFrameDeclarations) (frame : SilKit_LinFrame) : LinFrame :=
  { id := frame.id % 2 ^ D.idBits
    checksumModel := frame.checksumModel % 2 ^ D.checksumModelBits
    dataLength := frame.dataLength % 2 ^ D.dataLengthBits
    data := copy_n D.dataBits frame.data D.dataSize (List.replicate D.dataSize 0) }

/-- The declarations with every member a byte and eight data bytes. -/
def sampleLinFrameDeclarations : LinFrameDeclarations :=
  { idBits := 8, checksumModelBits := 8, dataLengthBits := 8, dataBits := 8,
    cIdBits := 8, cChecksumModelBits := 8, cDataLengthBits := 8, cDataBits := 8,
    dataSize := 8, structHeader := 1 }

/-- A sample frame: id 17, checksum model 1, data length 4, eight data bytes. -/
def sampleLinFrame : LinFrame :=
  { id := 17, checksumModel := 1, dataLength := 4, data := [1, 2, 3, 4, 5, 6, 7, 8] }

end Lin

namespace Logging

/-! ## The logger of the hourglass (`Logger.hpp`) -/

/-- What the headers that are not part of the sources declare and `Logger.hpp` uses, taken
as a parameter: the width in bits of `SilKit_LoggingLevel`, the values of the
enumerators of `SilKit::Services::Logging::Level` and of the constants
`SilKit_LoggingLevel_...`, the return code `SilKit_ReturnCode_SUCCESS`, and the function
`ThrowOnError` of `CheckReturnCode.hpp` as the exception it throws for a return code, if
it throws. -/
structure LoggerDeclarations where
  loggingLevelBits : Nat
  Level_Trace : Nat
  Level_Debug : Nat
  Level_Info : Nat
  Level_Warn : Nat
  Level_Error : Nat
  Level_Critical : Nat
  SilKit_LoggingLevel_Trace : Nat
  SilKit_LoggingLevel_Debug : Nat
  SilKit_LoggingLevel_Info : Nat
  SilKit_LoggingLevel_Warn : Nat
  SilKit_LoggingLevel_Error : Nat
  SilKit_LoggingLevel_Critical : Nat
  SilKit_ReturnCode_SUCCESS : Nat
  ThrowOnError : Nat → Option String

/-- The C string `msg.c_str()` points to, as the C function reads it: the characters of
the message before the first null character. -/
def c_str (msg : String) : String :=
  String.mk (msg.data.takeWhile (fun c => c ≠ Char.ofNat 0))

/-- The logger by the calls of `SilKit_Logger_Log` it has made, each with the level and
the message passed, first to last. -/
structure Logger where
  calls : List (Nat × String)
  deriving DecidableEq, Repr

namespace Logger

/-- The call `SilKit_Logger_Log(_logger, loggingLevel, msg.c_str())` followed by
`ThrowOnError(returnCode)`; `capi` is the C function, as the return code it gives for a
level and a message. The result is the logger after the call and the exception thrown,
if one is. -/
def callLog (D : LoggerDeclarations) (capi : Nat → String → Nat) (logger : Logger)
    (loggingLevel : Nat) (msg : String) : Logger × Option String :=
  let returnCode := capi loggingLevel (c_str msg)
  ({ calls := logger.calls ++ [(loggingLevel, c_str msg)] }, D.ThrowOnError returnCode)

/-- The member function `Log(level, msg)`; the level by its underlying value, which
`static_cast<SilKit_LoggingLevel>` converts. -/
def Log (D : LoggerDeclarations) (capi : Nat → String → Nat) (logger : Logger) (level : Nat)
    (msg : String) : Logger × Option String :=
  let loggingLevel := level % 2 ^ D.loggingLevelBits
  callLog D capi logger loggingLevel msg

/-- The member function `Trace(msg)`. -/
def Trace (D : LoggerDeclarations) (capi : Nat → String → Nat) (logger : Logger)
    (msg : String) : Logger × Option String :=
  callLog D capi logger D.SilKit_LoggingLevel_Trace msg

/-- The member function `Debug(msg)`. -/
def Debug (D : LoggerDeclarations) (capi : Nat → String → Nat) (logger : Logger)
    (msg : String) : Logger × Option String :=
  callLog D capi logger D.SilKit_LoggingLevel_Debug msg

/-- The member function `Info(msg)`. -/
def Info (D : LoggerDeclarations) (capi : Nat → String → Nat) (logger : Logger)
    (msg : String) : Logger × Option String :=
  callLog D capi logger D.SilKit_LoggingLevel_Info msg

/-- The member function `Warn(msg)`. -/
def Warn (D : LoggerDeclarations) (capi : Nat → String → Nat) (logger : Logger)
    (msg : String) : Logger × Option String :=
  callLog D capi logger D.SilKit_LoggingLevel_Warn msg

/-- The member function `Error(msg)`. -/
def Error (D : LoggerDeclarations) (capi : Nat → String → Nat) (logger : Logger)
    (msg : String) : Logger × Option String :=
  callLog D capi logger D.SilKit_LoggingLevel_Error msg

/-- The member function `Critical(msg)`. -/
def Critical (D : LoggerDeclarations) (capi : Nat → String → Nat) (logger : Logger)
    (msg : String) : Logger × Option String :=
  callLog D capi logger D.SilKit_LoggingLevel_Critical msg

end Logger

/-- The declarations with the levels 0 to 5 on both sides, 32 bits, return code 0 for
success, and an exception for every other return code. -/
def sampleLoggerDeclarations : LoggerDeclarations :=
  { loggingLevelBits := 32
    Level_Trace := 0, Level_Debug := 1, Level_Info := 2, Level_Warn := 3, Level_Error := 4,
    Level_Critical := 5
    SilKit_LoggingLevel_Trace := 0, SilKit_LoggingLevel_Debug := 1,
    SilKit_LoggingLevel_Info := 2, SilKit_LoggingLevel_Warn := 3,
    SilKit_LoggingLevel_Error := 4, SilKit_LoggingLevel_Critical := 5
    SilKit_ReturnCode_SUCCESS := 0
    ThrowOnError := fun returnCode => if returnCode = 0 then none else some "SilKitError" }

/-- A message with a null character after its first letter. -/
def messageWithNull : String :=
  String.mk ['a', Char.ofNat 0, 'b']

end Logging
end Services
end Impl
end Hourglass
end SilKit

namespace RpcDemo

/-! ## The RPC demo (`RpcDemo.cpp`) -/

/-- The serializer and deserializer of `silkit/util/serdes/Serialization.hpp`, which is not
part of the sources, taken as a parameter: `Serialize` is a `Serializer` on which
`Serialize(vector)` and `ReleaseBuffer()` are called, `Deserialize` a `Deserializer` on
the buffer on which `Deserialize<std::vector<uint8_t>>()` is called; it gives nothing
where that throws. Buffers and vectors are lists of bytes. -/
structure SerDes where
  Serialize : List Nat → List Nat
  Deserialize : List Nat → Option (List Nat)

/-- The event `RpcCallEvent`: the call handle and the argument data. -/
structure RpcCallEvent where
  callHandle : Nat
  argumentData : List Nat
  deriving DecidableEq, Repr

/-- The arguments of `server->SubmitResult(callHandle, resultData)`. -/
structure SubmitResult where
  callHandle : Nat
  resultData : List Nat
  deriving DecidableEq, Repr

/-- The function `RemoteFunc_Add100(server, event)`: the result it submits, and nothing
where the deserializer throws. The statement `v += 100` is on a `uint8_t`. -/
def RemoteFunc_Add100 (serdes : SerDes) (event : RpcCallEvent) : Option SubmitResult :=
  match serdes.Deserialize event.argumentData with
  | none => none
  | some argumentData =>
      let resultData := argumentData.map (fun v => (v + 100) % 2 ^ 8)
      some { callHandle := event.callHandle, resultData := serdes.Serialize resultData }

/-- The result data `CallReturn(client, event)` deserializes from the event, and nothing
where the deserializer throws. -/
def CallReturn (serdes : SerDes) (resultData : List Nat) : Option (List Nat) :=
  serdes.Deserialize resultData

/-- The round trip of one call: the client serializes the argument data (`Call`), the
server runs `RemoteFunc_Add100` on them, the client deserializes what the server
submitted (`CallReturn`). -/
def callAdd100 (serdes : SerDes) (callHandle : Nat) (argumentData : List Nat) :
    Option (List Nat) :=
  match RemoteFunc_Add100 serdes
      { callHandle := callHandle, argumentData := serdes.Serialize argumentData } with
  | none => none
  | some submitted => CallReturn serdes submitted.resultData

/-- A sample serializer: the buffer is the length of the vector followed by its bytes. -/
def sampleSerDes : SerDes :=
  { Serialize := fun v => v.length :: v
    Deserialize := fun buffer =>
      match buffer with
      | [] => none
      | n :: rest => if rest.length = n then some rest else none }

end RpcDemo

namespace SilKit
namespace Services
namespace Lin

/-! ## The LIN controller (`LinControllerDetailedSimTest.cpp`) -/

/-- Modelled from the spec: the modes of a LIN controller, as `MakeControllerConfig` of
`LinControllerDetailedSimTest.cpp` is called with them (`LinController.cpp` and the LIN
data types are not part of the sources). -/
inductive LinControllerMode where
  | Inactive
  | Master
  | Slave
  deriving DecidableEq, Repr

/-- Modelled from the spec: the status of a LIN controller; `Unknown` is the status of a
controller `Init` was not called on, the other three are the values of the
`LinControllerStatusUpdate` messages the tests expect (`LinController.cpp` is not part
of the sources). -/
inductive LinControllerStatus where
  | Unknown
  | Operational
  | Sleep
  | SleepPending
  deriving DecidableEq, Repr

/-- Modelled from the spec: the checksum models `MakeFrame` of the tests is called with
(the LIN data types are not part of the sources). -/
inductive LinChecksumModel where
  | Unknown
  | Enhanced
  | Classic
  deriving DecidableEq, Repr

/-- Modelled from the spec: who gives the response of a frame `SendFrame` sends (the LIN
data types are not part of the sources). -/
inductive LinFrameResponseType where
  | MasterResponse
  | SlaveResponse
  | SlaveToSlave
  deriving DecidableEq, Repr

/-- Modelled from the spec: how a node responds to a LIN id, the `Unused`, RX and
`TxUnconditional` of scenario S2 (the LIN data types are not part of the sources). -/
inductive LinFrameResponseMode where
  | Unused
  | Rx
  | TxUnconditional
  deriving DecidableEq, Repr

/-- Modelled from the spec: the status a frame-status handler is called with; the tests
and scenario S2 name these (the LIN data types are not part of the sources). -/
inductive LinFrameStatus where
  | NOT_OK
  | LIN_TX_OK
  | LIN_RX_OK
  | LIN_RX_ERROR
  | LIN_RX_NO_RESPONSE
  deriving DecidableEq, Repr

/-- Modelled from the spec: a LIN frame as `MakeFrame` of the tests builds it: id,
checksum model, data length and the data bytes; `{}` in the tests is `default` (the LIN
data types are not part of the sources). -/
structure LinFrame where
  id : Nat
  checksumModel : LinChecksumModel
  dataLength : Nat
  data : List Nat
  deriving DecidableEq, Repr

/-- Modelled from the spec: the value-initialised frame, `{}` in the tests (the LIN data
types are not part of the sources). -/
instance : Inhabited LinFrame :=
  ⟨{ id := 0, checksumModel := .Unknown, dataLength := 0, data := List.replicate 8 0 }⟩

/-- Modelled from the spec: the response of a node to one LIN id (the LIN data types are
not part of the sources). -/
structure LinFrameResponse where
  frame : LinFrame
  responseMode : LinFrameResponseMode
  deriving DecidableEq, Repr

/-- Modelled from the spec: the value-initialised response, mode `Unused` (the LIN data
types are not part of the sources). -/
instance : Inhabited LinFrameResponse :=
  ⟨{ frame := default, responseMode := .Unused }⟩

/-- Modelled from the spec: the configuration `Init` is called with, the mode and the
frame responses the tests fill in (the LIN data types are not part of the sources). -/
structure LinControllerConfig where
  controllerMode : LinControllerMode
  frameResponses : List LinFrameResponse
  deriving DecidableEq, Repr

/-- Modelled from the spec: the messages the tests expect `SendMsg` of the participant
to be called with by a LIN controller (the LIN data types are not part of the
sources). -/
inductive LinMsg where
  | LinControllerConfig (config : LinControllerConfig)
  | LinSendFrameRequest (frame : LinFrame) (responseType : LinFrameResponseType)
  | LinSendFrameHeaderRequest (id : Nat)
  | LinControllerStatusUpdate (status : LinControllerStatus)
  | LinWakeupPulse
  | LinFrameResponseUpdate (frameResponses : List LinFrameResponse)
  deriving DecidableEq, Repr

/-- Modelled from the spec: the two exceptions the tests expect of a LIN controller,
`SilKit::StateError` (section 7, "operation requested in an incompatible state") and
`SilKit::ConfigurationError` (`LinController.cpp` is not part of the sources). -/
inductive LinException where
  | StateError
  | ConfigurationError
  deriving DecidableEq, Repr

/-- Modelled from the spec: the go-to-sleep frame, id 60 (scenario S2, "id 60
go-to-sleep") with first data byte 0, which the test `not_call_gotosleep_handler` changes
to get a frame that is none (the LIN data types are not part of the sources). -/
def GoToSleepFrame : LinFrame :=
  { id := 60, checksumModel := .Classic, dataLength := 8
    data := [0, 255, 255, 255, 255, 255, 255, 255] }

/-- Modelled from the spec: a LIN controller of `LinControllerDetailedSimTest.cpp`
(`LinController.cpp` is not part of the sources). `responses` is what
`GetThisLinNode().responses` gives, indexed by LIN id; `respondingSlaves` holds the ids
a slave whose configuration was received responds to with `TxUnconditional`; `sentMsgs`
holds the messages given to `SendMsg` of the participant, in order, and
`frameStatusHandlerCalls` the calls of the frame-status handlers. -/
structure LinController where
  controllerMode : LinControllerMode
  controllerStatus : LinControllerStatus
  responses : List LinFrameResponse
  respondingSlaves : List Nat
  sentMsgs : List LinMsg
  frameStatusHandlerCalls : List (LinFrame × LinFrameStatus)
  deriving DecidableEq, Repr

namespace LinController

/-- Modelled from the spec: the controller as the fixture of the tests constructs it,
before `Init`: mode `Inactive`, status `Unknown`, nothing sent (`LinController.cpp` is
not part of the sources). -/
def create : LinController :=
  { controllerMode := .Inactive, controllerStatus := .Unknown
    responses := List.replicate 64 default, respondingSlaves := [], sentMsgs := []
    frameStatusHandlerCalls := [] }

/-- Modelled from the spec: the check of the operations that need a configured
controller (section 7, "operation requested in an incompatible state (`SendFrame` before
`Init` ...). Surfaced to caller."): a controller whose status is `Unknown` gives
`StateError` (`LinController.cpp` is not part of the sources). -/
def ThrowIfUninitialized (c : LinController) : Option LinException :=
  if c.controllerStatus = .Unknown then some .StateError else none

/-- Modelled from the spec: `SendMsg` of the participant, called by the controller
(`LinController.cpp` is not part of the sources). -/
def SendMsg (c : LinController) (msg : LinMsg) : LinController :=
  { c with sentMsgs := c.sentMsgs ++ [msg] }

/-- Modelled from the spec: the response of this node for a LIN id is replaced
(`LinController.cpp` is not part of the sources). -/
def UpdateFrameResponse (c : LinController) (response : LinFrameResponse) : LinController :=
  { c with responses := c.responses.set response.frame.id response }

/-- Modelled from the spec: the status of the controller is set and sent as a
`LinControllerStatusUpdate`, the message the tests `go_to_sleep`, `go_to_sleep_internal`,
`wake_up` and `wake_up_internal` expect (`LinController.cpp` is not part of the
sources). -/
def SetControllerStatus (c : LinController) (status : LinControllerStatus) : LinController :=
  SendMsg { c with controllerStatus := status } (.LinControllerStatusUpdate status)

/-- Modelled from the spec: `Init` as the tests use it: the controller takes the mode and
the frame responses of the configuration, becomes `Operational` and sends the
configuration (`LinController.cpp` is not part of the sources). -/
def Init (c : LinController) (config : LinControllerConfig) :
    LinController × Option LinException :=
  let configured := config.frameResponses.foldl UpdateFrameResponse
    { c with controllerMode := config.controllerMode, controllerStatus := .Operational }
  (SendMsg configured (.LinControllerConfig config), none)

/-- Modelled from the spec: `ReceiveMsg` with the configuration of a slave, as the test
`send_frame` uses it: the ids the slave responds to with `TxUnconditional` have a
responding slave from then on (`LinController.cpp` is not part of the sources). -/
def ReceiveMsg_LinControllerConfig (c : LinController) (config : LinControllerConfig) :
    LinController :=
  { c with
    respondingSlaves := c.respondingSlaves
      ++ (config.frameResponses.filter (fun r => r.responseMode = .TxUnconditional)).map
          (fun r => r.frame.id) }

/-- Modelled from the spec: `SendFrame`. Before `Init` it throws `StateError` (test
`send_frame_unitialized`). A frame whose response is to come from a slave, with no slave
configured to respond, calls the frame-status handler with `LIN_RX_NO_RESPONSE` and sends
nothing (test `send_frame_without_configured_slave_response`); else the
`LinSendFrameRequest` is sent (test `send_frame`). `LinController.cpp` is not part of
the sources. -/
def SendFrame (c : LinController) (frame : LinFrame) (responseType : LinFrameResponseType) :
    LinController × Option LinException :=
  match ThrowIfUninitialized c with
  | some e => (c, some e)
  | none =>
    if responseType = .MasterResponse then
      (SendMsg (UpdateFrameResponse c { frame := frame, responseMode := .TxUnconditional })
        (.LinSendFrameRequest frame responseType), none)
    else if frame.id ∈ c.respondingSlaves then
      (SendMsg c (.LinSendFrameRequest frame responseType), none)
    else
      ({ c with
         frameStatusHandlerCalls := c.frameStatusHandlerCalls ++ [(frame, .LIN_RX_NO_RESPONSE)] },
       none)

/-- Modelled from the spec: `SendFrameHeader`: `StateError` before `Init` (test
`send_frame_header_unitialized`), else the `LinSendFrameHeaderRequest` with the id is
sent (test `send_frame_header`). `LinController.cpp` is not part of the sources. -/
def SendFrameHeader (c : LinController) (id : Nat) : LinController × Option LinException :=
  match ThrowIfUninitialized c with
  | some e => (c, some e)
  | none => (SendMsg c (.LinSendFrameHeaderRequest id), none)

/-- Modelled from the spec: `GoToSleep`: `StateError` before `Init` (test
`go_to_sleep_uninitialized`), else the go-to-sleep frame is sent as a master response
and the status becomes `SleepPending` (test `go_to_sleep`). `LinController.cpp` is not
part of the sources. -/
def GoToSleep (c : LinController) : LinController × Option LinException :=
  match ThrowIfUninitialized c with
  | some e => (c, some e)
  | none =>
    (SetControllerStatus (SendMsg c (.LinSendFrameRequest GoToSleepFrame .MasterResponse))
      .SleepPending, none)

/-- Modelled from the spec: `GoToSleepInternal`: `StateError` before `Init` (test
`go_to_sleep_internal_uninitialized`), else the status becomes `Sleep` and no frame is
sent (test `go_to_sleep_internal`). `LinController.cpp` is not part of the sources. -/
def GoToSleepInternal (c : LinController) : LinController × Option LinException :=
  match ThrowIfUninitialized c with
  | some e => (c, some e)
  | none => (SetControllerStatus c .Sleep, none)

/-- Modelled from the spec: `Wakeup`: `StateError` before `Init` (test
`wake_up_uninitialized`), else a wake-up pulse is sent and the status becomes
`Operational` (test `wake_up`). `LinController.cpp` is not part of the sources. -/
def Wakeup (c : LinController) : LinController × Option LinException :=
  match ThrowIfUninitialized c with
  | some e => (c, some e)
  | none => (SetControllerStatus (SendMsg c .LinWakeupPulse) .Operational, none)

/-- Modelled from the spec: `WakeupInternal`: `StateError` before `Init` (test
`wake_up_internal_uninitialized`), else the status becomes `Operational` and no pulse
is sent (test `wake_up_internal`). `LinController.cpp` is not part of the sources. -/
def WakeupInternal (c : LinController) : LinController × Option LinException :=
  match ThrowIfUninitialized c with
  | some e => (c, some e)
  | none => (SetControllerStatus c .Operational, none)

/-- Modelled from the spec: `UpdateTxBuffer`: `StateError` before `Init` (test
`update_tx_buffer_unitialized`); `ConfigurationError` for an id this node does not
respond to with `TxUnconditional` (test `update_tx_buffer_not_configured_for_tx`); else
the data of the response are replaced and a `LinFrameResponseUpdate` is sent (test
`update_tx_buffer`). `LinController.cpp` is not part of the sources. -/
def UpdateTxBuffer (c : LinController) (frame : LinFrame) :
    LinController × Option LinException :=
  match ThrowIfUninitialized c with
  | some e => (c, some e)
  | none =>
    let response := c.responses.getD frame.id default
    if response.responseMode ≠ .TxUnconditional then
      (c, some .ConfigurationError)
    else
      let updated : LinFrameResponse :=
        { response with frame := { response.frame with data := frame.data } }
      (SendMsg (UpdateFrameResponse c updated) (.LinFrameResponseUpdate [updated]), none)

end LinController

/-- Modelled from the spec: the seven operations of a LIN controller that need a
configured controller, with their arguments, and `Init` (`LinController.cpp` is not part
of the sources). -/
inductive LinControllerCall where
  | Init (config : LinControllerConfig)
  | SendFrame (frame : LinFrame) (responseType : LinFrameResponseType)
  | SendFrameHeader (id : Nat)
  | GoToSleep
  | GoToSleepInternal
  | Wakeup
  | WakeupInternal
  | UpdateTxBuffer (frame : LinFrame)
  deriving DecidableEq, Repr

/-- Modelled from the spec: whether a call is one of `Init`. -/
def LinControllerCall.isInit : LinControllerCall → Bool
  | .Init _ => true
  | _ => false

/-- Modelled from the spec: one call on a controller: the controller after the call and
the exception the call threw, if it threw. -/
def LinControllerCall.run (c : LinController) :
    LinControllerCall → LinController × Option LinException
  | .Init config => c.Init config
  | .SendFrame frame responseType => c.SendFrame frame responseType
  | .SendFrameHeader id => c.SendFrameHeader id
  | .GoToSleep => c.GoToSleep
  | .GoToSleepInternal => c.GoToSleepInternal
  | .Wakeup => c.Wakeup
  | .WakeupInternal => c.WakeupInternal
  | .UpdateTxBuffer frame => c.UpdateTxBuffer frame

/-- Modelled from the spec: a sequence of calls on a controller, each on the controller
the call before left: the controller after the last call and what each call threw. -/
def runLinControllerCalls (c : LinController) :
    List LinControllerCall → LinController × List (Option LinException)
  | [] => (c, [])
  | call :: calls =>
    let after := call.run c
    let rest := runLinControllerCalls after.1 calls
    (rest.1, after.2 :: rest.2)

/-- Modelled from the spec: `MakeControllerConfig` of the tests, a configuration with
the mode and no frame response. -/
def MakeControllerConfig (mode : LinControllerMode) : LinControllerConfig :=
  { controllerMode := mode, frameResponses := [] }

/-- Modelled from the spec: `MakeFrame` of the tests. -/
def MakeFrame (id : Nat) (checksumModel : LinChecksumModel) (dataLength : Nat)
    (data : List Nat) : LinFrame :=
  { id := id, checksumModel := checksumModel, dataLength := dataLength, data := data }

end Lin
end Services
end SilKit

/-! # Theorems -/

namespace SilKit
namespace Services
namespace Orchestration

open LifecycleService

/-! ## The unit tests of `LifecycleServiceTest.cpp`, replayed on the model

Each theorem runs the inputs of one test and states what its expectations check: the
published states (the `Times(n)` of every `SendMsg` expectation is the number of
occurrences in `sent`), the callback invocations and the values of `State()`. -/

/-- Test `start_stop_uncoordinated`. -/
theorem test_start_stop_uncoordinated :
    let svc := create 1 (some .returns) (some .returns) (some .returns) (some .returns)
    let s1 := run svc [.StartLifecycle { coordinatedStart := false, coordinatedStop := false }]
    let s2 := run s1 [.Stop]
    s1.State = .Running ∧ s2.State = .Shutdown
      ∧ s2.sent = [.ServicesCreated, .CommunicationInitializing, .CommunicationInitialized,
          .ReadyToRun, .Running, .Stopping, .Stopped, .ShuttingDown, .Shutdown]
      ∧ s2.commReadyCalls = 1 ∧ s2.startingCalls = 1 ∧ s2.stopCalls = 1
      ∧ s2.shutdownCalls = 1 := by
  decide

/-- Test `start_restart_stop_coordinated`. -/
theorem test_start_restart_stop_coordinated :
    let svc := create 1 (some .returns) (some .returns) (some .returns) (some .returns)
    let s1 := run svc [.StartLifecycle StartCoordinated]
    let s2 := run s1 [.SystemState .ServicesCreated]
    let s3 := run s2 [.SystemState .CommunicationInitializing]
    let s4 := run s3 [.SystemState .CommunicationInitialized]
    let s5 := run s4 [.SystemState .ReadyToRun, .SystemCommand .Run]
    let s6 := run s5 [.SystemCommand .Run]
    let s7 := run s6 [.Pause]
    let s8 := run s7 [.Continue]
    let s9 := run s8 [.SystemCommand .Stop]
    let s10 := run s9 [.SystemCommand .Stop]
    let s11 := run s10 [.ParticipantCommand { participant := 1, kind := .Restart }]
    let s12 := run s11 prepareInputs
    let s13 := run s12 [.SystemCommand .Run]
    let s14 := run s13 [.SystemCommand .Stop]
    let s15 := run s14 [.ParticipantCommand { participant := 1, kind := .Shutdown }]
    let s16 := run s15 [.ParticipantCommand { participant := 1, kind := .Shutdown }]
    s1.State = .ServicesCreated ∧ s2.State = .CommunicationInitializing
      ∧ s3.State = .CommunicationInitialized ∧ s4.State = .ReadyToRun
      ∧ s5.State = .Running ∧ s6.State = .Running ∧ s7.State = .Paused
      ∧ s8.State = .Running ∧ s9.State = .Stopped ∧ s10.State = .Stopped
      ∧ s11.State = .ServicesCreated ∧ s12.State = .ReadyToRun ∧ s13.State = .Running
      ∧ s14.State = .Stopped ∧ s15.State = .Shutdown ∧ s16.State = .Shutdown
      ∧ s16.sent = [.ServicesCreated, .CommunicationInitializing, .CommunicationInitialized,
          .ReadyToRun, .Running, .Paused, .Running, .Stopping, .Stopped,
          .ServicesCreated, .CommunicationInitializing, .CommunicationInitialized,
          .ReadyToRun, .Running, .Stopping, .Stopped, .ShuttingDown, .Shutdown]
      ∧ s16.commReadyCalls = 2 ∧ s16.startingCalls = 2 ∧ s16.stopCalls = 2
      ∧ s16.shutdownCalls = 1 := by
  decide

/-- Test `error_on_double_pause`. -/
theorem test_error_on_double_pause :
    let s1 := run (create 1 none none none none) coordinatedSetup
    let s2 := run s1 [.SystemCommand .Run, .SystemCommand .Run]
    let s3 := (LifecycleService.Pause s2).1
    s1.State = .ReadyToRun ∧ s2.State = .Running
      ∧ (LifecycleService.Pause s2).2 = false ∧ s3.State = .Paused
      ∧ (LifecycleService.Pause s3).2 = true
      ∧ (LifecycleService.Pause s3).1.sent = [.ServicesCreated, .CommunicationInitializing,
          .CommunicationInitialized, .ReadyToRun, .Running, .Paused, .Error] := by
  decide

/-- Test `error_handling_run_run_shutdown`. -/
theorem test_error_handling_run_run_shutdown :
    let s1 := run (create 1 none none (some .returns) (some .returns)) coordinatedSetup
    let s2 := run s1 [.SystemCommand .Run]
    let s3 := run s2 [.SystemCommand .Run]
    let s4 := run s3 [.ParticipantCommand { participant := 1, kind := .Shutdown }]
    s1.State = .ReadyToRun ∧ s2.State = .Running ∧ s3.State = .Running
      ∧ s4.State = .Error
      ∧ s4.sent = [.ServicesCreated, .CommunicationInitializing, .CommunicationInitialized,
          .ReadyToRun, .Running, .Error]
      ∧ s4.stopCalls = 0 ∧ s4.shutdownCalls = 0 := by
  decide

/-- Test `error_handling_error_recovery_restart`. -/
theorem test_error_handling_error_recovery_restart :
    let s1 := run (create 1 none none none (some .returns)) coordinatedSetup
    let s2 := run s1 [.SystemCommand .Run]
    let s3 := run s2 [.SystemCommand .Run]
    let s4 := run s3 [.ParticipantCommand { participant := 1, kind := .Shutdown }]
    let s5 := run s4 (.ParticipantCommand { participant := 1, kind := .Restart }
                        :: prepareInputs)
    let s6 := run s5 [.ParticipantCommand { participant := 1, kind := .Shutdown }]
    let s7 := run s6 [.ParticipantCommand { participant := 1, kind := .Shutdown }]
    s1.State = .ReadyToRun ∧ s2.State = .Running ∧ s3.State = .Running
      ∧ s4.State = .Error ∧ s5.State = .ReadyToRun ∧ s6.State = .Error
      ∧ s7.State = .Shutdown
      ∧ s7.sent = [.ServicesCreated, .CommunicationInitializing, .CommunicationInitialized,
          .ReadyToRun, .Running, .Error, .ServicesCreated, .CommunicationInitializing,
          .CommunicationInitialized, .ReadyToRun, .Error, .ShuttingDown, .Shutdown]
      ∧ s7.shutdownCalls = 1 := by
  decide

/-- Test `error_handling_exception_in_callback`. -/
theorem test_error_handling_exception_in_callback :
    let s1 := run (create 1 none none (some .throws) (some .throws)) coordinatedSetup
    let s2 := run s1 [.SystemCommand .Run]
    let s3 := run s2 [.SystemCommand .Stop]
    let s4 := run s3 [.ParticipantCommand { participant := 1, kind := .Shutdown }]
    s1.State = .ReadyToRun ∧ s2.State = .Running ∧ s3.State = .Error
      ∧ s4.State = .Shutdown
      ∧ s4.sent = [.ServicesCreated, .CommunicationInitializing, .CommunicationInitialized,
          .ReadyToRun, .Running, .Stopping, .Error, .ShuttingDown, .Shutdown]
      ∧ s4.stopCalls = 1 ∧ s4.shutdownCalls = 1 := by
  decide

/-- Test `Abort_ReadyToRun`. -/
theorem test_Abort_ReadyToRun :
    let s1 := run (create 1 none none none none) coordinatedSetup
    let s2 := run s1 [.SystemCommand .AbortSimulation]
    s1.State = .ReadyToRun ∧ s2.State = .Shutdown
      ∧ s2.sent = [.ServicesCreated, .CommunicationInitializing, .CommunicationInitialized,
          .ReadyToRun, .Stopped, .ShuttingDown, .Shutdown] := by
  decide

/-- Test `Abort_Running`. -/
theorem test_Abort_Running :
    let s1 := run (create 1 none none none none) coordinatedSetup
    let s2 := run s1 [.SystemCommand .Run]
    let s3 := run s2 [.SystemCommand .AbortSimulation]
    s1.State = .ReadyToRun ∧ s2.State = .Running ∧ s3.State = .Shutdown
      ∧ s3.sent = [.ServicesCreated, .CommunicationInitializing, .CommunicationInitialized,
          .ReadyToRun, .Running, .Stopped, .ShuttingDown, .Shutdown] := by
  decide

/-- Test `Abort_Paused`. -/
theorem test_Abort_Paused :
    let s1 := run (create 1 none none none none) coordinatedSetup
    let s2 := run s1 [.SystemCommand .Run, .Pause]
    let s3 := run s2 [.SystemCommand .AbortSimulation]
    s1.State = .ReadyToRun ∧ s2.State = .Paused ∧ s3.State = .Shutdown
      ∧ s3.sent = [.ServicesCreated, .CommunicationInitializing, .CommunicationInitialized,
          .ReadyToRun, .Running, .Paused, .Stopped, .ShuttingDown, .Shutdown] := by
  decide

/-- Test `Abort_Stopping`: the abort arrives inside the Stop callback. -/
theorem test_Abort_Stopping :
    let s1 := run (create 1 none none (some .receivesAbort) none) coordinatedSetup
    let s2 := run s1 [.SystemCommand .Run, .SystemCommand .Stop]
    s1.State = .ReadyToRun ∧ s2.State = .Shutdown
      ∧ s2.observedInHandler = [.Stopping] ∧ s2.stopCalls = 1
      ∧ s2.sent = [.ServicesCreated, .CommunicationInitializing, .CommunicationInitialized,
          .ReadyToRun, .Running, .Stopping, .Stopped, .ShuttingDown, .Shutdown] := by
  decide

/-- Test `Abort_Stop`. -/
theorem test_Abort_Stop :
    let s1 := run (create 1 none none none none) coordinatedSetup
    let s2 := run s1 [.SystemCommand .Run, .SystemCommand .Stop]
    let s3 := run s2 [.SystemCommand .AbortSimulation]
    s1.State = .ReadyToRun ∧ s2.State = .Stopped ∧ s3.State = .Shutdown
      ∧ s3.sent = [.ServicesCreated, .CommunicationInitializing, .CommunicationInitialized,
          .ReadyToRun, .Running, .Stopping, .Stopped, .ShuttingDown, .Shutdown] := by
  decide

/-- Test `Abort_ShuttingDown`: the abort arrives inside the Shutdown callback. -/
theorem test_Abort_ShuttingDown :
    let s1 := run (create 1 none none none (some .receivesAbort)) coordinatedSetup
    let s2 := run s1 [.SystemCommand .Run, .SystemCommand .Stop,
      .ParticipantCommand { participant := 1, kind := .Shutdown }]
    s1.State = .ReadyToRun ∧ s2.State = .Shutdown
      ∧ s2.observedInHandler = [.ShuttingDown] ∧ s2.shutdownCalls = 1
      ∧ s2.sent = [.ServicesCreated, .CommunicationInitializing, .CommunicationInitialized,
          .ReadyToRun, .Running, .Stopping, .Stopped, .ShuttingDown, .Shutdown] := by
  decide

/-- Test `Abort_Shutdown`. -/
theorem test_Abort_Shutdown :
    let s1 := run (create 1 none none none none) coordinatedSetup
    let s2 := run s1 [.SystemCommand .Run, .SystemCommand .Stop, .SystemCommand .AbortSimulation]
    s1.State = .ReadyToRun ∧ s2.State = .Shutdown
      ∧ s2.sent = [.ServicesCreated, .CommunicationInitializing, .CommunicationInitialized,
          .ReadyToRun, .Running, .Stopping, .Stopped, .ShuttingDown, .Shutdown] := by
  decide

/-- Test `Abort_LifecycleNotExecuted`. -/
theorem test_Abort_LifecycleNotExecuted :
    let s1 := create 1 none none none none
    let s2 := run s1 [.SystemCommand .AbortSimulation]
    s1.State = .Invalid ∧ s2.State = .Invalid ∧ s2.sent = [] := by
  decide

/-- Test `error_handling_exception_in_starting_callback`. -/
theorem test_error_handling_exception_in_starting_callback :
    let s1 := run (create 1 none (some .throws) none none) coordinatedSetup
    let s2 := run s1 [.SystemCommand .Run]
    s1.State = .ReadyToRun ∧ s2.State = .Error ∧ s2.startingCalls = 1
      ∧ s2.sent = [.ServicesCreated, .CommunicationInitializing, .CommunicationInitialized,
          .ReadyToRun, .Error] := by
  decide

/-! ## Claims about the lifecycle service -/

/-- C1: a coordinated participant (coordinatedStart and coordinatedStop) that starts in
`Invalid` and receives StartLifecycle, the system states ServicesCreated,
CommunicationInitializing, CommunicationInitialized, ReadyToRun, the commands Run and Stop
and the participant command Shutdown publishes exactly ServicesCreated,
CommunicationInitializing, CommunicationInitialized, ReadyToRun, Running, Stopping,
Stopped, ShuttingDown, Shutdown, each once and in this order, and `State()` ends as
Shutdown. The run is clean: no exception escapes the CommunicationReady, Starting or Stop
callback (whatever else the callbacks do, and whatever the Shutdown callback does). -/
theorem C1_coordinated_clean_run_statuses (pid : Nat)
    (commReady starting : Option HandlerBehaviour)
    (stop shutdown : Option FinalHandlerBehaviour)
    (hReady : commReady ≠ some .throws) (hStarting : starting ≠ some .throws)
    (hStop : stop ≠ some .throws) :
    (run (create pid commReady starting stop shutdown) (cleanRunInputs pid)).sent
        = [.ServicesCreated, .CommunicationInitializing, .CommunicationInitialized,
           .ReadyToRun, .Running, .Stopping, .Stopped, .ShuttingDown, .Shutdown]
      ∧ (run (create pid commReady starting stop shutdown) (cleanRunInputs pid)).sent.Nodup
      ∧ (run (create pid commReady starting stop shutdown) (cleanRunInputs pid)).State
          = .Shutdown := by
  rcases commReady with _ | _ | _ <;> rcases starting with _ | _ | _ <;>
    rcases stop with _ | _ | _ | _ <;> rcases shutdown with _ | _ | _ | _ <;>
    simp_all [run, step, cleanRunInputs, coordinatedSetup, prepareInputs, create,
      StartCoordinated, StartLifecycle, EnterServicesCreated, NewSystemState, ChangeState,
      HandleCommunicationReady, ReceiveMsgSystemCommand, ReceiveMsgParticipantCommand, Run,
      LifecycleService.Stop, HandleStarting, HandleStop, StopHandlerDone, HandleShutdown,
      ShutdownHandlerDone, LifecycleService.Shutdown, AbortSimulationInCallback, ReportError,
      State]

/-- C1 at a concrete participant: id 1, a returning callback of every kind. -/
theorem C1_coordinated_clean_run_statuses_witness :
    (some HandlerBehaviour.returns ≠ some .throws
      ∧ some FinalHandlerBehaviour.returns ≠ some .throws)
    ∧ (run (create 1 (some .returns) (some .returns) (some .returns) (some .returns))
          (cleanRunInputs 1)).sent
        = [.ServicesCreated, .CommunicationInitializing, .CommunicationInitialized,
           .ReadyToRun, .Running, .Stopping, .Stopped, .ShuttingDown, .Shutdown] :=
  ⟨by decide,
    (C1_coordinated_clean_run_statuses 1 (some .returns) (some .returns) (some .returns)
      (some .returns) (by decide) (by decide) (by decide)).1⟩

/-- C2, as stated, fails: the table of section 4.6 has no row for a Restart command in
`Stopped`, yet the stopped participant of test `start_restart_stop_coordinated` moves to
`ServicesCreated`, which is neither `Stopped` nor `Error`. -/
theorem C2_restart_in_stopped_counterexample :
    (run (create 1 none none none none)
        (coordinatedSetup ++ [.SystemCommand .Run, .SystemCommand .Stop])).State = .Stopped
      ∧ hasRow .Stopped (.ParticipantCommand { participant := 1, kind := .Restart }) = false
      ∧ (step (run (create 1 none none none none)
            (coordinatedSetup ++ [.SystemCommand .Run, .SystemCommand .Stop]))
          (.ParticipantCommand { participant := 1, kind := .Restart })).State
          = .ServicesCreated := by
  decide

/-- C2, amended: for every state `s` and every input for which the table of section 4.6
has no row, applying the input in `s` leaves the state equal to `s`, or moves it to
`Error`, or, for a Restart command addressed to the participant and received in `Stopped`,
starts a fresh cycle as it does from `Error`: the state becomes `ServicesCreated` for a
coordinated start (`Running` for an autonomous start). No other target state is
possible; in particular a repeated Run in `Running`, for which the table has no row,
ends in the same state or in `Error`. -/
theorem C2_off_table_inputs (svc : LifecycleService) (i : Input)
    (hNoRow : hasRow svc.state i = false) :
    ((step svc i).state = svc.state ∨ (step svc i).state = .Error
        ∨ (svc.state = .Stopped
          ∧ i = .ParticipantCommand { participant := svc.participantId, kind := .Restart }
          ∧ (step svc i).state
              = if svc.config.coordinatedStart then .ServicesCreated else .Running))
      ∧ hasRow .Running (.SystemCommand .Run) = false
      ∧ (svc.state = .Running → i = .SystemCommand .Run →
          (step svc i).state = .Running ∨ (step svc i).state = .Error) := by
  have hmain : (step svc i).state = svc.state ∨ (step svc i).state = .Error
      ∨ (svc.state = .Stopped
        ∧ i = .ParticipantCommand { participant := svc.participantId, kind := .Restart }
        ∧ (step svc i).state
            = if svc.config.coordinatedStart then .ServicesCreated else .Running) := by
    rcases svc with
      ⟨pid, ⟨cstart, cstop⟩, crh, sh, stoph, shuth, st, ar, sent, c1, c2, c3, c4, obs⟩
    cases i with
    | StartLifecycle cfg =>
      cases st <;> simp_all [hasRow, step, StartLifecycle]
    | SystemState sys =>
      cases st <;> cases sys <;> simp_all [hasRow, step, NewSystemState]
    | SystemCommand kind =>
      cases kind <;> cases st <;>
        simp_all [hasRow, step, ReceiveMsgSystemCommand, Run, LifecycleService.Stop,
          AbortSimulation, ReportError, ChangeState]
    | ParticipantCommand cmd =>
      rcases cmd with ⟨p, kind⟩
      by_cases hp : p = pid
      · subst hp
        cases kind <;> cases st <;> cases cstart <;>
          rcases crh with _ | _ | _ <;> rcases sh with _ | _ | _ <;>
          simp_all [hasRow, step, ReceiveMsgParticipantCommand, Restart,
            LifecycleService.Shutdown, ReportError, ChangeState, EnterServicesCreated,
            SkipSetupPhase, HandleCommunicationReady, HandleStarting]
      · simp_all [hasRow, step, ReceiveMsgParticipantCommand]
    | Pause =>
      cases st <;> simp_all [hasRow, step, LifecycleService.Pause, ReportError, ChangeState]
    | Continue =>
      cases st <;> simp_all [hasRow, step, LifecycleService.Continue, ReportError, ChangeState]
    | Stop =>
      cases st <;> simp_all [hasRow, step, LifecycleService.Stop, ReportError, ChangeState]
  refine ⟨hmain, rfl, ?_⟩
  intro hRunning _
  rcases hmain with h | h | h
  · exact Or.inl (h.trans hRunning)
  · exact Or.inr h
  · rw [hRunning] at h
    exact absurd h.1 (by decide)

/-- C2 (amended) at the stopped participant of test `start_restart_stop_coordinated` and
the Restart command, for which the table has no row. -/
theorem C2_off_table_inputs_witness :
    hasRow (run (create 1 none none none none)
        (coordinatedSetup ++ [.SystemCommand .Run, .SystemCommand .Stop])).state
        (.ParticipantCommand { participant := 1, kind := .Restart }) = false
      ∧ (step (run (create 1 none none none none)
            (coordinatedSetup ++ [.SystemCommand .Run, .SystemCommand .Stop]))
          (.ParticipantCommand { participant := 1, kind := .Restart })).state
          = .ServicesCreated := by
  have hNoRow : hasRow (run (create 1 none none none none)
      (coordinatedSetup ++ [.SystemCommand .Run, .SystemCommand .Stop])).state
      (.ParticipantCommand { participant := 1, kind := .Restart }) = false := by decide
  have h := (C2_off_table_inputs _ _ hNoRow).1
  refine ⟨hNoRow, ?_⟩
  rcases h with h | h | h
  · exact absurd h (by decide)
  · exact absurd h (by decide)
  · exact h.2.2

/-- C3, as stated, fails in the state `Invalid`, which is not `Shutdown`: an abort received
before `StartLifecycle` leaves the state `Invalid` and publishes nothing, neither
`ShuttingDown` nor `Shutdown` (test `Abort_LifecycleNotExecuted`). -/
theorem C3_abort_in_invalid_counterexample :
    (create 1 none none none none).State = .Invalid
      ∧ (ReceiveMsgSystemCommand (create 1 none none none none)
          { kind := .AbortSimulation }).State = .Invalid
      ∧ (ReceiveMsgSystemCommand (create 1 none none none none)
          { kind := .AbortSimulation }).sent = [] := by
  decide

/-- C3, amended: in every state other than `Invalid` and `Shutdown`, receiving
`SystemCommand::AbortSimulation` drives the participant to the final state `Shutdown`, at
the latest when the callback in progress returns (the abort does not pre-empt the Stop or
Shutdown callback that runs in `Stopping` resp. `ShuttingDown`). What is published from
the abort on is `Stopped` (unless the participant is already beyond it), `ShuttingDown`
(unless the shutdown is already under way) and `Shutdown`, each exactly once and in this
order; so it is from `ReadyToRun`, `Running`, `Paused` and `Stopped` alike. -/
theorem C3_abort_drives_to_shutdown (svc : LifecycleService)
    (hInvalid : svc.state ≠ .Invalid) (hShutdown : svc.state ≠ .Shutdown) :
    (CallbackReturns (ReceiveMsgSystemCommand svc { kind := .AbortSimulation })).State
        = .Shutdown
      ∧ (CallbackReturns (ReceiveMsgSystemCommand svc { kind := .AbortSimulation })).sent
          = svc.sent ++
              (match svc.state with
               | .ShuttingDown => [.Shutdown]
               | .Stopped => [.ShuttingDown, .Shutdown]
               | _ => [.Stopped, .ShuttingDown, .Shutdown])
      ∧ (svc.state ≠ .Stopping → svc.state ≠ .ShuttingDown →
          ReceiveMsgSystemCommand svc { kind := .AbortSimulation }
            = CallbackReturns (ReceiveMsgSystemCommand svc { kind := .AbortSimulation })) := by
  rcases svc with
    ⟨pid, ⟨cstart, cstop⟩, crh, sh, stoph, shuth, st, ar, sent, c1, c2, c3, c4, obs⟩
  cases st <;> rcases shuth with _ | _ | _ | _ <;>
    simp_all [ReceiveMsgSystemCommand, AbortSimulation, HandleShutdown, ShutdownHandlerDone,
      StopHandlerDone, CallbackReturns, ChangeState, AbortSimulationInCallback, State]

/-- C3 (amended) at the running participant of test `Abort_Running`. -/
theorem C3_abort_drives_to_shutdown_witness :
    ((run (create 1 none none none none) (coordinatedSetup ++ [.SystemCommand .Run])).state
        ≠ .Invalid
      ∧ (run (create 1 none none none none) (coordinatedSetup ++ [.SystemCommand .Run])).state
        ≠ .Shutdown)
      ∧ (ReceiveMsgSystemCommand
          (run (create 1 none none none none) (coordinatedSetup ++ [.SystemCommand .Run]))
          { kind := .AbortSimulation }).sent
          = [.ServicesCreated, .CommunicationInitializing, .CommunicationInitialized,
             .ReadyToRun, .Running, .Stopped, .ShuttingDown, .Shutdown] := by
  have hRunning : (run (create 1 none none none none)
      (coordinatedSetup ++ [.SystemCommand .Run])).state = .Running := by decide
  have hInvalid : (run (create 1 none none none none)
      (coordinatedSetup ++ [.SystemCommand .Run])).state ≠ .Invalid := by
    rw [hRunning]; decide
  have hShutdown : (run (create 1 none none none none)
      (coordinatedSetup ++ [.SystemCommand .Run])).state ≠ .Shutdown := by
    rw [hRunning]; decide
  have h := C3_abort_drives_to_shutdown _ hInvalid hShutdown
  refine ⟨⟨hInvalid, hShutdown⟩, ?_⟩
  rw [h.2.2 (by rw [hRunning]; decide) (by rw [hRunning]; decide), h.2.1, hRunning]
  decide

/-- C4: when `SystemCommand::AbortSimulation` is received by a lifecycle service on which
`StartLifecycle` was never called (state `Invalid`), the service is left exactly as it was:
the state stays `Invalid` and no `ParticipantStatus` of any state is sent. -/
theorem C4_abort_before_start_is_ignored (svc : LifecycleService)
    (hInvalid : svc.state = .Invalid) :
    ReceiveMsgSystemCommand svc { kind := .AbortSimulation } = svc
      ∧ (ReceiveMsgSystemCommand svc { kind := .AbortSimulation }).State = .Invalid
      ∧ (ReceiveMsgSystemCommand svc { kind := .AbortSimulation }).sent = svc.sent := by
  rcases svc with ⟨pid, cfg, crh, sh, stoph, shuth, st, ar, sent, c1, c2, c3, c4, obs⟩
  simp only at hInvalid
  subst hInvalid
  simp [ReceiveMsgSystemCommand, State]

/-- C4 at a freshly constructed service: nothing has been sent and nothing is sent. -/
theorem C4_abort_before_start_is_ignored_witness :
    (create 1 none none none none).state = .Invalid
      ∧ (ReceiveMsgSystemCommand (create 1 none none none none)
          { kind := .AbortSimulation }).sent = [] :=
  ⟨rfl, (C4_abort_before_start_is_ignored (create 1 none none none none) rfl).2.2⟩

/-- C5: for a participant in `Running`, a repeated Run command is ignored (the service is
unchanged: state `Running`, no further status), and a participant command Shutdown
addressed to it changes the state to `Error`, publishes exactly one `Error` status and
invokes no callback, in particular neither the Stop nor the Shutdown callback. -/
theorem C5_invalid_shutdown_in_running (svc : LifecycleService)
    (hRunning : svc.state = .Running) :
    ReceiveMsgSystemCommand svc { kind := .Run } = svc
      ∧ (ReceiveMsgParticipantCommand svc
          { participant := svc.participantId, kind := .Shutdown }).State = .Error
      ∧ (ReceiveMsgParticipantCommand svc
          { participant := svc.participantId, kind := .Shutdown }).sent
          = svc.sent ++ [.Error]
      ∧ (ReceiveMsgParticipantCommand svc
          { participant := svc.participantId, kind := .Shutdown }).stopCalls = svc.stopCalls
      ∧ (ReceiveMsgParticipantCommand svc
          { participant := svc.participantId, kind := .Shutdown }).shutdownCalls
          = svc.shutdownCalls
      ∧ (ReceiveMsgParticipantCommand svc
          { participant := svc.participantId, kind := .Shutdown }).commReadyCalls
          = svc.commReadyCalls
      ∧ (ReceiveMsgParticipantCommand svc
          { participant := svc.participantId, kind := .Shutdown }).startingCalls
          = svc.startingCalls := by
  rcases svc with ⟨pid, cfg, crh, sh, stoph, shuth, st, ar, sent, c1, c2, c3, c4, obs⟩
  simp only at hRunning
  subst hRunning
  simp [ReceiveMsgSystemCommand, ReceiveMsgParticipantCommand, Run,
    LifecycleService.Shutdown, ReportError, ChangeState, State]

/-- C5 at the running coordinated participant of test `error_handling_run_run_shutdown`. -/
theorem C5_invalid_shutdown_in_running_witness :
    (run (create 1 none none (some .returns) (some .returns))
        (coordinatedSetup ++ [.SystemCommand .Run])).state = .Running
      ∧ (ReceiveMsgParticipantCommand
          (run (create 1 none none (some .returns) (some .returns))
            (coordinatedSetup ++ [.SystemCommand .Run]))
          { participant := 1, kind := .Shutdown }).State = .Error :=
  by
  have hRunning : (run (create 1 none none (some .returns) (some .returns))
      (coordinatedSetup ++ [.SystemCommand .Run])).state = .Running := by decide
  have h := C5_invalid_shutdown_in_running _ hRunning
  exact ⟨hRunning, h.2.1⟩

/-- C6: an exception escaping the Stop callback (Stop command in `Running`) or the Starting
callback (Run command in `ReadyToRun`) drives the participant to `Error`, and `Stopped`
resp. `Running` is not published; an exception escaping the Shutdown callback is
suppressed: a Shutdown command received in `Error` publishes `ShuttingDown` and `Shutdown`
once each and ends in `Shutdown` although the callback was invoked and threw. -/
theorem C6_callback_exceptions (svc : LifecycleService) :
    (svc.state = .Running → svc.stopHandler = some .throws →
        (ReceiveMsgSystemCommand svc { kind := .Stop }).State = .Error
          ∧ (ReceiveMsgSystemCommand svc { kind := .Stop }).sent
              = svc.sent ++ [.Stopping, .Error]
          ∧ (ReceiveMsgSystemCommand svc { kind := .Stop }).stopCalls = svc.stopCalls + 1)
      ∧ (svc.state = .ReadyToRun → svc.startingHandler = some .throws →
        (ReceiveMsgSystemCommand svc { kind := .Run }).State = .Error
          ∧ (ReceiveMsgSystemCommand svc { kind := .Run }).sent = svc.sent ++ [.Error]
          ∧ (ReceiveMsgSystemCommand svc { kind := .Run }).startingCalls
              = svc.startingCalls + 1)
      ∧ (svc.state = .Error → svc.shutdownHandler = some .throws →
        (ReceiveMsgParticipantCommand svc
            { participant := svc.participantId, kind := .Shutdown }).State = .Shutdown
          ∧ (ReceiveMsgParticipantCommand svc
              { participant := svc.participantId, kind := .Shutdown }).sent
              = svc.sent ++ [.ShuttingDown, .Shutdown]
          ∧ (ReceiveMsgParticipantCommand svc
              { participant := svc.participantId, kind := .Shutdown }).shutdownCalls
              = svc.shutdownCalls + 1) := by
  rcases svc with ⟨pid, cfg, crh, sh, stoph, shuth, st, ar, sent, c1, c2, c3, c4, obs⟩
  refine ⟨?_, ?_, ?_⟩
  · intro h1 h2
    simp only at h1 h2
    subst h1 h2
    simp [ReceiveMsgSystemCommand, LifecycleService.Stop, HandleStop, ReportError,
      ChangeState, State]
  · intro h1 h2
    simp only at h1 h2
    subst h1 h2
    simp [ReceiveMsgSystemCommand, Run, HandleStarting, ReportError, ChangeState, State]
  · intro h1 h2
    simp only at h1 h2
    subst h1 h2
    simp [ReceiveMsgParticipantCommand, LifecycleService.Shutdown, HandleShutdown,
      ShutdownHandlerDone, ChangeState, State]

/-- C6 at the participants of tests `error_handling_exception_in_callback` (Stop callback
throws in `Running`) and `error_handling_exception_in_starting_callback`. -/
theorem C6_callback_exceptions_witness :
    ((run (create 1 none none (some .throws) (some .throws))
        (coordinatedSetup ++ [.SystemCommand .Run])).state = .Running
      ∧ (run (create 1 none none (some .throws) (some .throws))
        (coordinatedSetup ++ [.SystemCommand .Run])).stopHandler = some .throws)
      ∧ (ReceiveMsgSystemCommand
          (run (create 1 none none (some .throws) (some .throws))
            (coordinatedSetup ++ [.SystemCommand .Run]))
          { kind := .Stop }).State = .Error := by
  have hRunning : (run (create 1 none none (some .throws) (some .throws))
      (coordinatedSetup ++ [.SystemCommand .Run])).state = .Running := by decide
  have hStop : (run (create 1 none none (some .throws) (some .throws))
      (coordinatedSetup ++ [.SystemCommand .Run])).stopHandler = some .throws := by decide
  have h := (C6_callback_exceptions _).1 hRunning hStop
  exact ⟨⟨hRunning, hStop⟩, h.1⟩

/-- C7: from `Error` the participant recovers by command. A Restart command addressed to a
coordinated participant moves it to `ServicesCreated` (one `ServicesCreated` status), after
which the system states ServicesCreated to ReadyToRun drive it to `ReadyToRun` again,
provided no exception escapes the CommunicationReady callback; a Shutdown command moves it
to `Shutdown`, publishing `ShuttingDown` then `Shutdown`, and invokes the registered
Shutdown callback exactly once. -/
theorem C7_error_recovery (svc : LifecycleService) (hError : svc.state = .Error) :
    (svc.config.coordinatedStart = true →
        (ReceiveMsgParticipantCommand svc
            { participant := svc.participantId, kind := .Restart }).State = .ServicesCreated
          ∧ (ReceiveMsgParticipantCommand svc
              { participant := svc.participantId, kind := .Restart }).sent
              = svc.sent ++ [.ServicesCreated]
          ∧ (svc.commReadyHandler ≠ some .throws →
              (PrepareLifecycle (ReceiveMsgParticipantCommand svc
                { participant := svc.participantId, kind := .Restart })).State = .ReadyToRun
              ∧ (PrepareLifecycle (ReceiveMsgParticipantCommand svc
                  { participant := svc.participantId, kind := .Restart })).sent
                  = svc.sent ++ [.ServicesCreated, .CommunicationInitializing,
                      .CommunicationInitialized, .ReadyToRun]))
      ∧ (ReceiveMsgParticipantCommand svc
            { participant := svc.participantId, kind := .Shutdown }).State = .Shutdown
      ∧ (ReceiveMsgParticipantCommand svc
            { participant := svc.participantId, kind := .Shutdown }).sent
            = svc.sent ++ [.ShuttingDown, .Shutdown]
      ∧ (svc.shutdownHandler ≠ none →
          (ReceiveMsgParticipantCommand svc
            { participant := svc.participantId, kind := .Shutdown }).shutdownCalls
            = svc.shutdownCalls + 1) := by
  rcases svc with
    ⟨pid, ⟨cstart, cstop⟩, crh, sh, stoph, shuth, st, ar, sent, c1, c2, c3, c4, obs⟩
  simp only at hError
  subst hError
  refine ⟨?_, ?_, ?_, ?_⟩
  · intro hc
    simp only at hc
    subst hc
    rcases crh with _ | _ | _ <;>
      simp [ReceiveMsgParticipantCommand, Restart, EnterServicesCreated, ChangeState, State,
        PrepareLifecycle, NewSystemState, HandleCommunicationReady]
  · rcases shuth with _ | _ | _ | _ <;>
      simp [ReceiveMsgParticipantCommand, LifecycleService.Shutdown, HandleShutdown,
        ShutdownHandlerDone, ChangeState, State, AbortSimulationInCallback]
  · rcases shuth with _ | _ | _ | _ <;>
      simp [ReceiveMsgParticipantCommand, LifecycleService.Shutdown, HandleShutdown,
        ShutdownHandlerDone, ChangeState, State, AbortSimulationInCallback]
  · rcases shuth with _ | _ | _ | _ <;>
      simp [ReceiveMsgParticipantCommand, LifecycleService.Shutdown, HandleShutdown,
        ShutdownHandlerDone, ChangeState, State, AbortSimulationInCallback]

/-- C7 at the participant of test `error_handling_error_recovery_restart`, which is in
`Error` after a Shutdown command in `Running`. -/
theorem C7_error_recovery_witness :
    (run (create 1 none none none (some .returns))
        (coordinatedSetup ++ [.SystemCommand .Run,
          .ParticipantCommand { participant := 1, kind := .Shutdown }])).state = .Error
      ∧ (ReceiveMsgParticipantCommand
          (run (create 1 none none none (some .returns))
            (coordinatedSetup ++ [.SystemCommand .Run,
              .ParticipantCommand { participant := 1, kind := .Shutdown }]))
          { participant := 1, kind := .Shutdown }).State = .Shutdown :=
  by
  have hError : (run (create 1 none none none (some .returns))
      (coordinatedSetup ++ [.SystemCommand .Run,
        .ParticipantCommand { participant := 1, kind := .Shutdown }])).state
      = .Error := by decide
  have h := C7_error_recovery _ hError
  exact ⟨hError, h.2.1⟩

/-- C8: `Pause` is accepted only in `Running`. In `Running` it yields `Paused` (one `Paused`
status, nothing thrown); `Continue` in `Paused` yields `Running` again; a `Pause` issued in
`Paused` (and in any state other than `Running`) throws to the caller, and in `Paused` it
publishes exactly one `Error` status. -/
theorem C8_pause_only_in_running (svc : LifecycleService) :
    ((LifecycleService.Pause svc).2 = false ↔ svc.state = .Running)
      ∧ (svc.state = .Running →
          (LifecycleService.Pause svc).1.State = .Paused
            ∧ (LifecycleService.Pause svc).1.sent = svc.sent ++ [.Paused])
      ∧ (svc.state = .Paused →
          (LifecycleService.Continue svc).2 = false
            ∧ (LifecycleService.Continue svc).1.State = .Running
            ∧ (LifecycleService.Continue svc).1.sent = svc.sent ++ [.Running])
      ∧ (svc.state = .Paused →
          (LifecycleService.Pause svc).2 = true
            ∧ (LifecycleService.Pause svc).1.State = .Error
            ∧ (LifecycleService.Pause svc).1.sent = svc.sent ++ [.Error]) := by
  rcases svc with ⟨pid, cfg, crh, sh, stoph, shuth, st, ar, sent, c1, c2, c3, c4, obs⟩
  cases st <;>
    simp [LifecycleService.Pause, LifecycleService.Continue, ReportError, ChangeState, State]

/-- C8 at the paused participant of test `error_on_double_pause`: the second `Pause`
throws and publishes `Error`. -/
theorem C8_pause_only_in_running_witness :
    (run (create 1 none none none none)
        (coordinatedSetup ++ [.SystemCommand .Run, .Pause])).state = .Paused
      ∧ (LifecycleService.Pause (run (create 1 none none none none)
          (coordinatedSetup ++ [.SystemCommand .Run, .Pause]))).2 = true
      ∧ (LifecycleService.Pause (run (create 1 none none none none)
          (coordinatedSetup ++ [.SystemCommand .Run, .Pause]))).1.State = .Error := by
  have hPaused : (run (create 1 none none none none)
      (coordinatedSetup ++ [.SystemCommand .Run, .Pause])).state = .Paused := by decide
  have h := (C8_pause_only_in_running _).2.2.2 hPaused
  exact ⟨hPaused, h.1, h.2.1⟩

/-- C9: when a participant in `Running` whose Stop callback receives
`SystemCommand::AbortSimulation` while it runs gets the Stop command, the abort does not
pre-empt the callback: `State()` read inside the callback right after the abort is
`Stopping`, the Stop callback is invoked exactly once, and when the Stop command returns
`Stopping`, `Stopped`, `ShuttingDown`, `Shutdown` have been published once each, in this
order, and the state is `Shutdown`. -/
theorem C9_abort_inside_stop_handler (svc : LifecycleService)
    (hRunning : svc.state = .Running) (hStop : svc.stopHandler = some .receivesAbort) :
    (ReceiveMsgSystemCommand svc { kind := .Stop }).State = .Shutdown
      ∧ (ReceiveMsgSystemCommand svc { kind := .Stop }).sent
          = svc.sent ++ [.Stopping, .Stopped, .ShuttingDown, .Shutdown]
      ∧ (ReceiveMsgSystemCommand svc { kind := .Stop }).stopCalls = svc.stopCalls + 1
      ∧ (ReceiveMsgSystemCommand svc { kind := .Stop }).observedInHandler.take
            (svc.observedInHandler.length + 1)
          = svc.observedInHandler ++ [.Stopping] := by
  rcases svc with
    ⟨pid, ⟨cstart, cstop⟩, crh, sh, stoph, shuth, st, ar, sent, c1, c2, c3, c4, obs⟩
  simp only at hRunning hStop
  subst hRunning hStop
  rcases shuth with _ | _ | _ | _ <;>
    simp [ReceiveMsgSystemCommand, LifecycleService.Stop, HandleStop, StopHandlerDone,
      HandleShutdown, ShutdownHandlerDone, ChangeState, State, AbortSimulationInCallback,
      List.take_append_eq_append_take]

/-- C9 at the coordinated participant of test `Abort_Stopping`. -/
theorem C9_abort_inside_stop_handler_witness :
    (run (create 1 none none (some .receivesAbort) none)
        (coordinatedSetup ++ [.SystemCommand .Run])).state = .Running
      ∧ (ReceiveMsgSystemCommand
          (run (create 1 none none (some .receivesAbort) none)
            (coordinatedSetup ++ [.SystemCommand .Run]))
          { kind := .Stop }).sent
          = [.ServicesCreated, .CommunicationInitializing, .CommunicationInitialized,
             .ReadyToRun, .Running, .Stopping, .Stopped, .ShuttingDown, .Shutdown] :=
  by
  have hRunning : (run (create 1 none none (some .receivesAbort) none)
      (coordinatedSetup ++ [.SystemCommand .Run])).state = .Running := by decide
  have hStop : (run (create 1 none none (some .receivesAbort) none)
      (coordinatedSetup ++ [.SystemCommand .Run])).stopHandler
      = some .receivesAbort := by decide
  have h := C9_abort_inside_stop_handler _ hRunning hStop
  exact ⟨hRunning, h.2.1⟩

end Orchestration
end Services
end SilKit

namespace SilKit
namespace Core

open VAsioConnection

/-! ## Receiver registration of `VAsioConnection` -/

/-- A list is split in only one way at an element that does not occur after the split. -/
theorem split_at_last_unique {α : Type} (c : α) (l1 l2 r1 r2 : List α)
    (h1 : c ∉ r1) (h2 : c ∉ r2) (h : l1 ++ c :: r1 = l2 ++ c :: r2) :
    l1 = l2 ∧ r1 = r2 := by
  rcases List.append_eq_append_iff.mp h with ⟨a, ha, hb⟩ | ⟨a, ha, hb⟩
  · cases a with
    | nil => simp_all
    | cons x a =>
      simp only [List.cons_append, List.cons.injEq] at hb
      exact absurd (hb.2 ▸ List.mem_append_right a (List.mem_cons_self c r2)) h1
  · cases a with
    | nil => simp_all
    | cons x a =>
      simp only [List.cons_append, List.cons.injEq] at hb
      exact absurd (hb.2 ▸ List.mem_append_right a (List.mem_cons_self c r1)) h2

/-- The receiver id determines network name and serdes name when serdes names contain no
slash. -/
theorem uniqueReceiverId_injective (n1 s1 n2 s2 : String)
    (h1 : '/' ∉ s1.data) (h2 : '/' ∉ s2.data)
    (h : uniqueReceiverId n1 s1 = uniqueReceiverId n2 s2) : n1 = n2 ∧ s1 = s2 := by
  have hd : n1.data ++ '/' :: s1.data = n2.data ++ '/' :: s2.data := by
    have := congrArg String.data h
    simpa [uniqueReceiverId, String.data_append] using this
  have := split_at_last_unique '/' _ _ _ _ h1 h2 hd
  exact ⟨String.ext this.1, String.ext this.2⟩

/-- The loop over the peers calls `Subscribe` once on each of them. -/
theorem subscribeAtPeers_peers (useAsync : Bool) (info : VAsioMsgSubscriber)
    (peers : List VAsioPeer) (pending : List (Nat × VAsioMsgSubscriber)) :
    (subscribeAtPeers useAsync info peers pending).1
      = peers.map (fun peer => peer.Subscribe info) := by
  induction peers generalizing pending with
  | nil => rfl
  | cons peer rest ih => simp [subscribeAtPeers, ih]

/-- The receiver ids after one registration. -/
theorem register_vasioUniqueReceiverIds (D : VAsioDeclarations) (conn : VAsioConnection)
    (r : ReceiverRegistration) :
    (conn.register D r).vasioUniqueReceiverIds
      = if uniqueReceiverId r.networkName (D.SerdesName r.msg) ∈ conn.vasioUniqueReceiverIds
        then conn.vasioUniqueReceiverIds
        else uniqueReceiverId r.networkName (D.SerdesName r.msg)
          :: conn.vasioUniqueReceiverIds := by
  unfold register RegisterSilKitMsgReceiver GetLinkByName
  cases hlink : conn.links r.msg r.networkName <;>
    by_cases hmem : uniqueReceiverId r.networkName (D.SerdesName r.msg)
        ∈ conn.vasioUniqueReceiverIds <;>
    simp [setLink, hmem]

/-- The receiver ids after a sequence of registrations are the old ones and the ids of the
registered keys. -/
theorem registerAll_vasioUniqueReceiverIds (D : VAsioDeclarations)
    (regs : List ReceiverRegistration) (conn : VAsioConnection) (id : String) :
    id ∈ (conn.registerAll D regs).vasioUniqueReceiverIds
      ↔ id ∈ conn.vasioUniqueReceiverIds
        ∨ ∃ q ∈ regs, id = uniqueReceiverId q.networkName (D.SerdesName q.msg) := by
  induction regs generalizing conn with
  | nil => simp [registerAll]
  | cons q rest ih =>
    have hstep : (conn.registerAll D (q :: rest)) = (conn.register D q).registerAll D rest := rfl
    rw [hstep, ih, register_vasioUniqueReceiverIds]
    by_cases hmem : uniqueReceiverId q.networkName (D.SerdesName q.msg)
        ∈ conn.vasioUniqueReceiverIds
    · simp only [hmem, if_true, List.mem_cons, exists_eq_or_imp]
      constructor
      · rintro (h | h)
        · exact Or.inl h
        · exact Or.inr (Or.inr h)
      · rintro (h | h | h)
        · exact Or.inl h
        · exact Or.inl (h ▸ hmem)
        · exact Or.inr h
    · simp only [hmem, if_false, List.mem_cons, exists_eq_or_imp]
      constructor
      · rintro ((h | h) | h)
        · exact Or.inr (Or.inl h)
        · exact Or.inl h
        · exact Or.inr (Or.inr h)
      · rintro (h | h | h)
        · exact Or.inl (Or.inr h)
        · exact Or.inl (Or.inl h)
        · exact Or.inr h

/-- On a connection that started without receiver ids, the id of a key is present exactly
when the key was registered before (serdes names contain no slash). -/
theorem id_registered_iff_key_registered (D : VAsioDeclarations) (conn0 : VAsioConnection)
    (regs : List ReceiverRegistration) (r : ReceiverRegistration)
    (hFresh : conn0.vasioUniqueReceiverIds = [])
    (hSerdes : ∀ m, '/' ∉ (D.SerdesName m).data) :
    uniqueReceiverId r.networkName (D.SerdesName r.msg)
        ∈ (conn0.registerAll D regs).vasioUniqueReceiverIds
      ↔ r.key D ∈ regs.map (fun q => q.key D) := by
  rw [registerAll_vasioUniqueReceiverIds, hFresh]
  simp only [List.not_mem_nil, false_or, List.mem_map, ReceiverRegistration.key]
  constructor
  · rintro ⟨q, hq, hid⟩
    have := uniqueReceiverId_injective _ _ _ _ (hSerdes r.msg) (hSerdes q.msg) hid
    exact ⟨q, hq, by rw [this.1, this.2]⟩
  · rintro ⟨q, hq, hkey⟩
    simp only [Prod.mk.injEq] at hkey
    exact ⟨q, hq, by rw [hkey.1, hkey.2]⟩

/-- C10, amended: `RegisterSilKitMsgReceiver` allocates a receiver only for a new
subscription key (network name, message serdes name; serdes names contain no slash).
Starting from a connection without receiver ids and after any sequence of registrations:
the first registration of a key appends exactly one receiver, whose `receiverIdx` is the
number of receivers registered before modulo `2 ^ receiverIdxBits` (the cast to the index
field), which is that number as long as it fits the field, and whose record names the
network, the serdes name and the version, and calls `Subscribe` with that record exactly
once on every connected peer; a later registration of the same key appends no receiver
and calls `Subscribe` on no peer. In both cases the local receiver is added to the link
of that network: the link holds the local receivers it held, followed by the new one,
and no other link changes. -/
theorem C10_receiver_allocated_once_per_key (D : VAsioDeclarations) (conn0 : VAsioConnection)
    (regs : List ReceiverRegistration) (r : ReceiverRegistration)
    (hFresh : conn0.vasioUniqueReceiverIds = [])
    (hSerdes : ∀ m, '/' ∉ (D.SerdesName m).data) :
    (r.key D ∉ regs.map (fun q => q.key D) →
        ((conn0.registerAll D regs).register D r).vasioReceivers
            = (conn0.registerAll D regs).vasioReceivers ++
                [{ subscriptionInfo :=
                     { receiverIdx := (conn0.registerAll D regs).vasioReceivers.length
                         % 2 ^ D.receiverIdxBits
                       networkName := r.networkName
                       msgTypeName := D.SerdesName r.msg
                       version := D.Version r.msg }
                   messageType := r.msg
                   linkName := r.networkName
                   serviceDescriptor :=
                     r.receiver.serviceDescriptor.SetParticipantName
                       (conn0.registerAll D regs).participantName }]
          ∧ ((conn0.registerAll D regs).register D r).peers
              = (conn0.registerAll D regs).peers.map (fun peer => peer.Subscribe
                  { receiverIdx := (conn0.registerAll D regs).vasioReceivers.length
                      % 2 ^ D.receiverIdxBits
                    networkName := r.networkName
                    msgTypeName := D.SerdesName r.msg
                    version := D.Version r.msg })
          ∧ ((conn0.registerAll D regs).vasioReceivers.length < 2 ^ D.receiverIdxBits →
              (((conn0.registerAll D regs).register D r).vasioReceivers.map
                  (fun v => v.subscriptionInfo.receiverIdx)).getLast?
                = some (conn0.registerAll D regs).vasioReceivers.length))
      ∧ (r.key D ∈ regs.map (fun q => q.key D) →
          ((conn0.registerAll D regs).register D r).vasioReceivers
              = (conn0.registerAll D regs).vasioReceivers
            ∧ ((conn0.registerAll D regs).register D r).peers
              = (conn0.registerAll D regs).peers)
      ∧ ((conn0.registerAll D regs).register D r).localReceivers r.msg r.networkName
          = (conn0.registerAll D regs).localReceivers r.msg r.networkName ++ [r.receiver]
      ∧ (∀ msg networkName, ¬(msg = r.msg ∧ networkName = r.networkName) →
          ((conn0.registerAll D regs).register D r).links msg networkName
            = (conn0.registerAll D regs).links msg networkName) := by
  have hkey := id_registered_iff_key_registered D conn0 regs r hFresh hSerdes
  generalize conn0.registerAll D regs = conn at hkey ⊢
  refine ⟨?_, ?_, ?_, ?_⟩
  · intro hnew
    have hid := mt hkey.mp hnew
    have hrecv : (conn.register D r).vasioReceivers
        = conn.vasioReceivers ++
            [{ subscriptionInfo :=
                 { receiverIdx := conn.vasioReceivers.length % 2 ^ D.receiverIdxBits
                   networkName := r.networkName
                   msgTypeName := D.SerdesName r.msg
                   version := D.Version r.msg }
               messageType := r.msg
               linkName := r.networkName
               serviceDescriptor :=
                 r.receiver.serviceDescriptor.SetParticipantName conn.participantName }] := by
      unfold register RegisterSilKitMsgReceiver GetLinkByName
      cases hlink : conn.links r.msg r.networkName <;> simp [setLink, hid]
    refine ⟨hrecv, ?_, ?_⟩
    · unfold register RegisterSilKitMsgReceiver GetLinkByName
      cases hlink : conn.links r.msg r.networkName <;>
        simp [setLink, hid, subscribeAtPeers_peers]
    · intro hIdx
      rw [hrecv, List.map_append, List.map_singleton, List.getLast?_concat,
        Nat.mod_eq_of_lt hIdx]
  · intro hold
    have hid := hkey.mpr hold
    unfold register RegisterSilKitMsgReceiver GetLinkByName
    cases hlink : conn.links r.msg r.networkName <;> simp [setLink, hid]
  · unfold register RegisterSilKitMsgReceiver GetLinkByName localReceivers
    cases hlink : conn.links r.msg r.networkName <;>
      by_cases hid : uniqueReceiverId r.networkName (D.SerdesName r.msg)
          ∈ conn.vasioUniqueReceiverIds <;>
      simp [setLink, hid, SilKitLink.AddLocalReceiver]
  · intro msg networkName hother
    unfold register RegisterSilKitMsgReceiver GetLinkByName
    cases hlink : conn.links r.msg r.networkName <;>
      by_cases hid : uniqueReceiverId r.networkName (D.SerdesName r.msg)
          ∈ conn.vasioUniqueReceiverIds <;>
      simp [setLink, hid, hother]

/-- C10 (amended) at a connection with two peers on which a CAN frame receiver is
registered on `CAN1`: registering a log message receiver on `CAN1` is the first
registration of its key; it gets receiver index 1 and both peers are subscribed once
more; a second CAN frame receiver on `CAN1` is added to the link that holds the first. -/
theorem C10_receiver_allocated_once_per_key_witness :
    ((VAsioConnection.create "P" [⟨1, []⟩, ⟨2, []⟩]).vasioUniqueReceiverIds = []
      ∧ (∀ m, '/' ∉ (sampleDeclarations.SerdesName m).data)
      ∧ (ReceiverRegistration.mk .LogMsg true "CAN1" (sampleReceiver 2)).key
            sampleDeclarations
          ∉ [ReceiverRegistration.mk .CanFrameEvent false "CAN1" (sampleReceiver 1)].map
              (fun q => q.key sampleDeclarations))
    ∧ ((((VAsioConnection.create "P" [⟨1, []⟩, ⟨2, []⟩]).registerAll sampleDeclarations
            [⟨.CanFrameEvent, false, "CAN1", sampleReceiver 1⟩]).register sampleDeclarations
          ⟨.LogMsg, true, "CAN1", sampleReceiver 2⟩).vasioReceivers.map
          (fun v => v.subscriptionInfo.receiverIdx)) = [0, 1]
    ∧ (((VAsioConnection.create "P" [⟨1, []⟩, ⟨2, []⟩]).registerAll sampleDeclarations
            [⟨.CanFrameEvent, false, "CAN1", sampleReceiver 1⟩]).register sampleDeclarations
          ⟨.CanFrameEvent, false, "CAN1", sampleReceiver 3⟩).localReceivers .CanFrameEvent "CAN1"
        = [sampleReceiver 1, sampleReceiver 3] := by
  have hFresh : (VAsioConnection.create "P" [⟨1, []⟩, ⟨2, []⟩]).vasioUniqueReceiverIds = [] :=
    rfl
  have hSerdes : ∀ m, '/' ∉ (sampleDeclarations.SerdesName m).data := by
    intro m
    cases m <;> decide
  have hNew : (ReceiverRegistration.mk .LogMsg true "CAN1" (sampleReceiver 2)).key
      sampleDeclarations
      ∉ [ReceiverRegistration.mk .CanFrameEvent false "CAN1" (sampleReceiver 1)].map
          (fun q => q.key sampleDeclarations) := by decide
  have h := (C10_receiver_allocated_once_per_key sampleDeclarations
    (VAsioConnection.create "P" [⟨1, []⟩, ⟨2, []⟩])
    [⟨.CanFrameEvent, false, "CAN1", sampleReceiver 1⟩]
    ⟨.LogMsg, true, "CAN1", sampleReceiver 2⟩ hFresh hSerdes).1 hNew
  have h3 := (C10_receiver_allocated_once_per_key sampleDeclarations
    (VAsioConnection.create "P" [⟨1, []⟩, ⟨2, []⟩])
    [⟨.CanFrameEvent, false, "CAN1", sampleReceiver 1⟩]
    ⟨.CanFrameEvent, false, "CAN1", sampleReceiver 3⟩ hFresh hSerdes).2.2.1
  refine ⟨⟨hFresh, hSerdes, hNew⟩, ?_, ?_⟩
  · rw [h.1]
    decide
  · rw [h3]
    decide

end Core
end SilKit

namespace SilKit
namespace Core

open Participant

/-! ## Controller creation of the participant -/

/-- One unfolding of `CreateController`. -/
theorem CreateController_succ (D : ParticipantDeclarations) (fuel : Nat)
    (p : Participant) (a : CreateControllerArgs) :
    CreateController D (fuel + 1) p a
      = if a.name = "" then
          .thrown p (.ConfigurationError "Services must have a non-empty name.")
        else
          match p.GetController a.controllerT a.name with
          | some _ =>
              .thrown p (.ConfigurationError
                ("Service " ++ a.name ++ " in network " ++ a.network ++ " already exists."))
          | none =>
              if a.publishService then
                match GetServiceDiscoveryWith D (fun q b => CreateController D fuel q b)
                    (p.constructController D a).1 with
                | .returned p4 _ =>
                    .returned
                      (p4.notifyServiceCreated (p.constructController D a).2.serviceDescriptor)
                      (p.constructController D a).2
                | .thrown p4 e => .thrown p4 e
                | .unfinished => .unfinished
              else .returned (p.constructController D a).1 (p.constructController D a).2 :=
  rfl

/-- With room for one nested creation, `GetServiceDiscovery` returns the stored service
discovery controller or creates, publishes and returns it; it fails only for an empty
controller name. -/
theorem GetServiceDiscoveryWith_succ (D : ParticipantDeclarations) (fuel : Nat)
    (q : Participant) :
    GetServiceDiscoveryWith D (fun q b => CreateController D (fuel + 1) q b) q
      = match q.GetController .ServiceDiscovery D.controllerTypeServiceDiscovery with
        | some controller => .returned q controller
        | none =>
            if D.controllerTypeServiceDiscovery = "" then
              .thrown q (.ConfigurationError "Services must have a non-empty name.")
            else
              .returned
                (((q.constructController D (serviceDiscoveryArgs D)).1.notifyServiceCreated
                    (q.constructController D (serviceDiscoveryArgs D)).2.serviceDescriptor
                  ).registerPeerShutdownCallback .ServiceDiscovery)
                (q.constructController D (serviceDiscoveryArgs D)).2 := by
  unfold GetServiceDiscoveryWith
  cases hsd : q.GetController .ServiceDiscovery D.controllerTypeServiceDiscovery with
  | some controller => rfl
  | none =>
    by_cases hname : D.controllerTypeServiceDiscovery = ""
    · simp [CreateController, serviceDiscoveryArgs, hname]
    · have hsd2 : q.GetController (serviceDiscoveryArgs D).controllerT
          (serviceDiscoveryArgs D).name = none := hsd
      have hstored : (q.constructController D (serviceDiscoveryArgs D)).1.GetController
          .ServiceDiscovery D.controllerTypeServiceDiscovery
          = some (q.constructController D (serviceDiscoveryArgs D)).2 := by
        simp [constructController, GetController, storeController, serviceDiscoveryArgs,
          registerSilKitService]
      have hname2 : ¬ (serviceDiscoveryArgs D).name = "" := hname
      have hpub : (serviceDiscoveryArgs D).publishService = true := rfl
      simp only [CreateController, hname2, if_false, hsd2, hpub, if_true,
        GetServiceDiscoveryWith, hstored, hname]

/-- With room for two nested creations `CreateController` finishes, and this is what it
does: it rejects an empty or a stored name, constructs the controller otherwise, and for
a published controller obtains the service discovery (creating it if need be) and
notifies it. -/
theorem CreateController_succ_succ (D : ParticipantDeclarations) (fuel : Nat)
    (p : Participant) (a : CreateControllerArgs) :
    CreateController D (fuel + 2) p a
      = if a.name = "" then
          .thrown p (.ConfigurationError "Services must have a non-empty name.")
        else
          match p.GetController a.controllerT a.name with
          | some _ =>
              .thrown p (.ConfigurationError
                ("Service " ++ a.name ++ " in network " ++ a.network ++ " already exists."))
          | none =>
              if a.publishService then
                match (p.constructController D a).1.GetController .ServiceDiscovery
                    D.controllerTypeServiceDiscovery with
                | some _ =>
                    .returned
                      ((p.constructController D a).1.notifyServiceCreated
                        (p.constructController D a).2.serviceDescriptor)
                      (p.constructController D a).2
                | none =>
                    if D.controllerTypeServiceDiscovery = "" then
                      .thrown (p.constructController D a).1
                        (.ConfigurationError "Services must have a non-empty name.")
                    else
                      .returned
                        (((((p.constructController D a).1.constructController D
                              (serviceDiscoveryArgs D)).1.notifyServiceCreated
                            ((p.constructController D a).1.constructController D
                              (serviceDiscoveryArgs D)).2.serviceDescriptor
                          ).registerPeerShutdownCallback .ServiceDiscovery
                          ).notifyServiceCreated (p.constructController D a).2.serviceDescriptor)
                        (p.constructController D a).2
              else .returned (p.constructController D a).1 (p.constructController D a).2 := by
  rw [CreateController_succ, GetServiceDiscoveryWith_succ]
  by_cases hname : a.name = ""
  · simp [hname]
  · cases hget : p.GetController a.controllerT a.name with
    | some c => simp [hname]
    | none =>
      by_cases hpub : a.publishService = true
      · cases hsd : (p.constructController D a).1.GetController .ServiceDiscovery
            D.controllerTypeServiceDiscovery with
        | some c => simp [hname, hpub]
        | none =>
          by_cases hsdname : D.controllerTypeServiceDiscovery = ""
          · simp [hname, hpub, hsdname]
          · simp [hname, hpub, hsdname]
      · simp [hname, hpub]

/-- The controller maps after the construction of a controller: the new controller is
stored under its class and name, every other entry is as before. -/
theorem constructController_controllers (D : ParticipantDeclarations) (p : Participant)
    (a : CreateControllerArgs) (t : ControllerT) (n : String) :
    (p.constructController D a).1.controllers t n
      = if t = a.controllerT ∧ n = a.name then some (p.constructController D a).2
        else p.controllers t n :=
  rfl

/-- C12: `CreateController` rejects a bad name at the creation site and is atomic on
rejection. If the configured name is empty, or a controller of that name is stored in the
controller map of the controller class, the call throws `ConfigurationError` and leaves
the participant exactly as it was: no controller constructed or stored, the endpoint id
counter unchanged, nothing registered at the connection, no `NotifyServiceCreated`. -/
theorem C12_CreateController_rejects_atomically (D : ParticipantDeclarations) (fuel : Nat)
    (p : Participant) (a : CreateControllerArgs)
    (hBad : a.name = "" ∨ (p.GetController a.controllerT a.name).isSome) :
    CreateController D (fuel + 1) p a
      = .thrown p (.ConfigurationError
          (if a.name = "" then "Services must have a non-empty name."
           else "Service " ++ a.name ++ " in network " ++ a.network ++ " already exists.")) := by
  rw [CreateController_succ]
  by_cases hname : a.name = ""
  · simp [hname]
  · rcases hBad with h | h
    · exact absurd h hname
    · cases hget : p.GetController a.controllerT a.name with
      | none => simp [hget] at h
      | some c => simp [hname]

/-- C12 at the sample participant on which a CAN controller `Ctrl` exists: a second CAN
controller `Ctrl` is rejected and the participant stays as it was. -/
theorem C12_CreateController_rejects_atomically_witness :
    (((createControllers sampleParticipantDeclarations 2 sampleParticipant
          [sampleCreateArgs .CanController "Ctrl"]).1.GetController
        (sampleCreateArgs .CanController "Ctrl").controllerT
        (sampleCreateArgs .CanController "Ctrl").name).isSome = true)
      ∧ CreateController sampleParticipantDeclarations 2
          (createControllers sampleParticipantDeclarations 2 sampleParticipant
            [sampleCreateArgs .CanController "Ctrl"]).1
          (sampleCreateArgs .CanController "Ctrl")
        = .thrown
            (createControllers sampleParticipantDeclarations 2 sampleParticipant
              [sampleCreateArgs .CanController "Ctrl"]).1
            (.ConfigurationError "Service Ctrl in network NET1 already exists.") := by
  have hStored : ((createControllers sampleParticipantDeclarations 2 sampleParticipant
        [sampleCreateArgs .CanController "Ctrl"]).1.GetController
      (sampleCreateArgs .CanController "Ctrl").controllerT
      (sampleCreateArgs .CanController "Ctrl").name).isSome = true := by decide
  have h := C12_CreateController_rejects_atomically sampleParticipantDeclarations 1
    (createControllers sampleParticipantDeclarations 2 sampleParticipant
      [sampleCreateArgs .CanController "Ctrl"]).1
    (sampleCreateArgs .CanController "Ctrl") (Or.inr hStored)
  exact ⟨hStored, h⟩

/-- The construction of a controller keeps the controllers consistent, as long as the
endpoint id counter does not wrap around. -/
theorem constructController_consistent (D : ParticipantDeclarations) (p : Participant)
    (a : CreateControllerArgs) (hC : Consistent p)
    (hRoom : p.localEndpointId + 1 < 2 ^ D.endpointIdBits) :
    Consistent (p.constructController D a).1
      ∧ (p.constructController D a).1.localEndpointId = p.localEndpointId + 1 := by
  have hcounter : (p.constructController D a).1.localEndpointId = p.localEndpointId + 1 :=
    Nat.mod_eq_of_lt hRoom
  have hid : (p.constructController D a).2.serviceId = p.localEndpointId := rfl
  refine ⟨?_, hcounter⟩
  intro t n c hc
  rw [constructController_controllers] at hc
  rw [hcounter]
  by_cases hkey : t = a.controllerT ∧ n = a.name
  · rw [if_pos hkey] at hc
    cases hc
    refine ⟨hkey.1.symm, hkey.2.symm, by rw [hid]; exact Nat.lt_succ_self _, ?_⟩
    intro t2 n2 c2 hc2 hsame
    rw [constructController_controllers] at hc2
    by_cases hkey2 : t2 = a.controllerT ∧ n2 = a.name
    · exact ⟨hkey2.1.trans hkey.1.symm, hkey2.2.trans hkey.2.symm⟩
    · rw [if_neg hkey2] at hc2
      have := (hC t2 n2 c2 hc2).2.2.1
      rw [hsame, hid] at this
      exact absurd this (Nat.lt_irrefl _)
  · rw [if_neg hkey] at hc
    obtain ⟨hT, hN, hlt, huniq⟩ := hC t n c hc
    refine ⟨hT, hN, Nat.lt_succ_of_lt hlt, ?_⟩
    intro t2 n2 c2 hc2 hsame
    rw [constructController_controllers] at hc2
    by_cases hkey2 : t2 = a.controllerT ∧ n2 = a.name
    · rw [if_pos hkey2] at hc2
      cases hc2
      rw [hid] at hsame
      rw [← hsame] at hlt
      exact absurd hlt (Nat.lt_irrefl _)
    · rw [if_neg hkey2] at hc2
      exact huniq t2 n2 c2 hc2 hsame

/-- What `CreateController` guarantees about the endpoint ids, with room for two nested
creations and two further endpoint ids: the controllers stay consistent, the counter
does not decrease and grows by at most two, and a returned controller carries the
endpoint id current at the call, below the counter afterwards. -/
theorem CreateController_consistent (D : ParticipantDeclarations) (fuel : Nat)
    (p : Participant) (a : CreateControllerArgs) (hC : Consistent p)
    (hRoom : p.localEndpointId + 2 < 2 ^ D.endpointIdBits) :
    match CreateController D (fuel + 2) p a with
    | .returned p1 controller =>
        Consistent p1 ∧ p.localEndpointId < p1.localEndpointId
          ∧ p1.localEndpointId ≤ p.localEndpointId + 2
          ∧ controller.serviceId = p.localEndpointId
    | .thrown p1 _ =>
        Consistent p1 ∧ p.localEndpointId ≤ p1.localEndpointId
          ∧ p1.localEndpointId ≤ p.localEndpointId + 2
    | .unfinished => False := by
  rw [CreateController_succ_succ]
  by_cases hname : a.name = ""
  · simp only [hname, if_true]
    exact ⟨hC, Nat.le_refl _, Nat.le_add_right _ _⟩
  · cases hget : p.GetController a.controllerT a.name with
    | some c =>
      simp only [hname, if_false]
      exact ⟨hC, Nat.le_refl _, Nat.le_add_right _ _⟩
    | none =>
      obtain ⟨hC1, hcount1⟩ := constructController_consistent D p a hC (by omega)
      by_cases hpub : a.publishService = true
      · cases hsd : (p.constructController D a).1.GetController .ServiceDiscovery
            D.controllerTypeServiceDiscovery with
        | some c =>
          simp only [hname, hpub, if_true, if_false]
          refine ⟨hC1, ?_, ?_, rfl⟩
          · show p.localEndpointId < (p.constructController D a).1.localEndpointId
            omega
          · show (p.constructController D a).1.localEndpointId ≤ p.localEndpointId + 2
            omega
        | none =>
          obtain ⟨hC2, hcount2⟩ := constructController_consistent D
            (p.constructController D a).1 (serviceDiscoveryArgs D) hC1 (by omega)
          by_cases hsdname : D.controllerTypeServiceDiscovery = ""
          · simp only [hname, hpub, hsdname, if_true, if_false]
            refine ⟨hC1, ?_, ?_⟩ <;> omega
          · simp only [hname, hpub, hsdname, if_true, if_false]
            refine ⟨hC2, ?_, ?_, rfl⟩
            · show p.localEndpointId < ((p.constructController D a).1.constructController D
                (serviceDiscoveryArgs D)).1.localEndpointId
              omega
            · show ((p.constructController D a).1.constructController D
                (serviceDiscoveryArgs D)).1.localEndpointId ≤ p.localEndpointId + 2
              omega
      · simp only [hname, hpub, if_false]
        refine ⟨hC1, ?_, ?_, rfl⟩ <;> omega

/-- The endpoint ids of the controllers a sequence of creations returns increase
strictly, start at the counter value of the beginning, and the controllers stay
consistent, as long as the counter has room for two ids per call. -/
theorem createControllers_ids (D : ParticipantDeclarations) (fuel : Nat)
    (calls : List CreateControllerArgs) (p : Participant) (hC : Consistent p)
    (hRoom : p.localEndpointId + 2 * calls.length < 2 ^ D.endpointIdBits) :
    (createControllers D (fuel + 2) p calls).2.Pairwise
        (fun c1 c2 => c1.serviceId < c2.serviceId)
      ∧ (∀ c ∈ (createControllers D (fuel + 2) p calls).2, p.localEndpointId ≤ c.serviceId)
      ∧ Consistent (createControllers D (fuel + 2) p calls).1 := by
  induction calls generalizing p with
  | nil =>
    refine ⟨List.Pairwise.nil, ?_, hC⟩
    intro c hc
    exact absurd hc (List.not_mem_nil c)
  | cons a rest ih =>
    simp only [List.length_cons] at hRoom
    have hstep := CreateController_consistent D fuel p a hC (by omega)
    unfold createControllers
    cases hout : CreateController D (fuel + 2) p a with
    | returned p1 controller =>
      rw [hout] at hstep
      obtain ⟨hC1, hlt, hle, hid⟩ := hstep
      obtain ⟨ihpair, ihge, ihC⟩ := ih p1 hC1 (by omega)
      refine ⟨List.pairwise_cons.mpr ⟨?_, ihpair⟩, ?_, ihC⟩
      · intro c hc
        have := ihge c hc
        omega
      · intro c hc
        rcases List.mem_cons.mp hc with rfl | hc
        · omega
        · have := ihge c hc
          omega
    | thrown p1 e =>
      rw [hout] at hstep
      obtain ⟨hC1, hle1, hle2⟩ := hstep
      obtain ⟨ihpair, ihge, ihC⟩ := ih p1 hC1 (by omega)
      refine ⟨ihpair, ?_, ihC⟩
      intro c hc
      have := ihge c hc
      omega
    | unfinished =>
      rw [hout] at hstep
      exact hstep.elim

/-- C14: endpoint ids are monotonic per participant. A `CreateController` call that passes
the name checks gives the controller the current value of `_localEndpointId` as service
id and increments the counter by one (modulo the width of the id). Hence, for every
sequence of creations on a participant as constructed, absent counter overflow: of any
two controllers created, the later one has the strictly larger service id, and no two
controllers stored at the participant (the service discovery controller created on the
way included) share a service id. -/
theorem C14_endpoint_ids_monotonic (D : ParticipantDeclarations) (fuel : Nat)
    (p : Participant) (a : CreateControllerArgs)
    (participantName : String) (dataPublishers : List DataPublisherConfig)
    (traceSinks : List String) (firstEndpointId : Nat) (calls : List CreateControllerArgs)
    (hRoom : firstEndpointId + 2 * calls.length < 2 ^ D.endpointIdBits) :
    ((p.constructController D a).2.serviceId = p.localEndpointId
        ∧ (p.constructController D a).1.localEndpointId
            = (p.localEndpointId + 1) % 2 ^ D.endpointIdBits
        ∧ ∀ p1 controller, CreateController D (fuel + 2) p a = .returned p1 controller →
            controller = (p.constructController D a).2)
      ∧ (createControllers D (fuel + 2)
            (Participant.create participantName dataPublishers traceSinks firstEndpointId)
            calls).2.Pairwise (fun c1 c2 => c1.serviceId < c2.serviceId)
      ∧ (∀ t1 n1 c1 t2 n2 c2,
          (createControllers D (fuel + 2)
            (Participant.create participantName dataPublishers traceSinks firstEndpointId)
            calls).1.controllers t1 n1 = some c1 →
          (createControllers D (fuel + 2)
            (Participant.create participantName dataPublishers traceSinks firstEndpointId)
            calls).1.controllers t2 n2 = some c2 →
          c1.serviceId = c2.serviceId → t1 = t2 ∧ n1 = n2) := by
  have hC0 : Consistent
      (Participant.create participantName dataPublishers traceSinks firstEndpointId) := by
    intro t n c hc
    cases hc
  obtain ⟨hpair, -, hC⟩ := createControllers_ids D fuel calls _ hC0 hRoom
  refine ⟨⟨rfl, rfl, ?_⟩, hpair, ?_⟩
  · intro p1 controller hret
    rw [CreateController_succ_succ] at hret
    by_cases hname : a.name = ""
    · simp [hname] at hret
    · cases hget : p.GetController a.controllerT a.name with
      | some c => simp [hname, hget] at hret
      | none =>
        by_cases hpub : a.publishService = true
        · cases hsd : (p.constructController D a).1.GetController .ServiceDiscovery
              D.controllerTypeServiceDiscovery with
          | some c =>
            simp only [hname, hget, hpub, hsd, if_true, if_false] at hret
            cases hret
            rfl
          | none =>
            by_cases hsdname : D.controllerTypeServiceDiscovery = ""
            · rw [hsdname] at hsd
              simp [hname, hget, hpub, hsd, hsdname] at hret
            · simp only [hname, hget, hpub, hsd, hsdname, if_true, if_false] at hret
              cases hret
              rfl
        · simp only [hname, hget, hpub, if_false] at hret
          cases hret
          rfl
  · intro t1 n1 c1 t2 n2 c2 h1 h2 hsame
    exact (hC t2 n2 c2 h2).2.2.2 t1 n1 c1 h1 hsame

/-- C14 at the sample participant and three creations, the second of which is rejected:
the service ids of the created controllers are 1 and 3 (2 went to the service
discovery controller). -/
theorem C14_endpoint_ids_monotonic_witness :
    (1 + 2 * [sampleCreateArgs .CanController "Ctrl", sampleCreateArgs .CanController "Ctrl",
          sampleCreateArgs .LinController "Ctrl"].length
        < 2 ^ sampleParticipantDeclarations.endpointIdBits)
      ∧ ((createControllers sampleParticipantDeclarations 2 (Participant.create "P1" [] [] 1)
            [sampleCreateArgs .CanController "Ctrl", sampleCreateArgs .CanController "Ctrl",
              sampleCreateArgs .LinController "Ctrl"]).2.Pairwise
          (fun c1 c2 => c1.serviceId < c2.serviceId))
      ∧ (createControllers sampleParticipantDeclarations 2 (Participant.create "P1" [] [] 1)
            [sampleCreateArgs .CanController "Ctrl", sampleCreateArgs .CanController "Ctrl",
              sampleCreateArgs .LinController "Ctrl"]).2.map (fun c => c.serviceId)
          = [1, 3] := by
  have hRoom : 1 + 2 * [sampleCreateArgs .CanController "Ctrl",
      sampleCreateArgs .CanController "Ctrl", sampleCreateArgs .LinController "Ctrl"].length
      < 2 ^ sampleParticipantDeclarations.endpointIdBits := by decide
  have h := C14_endpoint_ids_monotonic sampleParticipantDeclarations 0 sampleParticipant
    (sampleCreateArgs .CanController "Ctrl") "P1" [] [] 1
    [sampleCreateArgs .CanController "Ctrl", sampleCreateArgs .CanController "Ctrl",
      sampleCreateArgs .LinController "Ctrl"] hRoom
  exact ⟨hRoom, h.2.1, by decide⟩

end Core
end SilKit

namespace SilKit
namespace Core

open Participant

/-! ## Data publishers, configured values and the orchestration services -/

/-- Whatever the nesting bound: `CreateController` throws nothing but the two
configuration errors of its name checks. -/
theorem CreateController_thrown_what (D : ParticipantDeclarations) (fuel : Nat) :
    ∀ (p : Participant) (a : CreateControllerArgs) (p1 : Participant) (e : SilKitException),
      CreateController D fuel p a = .thrown p1 e →
        e = .ConfigurationError "Services must have a non-empty name."
          ∨ ∃ name network, e = .ConfigurationError
              ("Service " ++ name ++ " in network " ++ network ++ " already exists.") := by
  induction fuel with
  | zero =>
    intro p a p1 e h
    simp [CreateController] at h
  | succ fuel ih =>
    intro p a p1 e h
    rw [CreateController_succ] at h
    by_cases hname : a.name = ""
    · simp only [hname, if_true] at h
      cases h
      exact Or.inl rfl
    · cases hget : p.GetController a.controllerT a.name with
      | some c =>
        simp only [hname, hget, if_false] at h
        cases h
        exact Or.inr ⟨_, _, rfl⟩
      | none =>
        by_cases hpub : a.publishService = true
        · simp only [hname, hget, hpub, if_true, if_false] at h
          unfold GetServiceDiscoveryWith at h
          cases hsd : (p.constructController D a).1.GetController .ServiceDiscovery
              D.controllerTypeServiceDiscovery with
          | some c => simp [hsd] at h
          | none =>
            simp only [hsd] at h
            cases hnested : CreateController D fuel (p.constructController D a).1
                (serviceDiscoveryArgs D) with
            | returned p2 c => simp [hnested] at h
            | thrown p2 e2 =>
              simp only [hnested] at h
              cases h
              exact ih _ _ _ _ hnested
            | unfinished => simp [hnested] at h
        · simp [hname, hget, hpub] at h

/-- The loop over the trace sinks throws nothing but the error of a missing sink. -/
theorem AddTraceSinksToSource_what (p : Participant) (configName : String)
    (sinks : List String) (e : SilKitException)
    (h : p.AddTraceSinksToSource configName sinks = some e) :
    ∃ sinkName, e = .ConfigurationError
      ("Controller " ++ configName ++ " refers to non-existing sink " ++ sinkName) := by
  induction sinks with
  | nil => simp [AddTraceSinksToSource] at h
  | cons sinkName rest ih =>
    unfold AddTraceSinksToSource at h
    by_cases hmem : sinkName ∈ p.traceSinks
    · rw [if_pos hmem] at h
      exact ih h
    · rw [if_neg hmem] at h
      cases h
      exact ⟨sinkName, rfl⟩

/-- C15: `CreateDataPublisher` treats a history depth above 1 as a configuration error.
For every history > 1 it throws `ConfigurationError` as its first statement, with the
participant exactly as it was: no controller created, no service announced, no history
length set on a link. For history 0 or 1 the call never ends with that error,
whatever else it ends with. -/
theorem C15_history_above_one_is_configuration_error (D : ParticipantDeclarations)
    (fuel : Nat) (p : Participant) (canonicalName : String) (dataSpec : PubSubSpec)
    (history : Nat) (uuid : String) :
    (1 < history →
        p.CreateDataPublisher D fuel canonicalName dataSpec history uuid
          = .thrown p (.ConfigurationError "DataPublishers do not support history > 1."))
      ∧ (history ≤ 1 → ∀ p1,
          p.CreateDataPublisher D fuel canonicalName dataSpec history uuid
            ≠ .thrown p1 (.ConfigurationError "DataPublishers do not support history > 1.")) := by
  constructor
  · intro hhist
    unfold CreateDataPublisher
    rw [if_pos hhist]
  · intro hhist p1 hthrown
    have hnot : ¬ history > 1 := Nat.not_lt.mpr hhist
    unfold CreateDataPublisher at hthrown
    rw [if_neg hnot] at hthrown
    simp only at hthrown
    split at hthrown
    · split at hthrown
      · split at hthrown
        · rename_i e hsink
          obtain ⟨sinkName, he⟩ := AddTraceSinksToSource_what _ _ _ _ hsink
          cases hthrown
          have h2 := congrArg (fun s => s.data.head?) (SilKitException.ConfigurationError.inj he)
          simp [String.data_append] at h2
        · cases hthrown
      · cases hthrown
    · rename_i p2 e hcreate
      cases hthrown
      rcases CreateController_thrown_what D fuel _ _ _ _ hcreate with he | ⟨name, network, he⟩
      · exact absurd (SilKitException.ConfigurationError.inj he) (by decide)
      · have h2 := congrArg (fun s => s.data.head?) (SilKitException.ConfigurationError.inj he)
        simp [String.data_append] at h2
    · cases hthrown

/-- C15 at the sample participant: history 2 is rejected with the participant unchanged,
history 1 creates the publisher with service id 1 and sets the history length of its
link. -/
theorem C15_history_above_one_is_configuration_error_witness :
    sampleParticipant.CreateDataPublisher sampleParticipantDeclarations 2 "Pub"
        { topic := "T", mediaType := "M", labels := [] } 2 "uuid-1"
      = .thrown sampleParticipant
          (.ConfigurationError "DataPublishers do not support history > 1.")
    ∧ (sampleParticipant.CreateDataPublisher sampleParticipantDeclarations 2 "Pub"
          { topic := "T", mediaType := "M", labels := [] } 1 "uuid-1"
        ≠ .thrown sampleParticipant
            (.ConfigurationError "DataPublishers do not support history > 1."))
    ∧ ((sampleParticipant.CreateDataPublisher sampleParticipantDeclarations 2 "Pub"
          { topic := "T", mediaType := "M", labels := [] } 1 "uuid-1").participantAfter
          sampleParticipant).connection.historyLengths.map (fun x => (x.1, x.2.descriptor))
        = [(1, { participantName := "P1", networkName := "uuid-1", serviceName := "Pub",
                 serviceId := 1 })] := by
  have h2 := (C15_history_above_one_is_configuration_error sampleParticipantDeclarations 2
    sampleParticipant "Pub" { topic := "T", mediaType := "M", labels := [] } 2 "uuid-1").1
    (by decide)
  have h1 := (C15_history_above_one_is_configuration_error sampleParticipantDeclarations 2
    sampleParticipant "Pub" { topic := "T", mediaType := "M", labels := [] } 1 "uuid-1").2
    (by decide) sampleParticipant
  exact ⟨h2, h1, by decide⟩

/-- A configured value stays in the optional, whatever is passed. -/
theorem UpdateOptionalConfigValue_some {ValueT : Type} [DecidableEq ValueT]
    [ToString ValueT] (p : Participant) (controllerName : String) (v passedValue : ValueT) :
    (p.UpdateOptionalConfigValue controllerName (some v) passedValue).2 = some v := by
  unfold UpdateOptionalConfigValue
  by_cases h : v = passedValue <;> simp [h]

/-- C19: a configured value has priority over the value passed programmatically. After
`UpdateOptionalConfigValue(name, configured, passed)` the optional holds a value; a
value `v` it held is kept, whatever was passed; a passed value that differs from `v` is
logged: exactly one message goes to `_logger->Info`, the text of
`LogMismatchBetweenConfigAndPassedValue` with the controller name, the passed and the
configured value, and a passed value equal to `v` logs nothing; an empty optional takes
the passed value and nothing is logged; and applying the operation again, with the same
or another passed value, leaves the optional as the first application left it. Nothing
but the log of the participant changes. -/
theorem C19_configured_value_has_priority {ValueT : Type} [DecidableEq ValueT]
    [ToString ValueT] (p : Participant) (controllerName : String)
    (configuredValue : Option ValueT) (v passedValue passedAgain : ValueT) :
    (p.UpdateOptionalConfigValue controllerName configuredValue passedValue).2.isSome = true
      ∧ (p.UpdateOptionalConfigValue controllerName (some v) passedValue).2 = some v
      ∧ (p.UpdateOptionalConfigValue controllerName (some v) passedValue).1
          = (if v = passedValue then p
             else p.LogMismatchBetweenConfigAndPassedValue controllerName passedValue v)
      ∧ (v ≠ passedValue →
          (p.UpdateOptionalConfigValue controllerName (some v) passedValue).1.loggedInfo
            = p.loggedInfo ++
                ["Mismatch between a configured and programmatically passed value. "
                  ++ "The configured value will be used.\n"
                  ++ "Controller name: " ++ controllerName ++ "\n"
                  ++ "Passed value: " ++ toString passedValue ++ "\n"
                  ++ "Configured value: " ++ toString v ++ "\n"])
      ∧ (v = passedValue →
          (p.UpdateOptionalConfigValue controllerName (some v) passedValue).1.loggedInfo
            = p.loggedInfo)
      ∧ p.UpdateOptionalConfigValue controllerName none passedValue = (p, some passedValue)
      ∧ ((p.UpdateOptionalConfigValue controllerName configuredValue
              passedValue).1.UpdateOptionalConfigValue controllerName
            (p.UpdateOptionalConfigValue controllerName configuredValue passedValue).2
            passedAgain).2
          = (p.UpdateOptionalConfigValue controllerName configuredValue passedValue).2
      ∧ { (p.UpdateOptionalConfigValue controllerName configuredValue passedValue).1 with
            loggedInfo := p.loggedInfo } = p := by
  refine ⟨?_, ?_, ?_, ?_, ?_, rfl, ?_, ?_⟩
  · cases configuredValue with
    | none => rfl
    | some value =>
      unfold UpdateOptionalConfigValue
      by_cases h : value = passedValue <;> simp [h]
  · exact UpdateOptionalConfigValue_some p controllerName v passedValue
  · unfold UpdateOptionalConfigValue
    by_cases h : v = passedValue <;> simp [h]
  · intro hne
    unfold UpdateOptionalConfigValue
    dsimp only
    rw [if_pos hne]
    rfl
  · intro heq
    unfold UpdateOptionalConfigValue
    dsimp only
    rw [if_neg (not_not.mpr heq)]
  · cases configuredValue with
    | none => exact UpdateOptionalConfigValue_some p controllerName passedValue passedAgain
    | some value =>
      rw [UpdateOptionalConfigValue_some p controllerName value passedValue]
      exact UpdateOptionalConfigValue_some _ controllerName value passedAgain
  · cases configuredValue with
    | none => rfl
    | some value =>
      unfold UpdateOptionalConfigValue
      by_cases h : value = passedValue <;> simp [h, LogMismatchBetweenConfigAndPassedValue]

/-- C19 at the sample participant: the configured topic stays when another topic is
passed, and the mismatch is logged with the controller name and both values; a passed
topic fills an empty optional without a message. -/
theorem C19_configured_value_has_priority_witness :
    (sampleParticipant.UpdateOptionalConfigValue "Pub" (some "ConfiguredTopic")
        "PassedTopic").2 = some "ConfiguredTopic"
      ∧ (sampleParticipant.UpdateOptionalConfigValue "Pub" (some "ConfiguredTopic")
          "PassedTopic").1.loggedInfo
        = ["Mismatch between a configured and programmatically passed value. "
            ++ "The configured value will be used.\n"
            ++ "Controller name: Pub\n"
            ++ "Passed value: PassedTopic\n"
            ++ "Configured value: ConfiguredTopic\n"]
      ∧ (sampleParticipant.UpdateOptionalConfigValue "Pub" none "PassedTopic").2
        = some "PassedTopic"
      ∧ (sampleParticipant.UpdateOptionalConfigValue "Pub" none
          "PassedTopic").1.loggedInfo = [] := by
  have h := C19_configured_value_has_priority sampleParticipant "Pub"
    (some "ConfiguredTopic") "ConfiguredTopic" "PassedTopic" "PassedTopic"
  refine ⟨h.2.1, ?_, rfl, rfl⟩
  rw [h.2.2.2.1 (by decide)]
  rfl

end Core
end SilKit

namespace SilKit
namespace Core

open VAsioConnection VAsioConnectionServices

/-! ## Service registration of `VAsioConnection` -/

/-- The loop over the peers records one pending acknowledgement per peer for a service
with synchronous registration, and none otherwise. -/
theorem subscribeAtPeers_pending (useAsync : Bool) (info : VAsioMsgSubscriber)
    (peers : List VAsioPeer) (pending : List (Nat × VAsioMsgSubscriber)) :
    (subscribeAtPeers useAsync info peers pending).2
      = pending ++ (if useAsync then [] else peers.map (fun peer => (peer.address, info))) := by
  induction peers generalizing pending with
  | nil => cases useAsync <;> simp [subscribeAtPeers]
  | cons peer rest ih => cases useAsync <;> simp [subscribeAtPeers, ih]

/-- What one `RegisterSilKitMsgReceiver` call does to the receivers, the receiver ids, the
pending acknowledgements and the peers: nothing for a key that is registered, and for a
new key one receiver, one id, and one pending acknowledgement per peer if the
registration is synchronous. -/
theorem RegisterSilKitMsgReceiver_effect (D : VAsioDeclarations) (useAsync : Bool)
    (conn : VAsioConnection) (msg : SilKitMessageTypes) (link : String)
    (service : MessageReceiver) :
    ∃ infos : List VAsioMsgSubscriber,
      (RegisterSilKitMsgReceiver D useAsync conn msg link service).vasioReceivers.map
          (fun r => r.subscriptionInfo)
        = conn.vasioReceivers.map (fun r => r.subscriptionInfo) ++ infos
      ∧ (RegisterSilKitMsgReceiver D useAsync conn msg link service).vasioUniqueReceiverIds
        = (infos.map (fun info => uniqueReceiverId info.networkName info.msgTypeName)).reverse
            ++ conn.vasioUniqueReceiverIds
      ∧ (RegisterSilKitMsgReceiver D useAsync conn msg link service).pendingSubscriptionAcknowledges
        = conn.pendingSubscriptionAcknowledges
            ++ (if useAsync then []
                else infos.flatMap (fun info =>
                  (conn.peers.map (fun peer => peer.address)).map (fun a => (a, info))))
      ∧ (RegisterSilKitMsgReceiver D useAsync conn msg link service).peers.map
          (fun peer => peer.address)
        = conn.peers.map (fun peer => peer.address)
      ∧ infos
        = (if uniqueReceiverId link (D.SerdesName msg) ∈ conn.vasioUniqueReceiverIds then []
           else [{ receiverIdx := conn.vasioReceivers.length % 2 ^ D.receiverIdxBits
                   networkName := link
                   msgTypeName := D.SerdesName msg
                   version := D.Version msg }]) := by
  unfold RegisterSilKitMsgReceiver
  by_cases hmem : uniqueReceiverId link (D.SerdesName msg) ∈ conn.vasioUniqueReceiverIds
  · refine ⟨[], ?_⟩
    cases hlink : conn.links msg link <;> cases useAsync <;>
      simp [GetLinkByName, setLink, hlink, hmem]
  · refine ⟨[{ receiverIdx := conn.vasioReceivers.length % 2 ^ D.receiverIdxBits
               networkName := link
               msgTypeName := D.SerdesName msg
               version := D.Version msg }], ?_⟩
    cases hlink : conn.links msg link <;> cases useAsync <;>
      simp [GetLinkByName, setLink, hlink, hmem, subscribeAtPeers_pending,
        subscribeAtPeers_peers, VAsioPeer.Subscribe, Function.comp_def]

/-- What the loop over the received message types does: the same, over all new keys. The
receivers allocated stand for pairwise different receiver ids, which are the ids of the
message types of the loop that were not registered before, on the network given. -/
theorem registerReceivers_effect (D : VAsioDeclarations) (useAsync : Bool) (link : String)
    (service : MessageReceiver) (msgs : List SilKitMessageTypes) (conn : VAsioConnection) :
    ∃ infos : List VAsioMsgSubscriber,
      (registerReceivers D useAsync link service msgs conn).vasioReceivers.map
          (fun r => r.subscriptionInfo)
        = conn.vasioReceivers.map (fun r => r.subscriptionInfo) ++ infos
      ∧ (registerReceivers D useAsync link service msgs conn).vasioUniqueReceiverIds
        = (infos.map (fun info => uniqueReceiverId info.networkName info.msgTypeName)).reverse
            ++ conn.vasioUniqueReceiverIds
      ∧ (registerReceivers D useAsync link service msgs conn).pendingSubscriptionAcknowledges
        = conn.pendingSubscriptionAcknowledges
            ++ (if useAsync then []
                else infos.flatMap (fun info =>
                  (conn.peers.map (fun peer => peer.address)).map (fun a => (a, info))))
      ∧ (registerReceivers D useAsync link service msgs conn).peers.map
          (fun peer => peer.address)
        = conn.peers.map (fun peer => peer.address)
      ∧ ((infos.map (fun info => uniqueReceiverId info.networkName info.msgTypeName)).Nodup
        ∧ (∀ id, id ∈ infos.map (fun info => uniqueReceiverId info.networkName info.msgTypeName)
            ↔ id ∉ conn.vasioUniqueReceiverIds
              ∧ ∃ msg ∈ msgs, id = uniqueReceiverId link (D.SerdesName msg))
        ∧ (∀ info ∈ infos, info.networkName = link
            ∧ ∃ msg ∈ msgs, info.msgTypeName = D.SerdesName msg
                ∧ info.version = D.Version msg)) := by
  induction msgs generalizing conn with
  | nil => exact ⟨[], by cases useAsync <;> simp [registerReceivers]⟩
  | cons msg rest ih =>
    obtain ⟨infos1, hrecv1, hids1, hpend1, hpeers1, hinfos1⟩ :=
      RegisterSilKitMsgReceiver_effect D useAsync conn msg link service
    obtain ⟨infos2, hrecv2, hids2, hpend2, hpeers2, hnodup2, hmem2, hinfo2⟩ :=
      ih (RegisterSilKitMsgReceiver D useAsync conn msg link service)
    refine ⟨infos1 ++ infos2, ?_, ?_, ?_, ?_, ?_⟩
    · rw [registerReceivers, hrecv2, hrecv1, List.append_assoc]
    · rw [registerReceivers, hids2, hids1]
      simp
    · rw [registerReceivers, hpend2, hpend1, hpeers1]
      cases useAsync <;> simp
    · rw [registerReceivers, hpeers2, hpeers1]
    · rw [hids1] at hmem2
      by_cases hid : uniqueReceiverId link (D.SerdesName msg) ∈ conn.vasioUniqueReceiverIds
      · rw [if_pos hid] at hinfos1
        subst hinfos1
        simp only [List.map_nil, List.reverse_nil, List.nil_append] at hmem2 ⊢
        refine ⟨hnodup2, ?_, ?_⟩
        · intro id
          rw [hmem2 id]
          constructor
          · rintro ⟨hnot, m, hm, he⟩
            exact ⟨hnot, m, List.mem_cons_of_mem _ hm, he⟩
          · rintro ⟨hnot, m, hm, he⟩
            rcases List.mem_cons.mp hm with hm | hm
            · exact absurd (he ▸ hm ▸ hid) hnot
            · exact ⟨hnot, m, hm, he⟩
        · intro info hinfo
          obtain ⟨hnet, m, hm, he⟩ := hinfo2 info hinfo
          exact ⟨hnet, m, List.mem_cons_of_mem _ hm, he⟩
      · rw [if_neg hid] at hinfos1
        subst hinfos1
        simp only [List.map_cons, List.map_nil, List.reverse_cons, List.reverse_nil,
          List.nil_append, List.singleton_append, List.mem_cons, not_or] at hmem2 ⊢
        refine ⟨?_, ?_, ?_⟩
        · rw [List.nodup_cons]
          refine ⟨?_, hnodup2⟩
          intro hin
          exact ((hmem2 _).mp hin).1.1 rfl
        · intro id
          constructor
          · rintro (he | hin)
            · exact ⟨he ▸ hid, msg, Or.inl rfl, he⟩
            · obtain ⟨hnot, m, hm, he⟩ := (hmem2 id).mp hin
              exact ⟨hnot.2, m, Or.inr hm, he⟩
          · rintro ⟨hnot, m, hm, he⟩
            by_cases hsame : id = uniqueReceiverId link (D.SerdesName msg)
            · exact Or.inl hsame
            · right
              rcases hm with hm | hm
              · exact absurd (hm ▸ he) hsame
              · exact (hmem2 id).mpr ⟨⟨hsame, hnot⟩, m, hm, he⟩
        · intro info hinfo
          rcases hinfo with hinfo | hinfo
          · subst hinfo
            exact ⟨rfl, msg, Or.inl rfl, rfl, rfl⟩
          · obtain ⟨hnet, m, hm, he⟩ := hinfo2 info hinfo
            exact ⟨hnet, m, Or.inr hm, he⟩

/-- The loop over the sent message types leaves receivers, receiver ids, pending
acknowledgements, peers and the promise as they are. -/
theorem registerSenders_keeps (link : String) (service : MessageReceiver)
    (msgs : List SilKitMessageTypes) (s : VAsioConnectionServices) :
    (registerSenders link service msgs s).connection.vasioReceivers = s.connection.vasioReceivers
      ∧ (registerSenders link service msgs s).connection.vasioUniqueReceiverIds
          = s.connection.vasioUniqueReceiverIds
      ∧ (registerSenders link service msgs s).connection.pendingSubscriptionAcknowledges
          = s.connection.pendingSubscriptionAcknowledges
      ∧ (registerSenders link service msgs s).connection.peers = s.connection.peers
      ∧ (registerSenders link service msgs s).receivedAllSubscriptionAcknowledges
          = s.receivedAllSubscriptionAcknowledges := by
  induction msgs generalizing s with
  | nil => exact ⟨rfl, rfl, rfl, rfl, rfl⟩
  | cons msg rest ih =>
    have h := ih (s.RegisterSilKitMsgSender msg link service.serviceDescriptor)
    have hstep : (s.RegisterSilKitMsgSender msg link service.serviceDescriptor).connection.vasioReceivers
          = s.connection.vasioReceivers
        ∧ (s.RegisterSilKitMsgSender msg link
            service.serviceDescriptor).connection.vasioUniqueReceiverIds
          = s.connection.vasioUniqueReceiverIds
        ∧ (s.RegisterSilKitMsgSender msg link
            service.serviceDescriptor).connection.pendingSubscriptionAcknowledges
          = s.connection.pendingSubscriptionAcknowledges
        ∧ (s.RegisterSilKitMsgSender msg link service.serviceDescriptor).connection.peers
          = s.connection.peers := by
      unfold RegisterSilKitMsgSender GetLinkByName
      cases hlink : s.connection.links msg link <;> simp [setLink]
    rw [registerSenders]
    exact ⟨h.1.trans hstep.1, h.2.1.trans hstep.2.1, h.2.2.1.trans hstep.2.2.1,
      h.2.2.2.1.trans hstep.2.2.2, h.2.2.2.2⟩

/-- One pending acknowledgement per pair of a subscription record and a peer. -/
theorem length_flatMap_peers (infos : List VAsioMsgSubscriber) (peers : List VAsioPeer) :
    (infos.flatMap (fun info => peers.map (fun peer => (peer.address, info)))).length
      = infos.length * peers.length := by
  induction infos with
  | nil => simp
  | cons info rest ih =>
    rw [List.flatMap_cons, List.length_append, ih, List.length_map, List.length_cons,
      Nat.succ_mul, Nat.add_comm]

/-- What `RegisterSilKitServiceImpl` does, in every state: the receivers allocated are
those of the new subscription keys; the pending acknowledgements added; and what becomes
of the promise. -/
theorem RegisterSilKitServiceImpl_effect (D : VAsioDeclarations)
    (traits : SilKitServiceTraits) (s : VAsioConnectionServices) (link : String)
    (service : MessageReceiver) :
    ((s.connection.subscriptionsSince
          (s.RegisterSilKitServiceImpl D traits link service).1.connection).map
        (fun info => uniqueReceiverId info.networkName info.msgTypeName)).Perm
        (newSubscriptionKeys D s.connection.vasioUniqueReceiverIds link
          traits.SilKitReceiveMessagesTypes)
      ∧ (∀ info ∈ s.connection.subscriptionsSince
            (s.RegisterSilKitServiceImpl D traits link service).1.connection,
          info.networkName = link
            ∧ ∃ msg ∈ traits.SilKitReceiveMessagesTypes,
                info.msgTypeName = D.SerdesName msg ∧ info.version = D.Version msg)
      ∧ (s.RegisterSilKitServiceImpl D traits link
            service).1.connection.pendingSubscriptionAcknowledges
          = s.connection.pendingSubscriptionAcknowledges
            ++ (if traits.UseAsyncRegistration then []
                else (s.connection.subscriptionsSince
                    (s.RegisterSilKitServiceImpl D traits link service).1.connection).flatMap
                  (fun info => s.connection.peers.map (fun peer => (peer.address, info))))
      ∧ (traits.UseAsyncRegistration = true
            ∨ (s.RegisterSilKitServiceImpl D traits link
                service).1.connection.pendingSubscriptionAcknowledges ≠ [] →
          (s.RegisterSilKitServiceImpl D traits link service).1.receivedAllSubscriptionAcknowledges
              = s.receivedAllSubscriptionAcknowledges
            ∧ (s.RegisterSilKitServiceImpl D traits link service).2 = none)
      ∧ (traits.UseAsyncRegistration = false →
          (s.RegisterSilKitServiceImpl D traits link
              service).1.connection.pendingSubscriptionAcknowledges = [] →
          (s.receivedAllSubscriptionAcknowledges.satisfied = false →
              (s.RegisterSilKitServiceImpl D traits link
                  service).1.receivedAllSubscriptionAcknowledges.satisfied = true
                ∧ (s.RegisterSilKitServiceImpl D traits link service).2 = none)
            ∧ (s.receivedAllSubscriptionAcknowledges.satisfied = true →
              (s.RegisterSilKitServiceImpl D traits link
                  service).1.receivedAllSubscriptionAcknowledges
                  = s.receivedAllSubscriptionAcknowledges
                ∧ (s.RegisterSilKitServiceImpl D traits link service).2
                  = some .promise_already_satisfied)) := by
  obtain ⟨infos, hrecv, hids, hpend, -, hnodup, hmem, hinfo⟩ := registerReceivers_effect D
    traits.UseAsyncRegistration link service traits.SilKitReceiveMessagesTypes s.connection
  have hkeep := registerSenders_keeps link service traits.SilKitSendMessagesTypes
    { s with
      connection :=
        registerReceivers D traits.UseAsyncRegistration link service
          traits.SilKitReceiveMessagesTypes s.connection }
  obtain ⟨hk1, -, hk3, -, hk5⟩ := hkeep
  dsimp only at hk1 hk3 hk5
  -- the connection members after the registration, whatever happens to the promise
  have hconn : (s.RegisterSilKitServiceImpl D traits link service).1.connection
      = (registerSenders link service traits.SilKitSendMessagesTypes
          { s with
            connection :=
              registerReceivers D traits.UseAsyncRegistration link service
                traits.SilKitReceiveMessagesTypes s.connection }).connection := by
    unfold RegisterSilKitServiceImpl
    dsimp only
    split
    · split
      · split <;> rfl
      · rfl
    · rfl
  have hsince : s.connection.subscriptionsSince
      (s.RegisterSilKitServiceImpl D traits link service).1.connection = infos := by
    unfold subscriptionsSince
    rw [hconn, hk1]
    have hlen : s.connection.vasioReceivers.length
        = (s.connection.vasioReceivers.map (fun r => r.subscriptionInfo)).length := by simp
    rw [List.map_drop, hrecv, hlen, List.drop_left]
  have hpendAfter : (s.RegisterSilKitServiceImpl D traits link
      service).1.connection.pendingSubscriptionAcknowledges
      = s.connection.pendingSubscriptionAcknowledges
        ++ (if traits.UseAsyncRegistration then []
            else infos.flatMap (fun info =>
              s.connection.peers.map (fun peer => (peer.address, info)))) := by
    rw [hconn, hk3, hpend]
    simp [List.map_map, Function.comp_def]
  rw [hsince]
  refine ⟨?_, hinfo, hpendAfter, ?_, ?_⟩
  · unfold newSubscriptionKeys
    rw [List.perm_ext_iff_of_nodup hnodup ((List.nodup_dedup _).filter _)]
    intro id
    rw [hmem id]
    simp only [List.mem_filter, List.mem_dedup, List.mem_map, decide_eq_true_eq]
    constructor
    · rintro ⟨hnot, m, hm, he⟩
      exact ⟨⟨m, hm, he.symm⟩, hnot⟩
    · rintro ⟨⟨m, hm, he⟩, hnot⟩
      exact ⟨hnot, m, hm, he.symm⟩
  · intro hcase
    rw [hconn] at hcase
    unfold RegisterSilKitServiceImpl
    dsimp only
    cases hasync : traits.UseAsyncRegistration with
    | true =>
      rw [hasync] at hk5
      simp only [Bool.not_true, Bool.false_eq_true, if_false]
      exact ⟨hk5, trivial⟩
    | false =>
      rw [hasync] at hcase hk5
      rcases hcase with h | hpending
      · cases h
      · have hne : (registerSenders link service traits.SilKitSendMessagesTypes
            { s with
              connection :=
                registerReceivers D false link service
                  traits.SilKitReceiveMessagesTypes s.connection }
            ).connection.pendingSubscriptionAcknowledges.isEmpty = false := by
          cases hp : (registerSenders link service traits.SilKitSendMessagesTypes
            { s with
              connection :=
                registerReceivers D false link service
                  traits.SilKitReceiveMessagesTypes s.connection }
            ).connection.pendingSubscriptionAcknowledges with
          | nil => exact absurd hp hpending
          | cons a rest => rfl
        simp only [Bool.not_false, if_true, hne, Bool.false_eq_true, if_false]
        exact ⟨hk5, trivial⟩
  · intro hsync hempty
    rw [hconn, hsync] at hempty
    rw [hsync] at hk5
    have hisEmpty : (registerSenders link service traits.SilKitSendMessagesTypes
        { s with
          connection :=
            registerReceivers D false link service
              traits.SilKitReceiveMessagesTypes s.connection }
        ).connection.pendingSubscriptionAcknowledges.isEmpty = true := by
      rw [hempty]
      rfl
    unfold RegisterSilKitServiceImpl
    dsimp only
    rw [hsync]
    simp only [Bool.not_false, if_true, hisEmpty, hk5]
    constructor
    · intro hfresh
      unfold Promise.set_value
      rw [hfresh]
      exact ⟨rfl, rfl⟩
    · intro hset
      unfold Promise.set_value
      rw [hset]
      exact ⟨hk5, rfl⟩

/-- C11: pending acknowledgements and the promise in `RegisterSilKitServiceImpl`. The new
subscription keys are the receiver ids `link + "/" + serdes name` of the message types
the service receives that were not registered before, each once; for each a receiver is
allocated, with that network and serdes name. For a service with synchronous
registration, one pending acknowledgement is recorded per new key and connected peer,
and `set_value` is called on the promise `_receivedAllSubscriptionAcknowledges` during
the registration if and only if the pending list is empty after all receivers were
registered, which, with none pending before, is the case if and only if there is no
connected peer or no new key: the promise, fresh as `RegisterSilKitService` leaves it
for such a service, is fulfilled then and is left alone otherwise, and nothing is
thrown (on a promise that holds a value already, `set_value` throws
`std::future_error`). For a service with asynchronous registration no pending
acknowledgement is added and the promise is not touched. -/
theorem C11_pending_acknowledgements_and_promise (D : VAsioDeclarations)
    (traits : SilKitServiceTraits) (s : VAsioConnectionServices) (link : String)
    (service : MessageReceiver) :
    (((s.connection.subscriptionsSince
            (s.RegisterSilKitServiceImpl D traits link service).1.connection).map
          (fun info => uniqueReceiverId info.networkName info.msgTypeName)).Perm
          (newSubscriptionKeys D s.connection.vasioUniqueReceiverIds link
            traits.SilKitReceiveMessagesTypes)
        ∧ ∀ info ∈ s.connection.subscriptionsSince
            (s.RegisterSilKitServiceImpl D traits link service).1.connection,
          info.networkName = link
            ∧ ∃ msg ∈ traits.SilKitReceiveMessagesTypes,
                info.msgTypeName = D.SerdesName msg ∧ info.version = D.Version msg)
      ∧ (traits.UseAsyncRegistration = false →
          (s.RegisterSilKitServiceImpl D traits link
              service).1.connection.pendingSubscriptionAcknowledges
            = s.connection.pendingSubscriptionAcknowledges
              ++ (s.connection.subscriptionsSince
                    (s.RegisterSilKitServiceImpl D traits link service).1.connection).flatMap
                  (fun info => s.connection.peers.map (fun peer => (peer.address, info)))
          ∧ (s.RegisterSilKitServiceImpl D traits link
                service).1.connection.pendingSubscriptionAcknowledges.length
            = s.connection.pendingSubscriptionAcknowledges.length
              + (newSubscriptionKeys D s.connection.vasioUniqueReceiverIds link
                  traits.SilKitReceiveMessagesTypes).length * s.connection.peers.length
          ∧ ((s.RegisterSilKitServiceImpl D traits link
                service).1.connection.pendingSubscriptionAcknowledges = []
              ↔ s.connection.pendingSubscriptionAcknowledges = []
                ∧ (s.connection.peers = []
                  ∨ newSubscriptionKeys D s.connection.vasioUniqueReceiverIds link
                      traits.SilKitReceiveMessagesTypes = []))
          ∧ ((s.RegisterSilKitServiceImpl D traits link
                service).1.connection.pendingSubscriptionAcknowledges ≠ [] →
              (s.RegisterSilKitServiceImpl D traits link
                  service).1.receivedAllSubscriptionAcknowledges
                  = s.receivedAllSubscriptionAcknowledges
                ∧ (s.RegisterSilKitServiceImpl D traits link service).2 = none)
          ∧ ((s.RegisterSilKitServiceImpl D traits link
                service).1.connection.pendingSubscriptionAcknowledges = [] →
              (s.receivedAllSubscriptionAcknowledges.satisfied = false →
                  (s.RegisterSilKitServiceImpl D traits link
                      service).1.receivedAllSubscriptionAcknowledges.satisfied = true
                    ∧ (s.RegisterSilKitServiceImpl D traits link service).2 = none)
                ∧ (s.receivedAllSubscriptionAcknowledges.satisfied = true →
                  (s.RegisterSilKitServiceImpl D traits link
                      service).1.receivedAllSubscriptionAcknowledges
                      = s.receivedAllSubscriptionAcknowledges
                    ∧ (s.RegisterSilKitServiceImpl D traits link service).2
                      = some .promise_already_satisfied))
          ∧ (s.RegisterSilKitService D traits link service).2 = none
          ∧ ((s.RegisterSilKitService D traits link
                  service).1.receivedAllSubscriptionAcknowledges.satisfied = true
              ↔ (s.RegisterSilKitService D traits link
                  service).1.connection.pendingSubscriptionAcknowledges = [])
          ∧ ((s.RegisterSilKitService D traits link
                  service).1.connection.pendingSubscriptionAcknowledges = []
              ↔ s.connection.pendingSubscriptionAcknowledges = []
                ∧ (s.connection.peers = []
                  ∨ newSubscriptionKeys D s.connection.vasioUniqueReceiverIds link
                      traits.SilKitReceiveMessagesTypes = [])))
      ∧ (traits.UseAsyncRegistration = true →
          (s.RegisterSilKitServiceImpl D traits link
              service).1.connection.pendingSubscriptionAcknowledges
            = s.connection.pendingSubscriptionAcknowledges
          ∧ (s.RegisterSilKitServiceImpl D traits link
              service).1.receivedAllSubscriptionAcknowledges
            = s.receivedAllSubscriptionAcknowledges
          ∧ (s.RegisterSilKitServiceImpl D traits link service).2 = none
          ∧ s.RegisterSilKitService D traits link service
            = s.RegisterSilKitServiceImpl D traits link service) := by
  -- when the pending list is empty after a synchronous registration, in any state
  have hemptyIff : ∀ t : VAsioConnectionServices, traits.UseAsyncRegistration = false →
      ((t.RegisterSilKitServiceImpl D traits link
            service).1.connection.pendingSubscriptionAcknowledges = []
        ↔ t.connection.pendingSubscriptionAcknowledges = []
          ∧ (t.connection.peers = []
            ∨ newSubscriptionKeys D t.connection.vasioUniqueReceiverIds link
                traits.SilKitReceiveMessagesTypes = [])) := by
    intro t hsync
    obtain ⟨hperm, -, hpend, -, -⟩ := RegisterSilKitServiceImpl_effect D traits t link service
    rw [hpend, hsync]
    simp only [Bool.false_eq_true, if_false, List.append_eq_nil]
    have hnil : newSubscriptionKeys D t.connection.vasioUniqueReceiverIds link
          traits.SilKitReceiveMessagesTypes = []
        ↔ t.connection.subscriptionsSince
            (t.RegisterSilKitServiceImpl D traits link service).1.connection = [] := by
      constructor
      · intro h
        rw [h] at hperm
        exact List.map_eq_nil_iff.mp hperm.eq_nil
      · intro h
        rw [h] at hperm
        exact hperm.symm.eq_nil
    rw [hnil]
    generalize t.connection.subscriptionsSince
      (t.RegisterSilKitServiceImpl D traits link service).1.connection = infos
    constructor
    · rintro ⟨hbefore, hflat⟩
      refine ⟨hbefore, ?_⟩
      by_cases hpeers : t.connection.peers = []
      · exact Or.inl hpeers
      · right
        cases infos with
        | nil => rfl
        | cons info rest =>
          exfalso
          simp only [List.flatMap_cons, List.append_eq_nil, List.map_eq_nil_iff] at hflat
          exact hpeers hflat.1
    · rintro ⟨hbefore, hpeers | hnone⟩
      · exact ⟨hbefore, by simp [hpeers]⟩
      · exact ⟨hbefore, by simp [hnone]⟩
  obtain ⟨hperm, hinfo, hpend, hkept, hset⟩ :=
    RegisterSilKitServiceImpl_effect D traits s link service
  refine ⟨⟨hperm, hinfo⟩, ?_, ?_⟩
  · intro hsync
    have hsame : s.RegisterSilKitService D traits link service
        = RegisterSilKitServiceImpl D traits
            { s with receivedAllSubscriptionAcknowledges := Promise.fresh } link service := by
      unfold RegisterSilKitService
      rw [hsync]
      rfl
    obtain ⟨-, -, -, hkept2, hset2⟩ := RegisterSilKitServiceImpl_effect D traits
      { s with receivedAllSubscriptionAcknowledges := Promise.fresh } link service
    have hiff2 := hemptyIff { s with receivedAllSubscriptionAcknowledges := Promise.fresh } hsync
    rw [← hsame] at hkept2 hset2 hiff2
    refine ⟨?_, ?_, hemptyIff s hsync, fun hne => hkept (Or.inr hne), hset hsync, ?_, ?_, hiff2⟩
    · rw [hpend, hsync]
      rfl
    · rw [hpend, hsync]
      simp only [Bool.false_eq_true, if_false, List.length_append]
      rw [length_flatMap_peers, ← hperm.length_eq, List.length_map]
    · by_cases hempty : (s.RegisterSilKitService D traits link
          service).1.connection.pendingSubscriptionAcknowledges = []
      · exact ((hset2 hsync hempty).1 rfl).2
      · exact (hkept2 (Or.inr hempty)).2
    · constructor
      · intro hsat
        by_contra hempty
        have hfresh := (hkept2 (Or.inr hempty)).1
        rw [hfresh] at hsat
        cases hsat
      · intro hempty
        exact ((hset2 hsync hempty).1 rfl).1
  · intro hasync
    obtain ⟨hpromise, hnothrow⟩ := hkept (Or.inl hasync)
    refine ⟨?_, hpromise, hnothrow, ?_⟩
    · rw [hpend, hasync]
      simp
    · unfold RegisterSilKitService
      rw [hasync]
      rfl

/-- C11 at the sample state: a synchronous service that receives two message types
registers on network `CAN1` with two peers connected; both keys are new, four
acknowledgements are pending afterwards, and the promise is not fulfilled. The same
service on a connection without peers fulfils the promise. -/
theorem C11_pending_acknowledgements_and_promise_witness :
    sampleTraits.UseAsyncRegistration = false
      ∧ newSubscriptionKeys sampleDeclarations
          sampleConnectionServices.connection.vasioUniqueReceiverIds "CAN1"
          sampleTraits.SilKitReceiveMessagesTypes
        = ["CAN1/CANFRAMEEVENT", "CAN1/PARTICIPANTSTATUS"]
      ∧ (sampleConnectionServices.RegisterSilKitServiceImpl sampleDeclarations sampleTraits
            "CAN1" (sampleReceiver 1)).1.connection.pendingSubscriptionAcknowledges.length
          = sampleConnectionServices.connection.pendingSubscriptionAcknowledges.length
            + (newSubscriptionKeys sampleDeclarations
                sampleConnectionServices.connection.vasioUniqueReceiverIds "CAN1"
                sampleTraits.SilKitReceiveMessagesTypes).length
              * sampleConnectionServices.connection.peers.length
      ∧ (sampleConnectionServices.RegisterSilKitServiceImpl sampleDeclarations sampleTraits
            "CAN1" (sampleReceiver 1)).1.connection.pendingSubscriptionAcknowledges.map
            (fun ack => (ack.1, ack.2.receiverIdx, ack.2.msgTypeName))
          = [(10, 0, "CANFRAMEEVENT"), (11, 0, "CANFRAMEEVENT"),
             (10, 1, "PARTICIPANTSTATUS"), (11, 1, "PARTICIPANTSTATUS")]
      ∧ (sampleConnectionServices.RegisterSilKitServiceImpl sampleDeclarations sampleTraits
            "CAN1" (sampleReceiver 1)).1.receivedAllSubscriptionAcknowledges
          = sampleConnectionServices.receivedAllSubscriptionAcknowledges
      ∧ ((VAsioConnectionServices.create (VAsioConnection.create "P1"
              [])).RegisterSilKitService sampleDeclarations sampleTraits "CAN1"
            (sampleReceiver 1)).1.receivedAllSubscriptionAcknowledges.satisfied = true := by
  have h := C11_pending_acknowledgements_and_promise sampleDeclarations sampleTraits
    sampleConnectionServices "CAN1" (sampleReceiver 1)
  exact ⟨rfl, by decide, (h.2.1 rfl).2.1, by decide, by decide, by decide⟩

end Core
end SilKit

namespace SilKit
namespace Core
namespace Discovery

open ServiceDiscovery

/-! ## Service discovery: creations and removals -/

/-- Once a handler has seen a removal out of turn, this stays so. -/
theorem foldl_observedOf_none (d : ServiceDescriptor) (called : List ServiceDiscoveryEvent) :
    called.foldl (observedOf d) none = none := by
  induction called with
  | nil => rfl
  | cons e rest ih => simpa [List.foldl_cons, observedOf] using ih

/-- The events a handler was called with, one more event appended. -/
theorem observed_append_one (called : List ServiceDiscoveryEvent) (e : ServiceDiscoveryEvent)
    (d : ServiceDescriptor) :
    observed (called ++ [e]) d = observedOf d (observed called d) e := by
  simp [observed, List.foldl_append]

/-- The events a handler was called with, more events appended. -/
theorem observed_append (called more : List ServiceDiscoveryEvent) (d : ServiceDescriptor) :
    observed (called ++ more) d = more.foldl (observedOf d) (observed called d) := by
  simp [observed, List.foldl_append]

/-- Events about other descriptors do not change what a handler has seen of one. -/
theorem foldl_observedOf_other (d : ServiceDescriptor) (type : ServiceDiscoveryEventType)
    (ds : List ServiceDescriptor) (hd : d ∉ ds) (state : Option Bool) :
    (ds.map (fun x => ({ type := type, serviceDescriptor := x } : ServiceDiscoveryEvent))).foldl
        (observedOf d) state = state := by
  induction ds generalizing state with
  | nil => rfl
  | cons x rest ih =>
    have hx : ¬ x = d := fun h => hd (h ▸ List.mem_cons_self _ _)
    have hrest : d ∉ rest := fun h => hd (List.mem_cons_of_mem _ h)
    cases state with
    | none => simpa [List.foldl_cons, observedOf] using ih hrest none
    | some b => simpa [List.foldl_cons, observedOf, hx] using ih hrest (some b)

/-- A batch of events of one type about distinct descriptors switches what a handler has
seen of each of them once. -/
theorem foldl_observedOf_batch (d : ServiceDescriptor) (type : ServiceDiscoveryEventType)
    (ds : List ServiceDescriptor) (hnodup : ds.Nodup) (hd : d ∈ ds) (b : Bool) :
    (ds.map (fun x => ({ type := type, serviceDescriptor := x } : ServiceDiscoveryEvent))).foldl
        (observedOf d) (some b)
      = observedOf d (some b) { type := type, serviceDescriptor := d } := by
  induction ds with
  | nil => cases hd
  | cons x rest ih =>
    have hnot : x ∉ rest := (List.nodup_cons.mp hnodup).1
    have hrestn : rest.Nodup := (List.nodup_cons.mp hnodup).2
    by_cases hx : x = d
    · subst hx
      rw [List.map_cons, List.foldl_cons]
      exact foldl_observedOf_other x type rest hnot _
    · have hmem : d ∈ rest := by
        rcases List.mem_cons.mp hd with h | h
        · exact absurd h.symm hx
        · exact h
      rw [List.map_cons, List.foldl_cons]
      have hstep : observedOf d (some b) { type := type, serviceDescriptor := x } = some b := by
        simp [observedOf, hx]
      rw [hstep]
      exact ih hrestn hmem

/-- `CallHandlers` appends the event to what every handler was called with. -/
theorem mem_CallHandlers (sd : ServiceDiscovery) (type : ServiceDiscoveryEventType)
    (d : ServiceDescriptor) (called : List ServiceDiscoveryEvent) :
    called ∈ (sd.CallHandlers type d).handlers
      ↔ ∃ before ∈ sd.handlers, called = before ++ [{ type := type, serviceDescriptor := d }] := by
  simp [CallHandlers, List.mem_map, eq_comm]

/-- The loop of the peer-shutdown callback appends one removal per descriptor to what
every handler was called with, and leaves the cache as it is. -/
theorem removeAll_handlers (ds : List ServiceDescriptor) (sd : ServiceDiscovery) :
    (removeAll ds sd).handlers
        = sd.handlers.map (fun called =>
            called ++ ds.map (fun x => { type := .ServiceRemoved, serviceDescriptor := x }))
      ∧ (removeAll ds sd).cache = sd.cache := by
  induction ds generalizing sd with
  | nil => simp [removeAll]
  | cons x rest ih =>
    have h := ih (sd.CallHandlers .ServiceRemoved x)
    rw [removeAll]
    refine ⟨?_, h.2⟩
    rw [h.1]
    simp [CallHandlers, List.map_map, Function.comp_def]

/-- The service discovery as constructed is coherent. -/
theorem create_coherent (participantName : String) :
    (ServiceDiscovery.create participantName).Coherent := by
  refine ⟨List.nodup_nil, ?_⟩
  intro called hcalled
  cases hcalled

/-- An addition keeps the service discovery coherent. -/
theorem ReceivedServiceAddition_coherent (sd : ServiceDiscovery) (x : ServiceDescriptor)
    (h : sd.Coherent) : (sd.ReceivedServiceAddition x).Coherent := by
  unfold ReceivedServiceAddition
  by_cases hx : x ∈ sd.cache
  · rw [if_pos hx]
    exact h
  · rw [if_neg hx]
    refine ⟨?_, ?_⟩
    · show (sd.cache ++ [x]).Nodup
      refine List.Nodup.append h.1 (List.nodup_singleton x) ?_
      intro a ha ha2
      rw [List.mem_singleton] at ha2
      exact hx (ha2 ▸ ha)
    · intro called hcalled d
      obtain ⟨before, hbefore, rfl⟩ := (mem_CallHandlers _ _ _ _).mp hcalled
      have hb := h.2 before hbefore d
      rw [observed_append_one, hb]
      show _ = some (decide (d ∈ sd.cache ++ [x]))
      by_cases hd : x = d
      · subst hd
        simp [observedOf, hx]
      · have hd2 : ¬ d = x := fun e => hd e.symm
        simp [observedOf, hd, hd2]

/-- A removal keeps the service discovery coherent. -/
theorem ReceivedServiceRemoval_coherent (sd : ServiceDiscovery) (x : ServiceDescriptor)
    (h : sd.Coherent) : (sd.ReceivedServiceRemoval x).Coherent := by
  unfold ReceivedServiceRemoval
  by_cases hx : x ∈ sd.cache
  · rw [if_pos hx]
    refine ⟨?_, ?_⟩
    · show (sd.cache.erase x).Nodup
      exact h.1.erase x
    · intro called hcalled d
      obtain ⟨before, hbefore, rfl⟩ := (mem_CallHandlers _ _ _ _).mp hcalled
      have hb := h.2 before hbefore d
      rw [observed_append_one, hb]
      show _ = some (decide (d ∈ sd.cache.erase x))
      by_cases hd : x = d
      · subst hd
        simp [observedOf, hx, h.1.mem_erase_iff]
      · have hd2 : ¬ d = x := fun e => hd e.symm
        simp [observedOf, hd, h.1.mem_erase_iff, hd2]
  · rw [if_neg hx]
    exact h

/-- The disconnect of a peer keeps the service discovery coherent. -/
theorem OnParticpantRemoval_coherent (sd : ServiceDiscovery) (participantName : String)
    (h : sd.Coherent) : (sd.OnParticpantRemoval participantName).Coherent := by
  have hrem := removeAll_handlers (sd.servicesByParticipant participantName) sd
  refine ⟨?_, ?_⟩
  · show (sd.cache.filter (fun d => ¬ d.participantName = participantName)).Nodup
    exact h.1.filter _
  · intro called hcalled d
    have hcalled2 : called ∈ (removeAll (sd.servicesByParticipant participantName) sd).handlers :=
      hcalled
    rw [hrem.1] at hcalled2
    obtain ⟨before, hbefore, rfl⟩ := List.mem_map.mp hcalled2
    have hb := h.2 before hbefore d
    rw [observed_append, hb]
    show _ = some (decide (d ∈ sd.cache.filter (fun d => ¬ d.participantName = participantName)))
    by_cases hd : d ∈ sd.servicesByParticipant participantName
    · have hnodup : (sd.servicesByParticipant participantName).Nodup := h.1.filter _
      rw [foldl_observedOf_batch d .ServiceRemoved _ hnodup hd]
      have hd2 := hd
      simp only [servicesByParticipant, List.mem_filter, decide_eq_true_eq] at hd2
      simp [observedOf, hd2.1, hd2.2]
    · rw [foldl_observedOf_other d .ServiceRemoved _ hd]
      have hd2 := hd
      simp only [servicesByParticipant, List.mem_filter, decide_eq_true_eq, not_and] at hd2
      by_cases hc : d ∈ sd.cache
      · simp [hc, hd2 hc]
      · simp [hc]

/-- The registration of a handler keeps the service discovery coherent. -/
theorem RegisterServiceDiscoveryHandler_coherent (sd : ServiceDiscovery) (h : sd.Coherent) :
    sd.RegisterServiceDiscoveryHandler.Coherent := by
  refine ⟨h.1, ?_⟩
  intro called hcalled d
  have hcalled2 : called ∈ sd.handlers
      ++ [sd.cache.map (fun d => { type := .ServiceCreated, serviceDescriptor := d })] := hcalled
  rcases List.mem_append.mp hcalled2 with hold | hnew
  · exact h.2 called hold d
  · rw [List.mem_singleton] at hnew
    subst hnew
    show _ = some (decide (d ∈ sd.cache))
    unfold observed
    by_cases hd : d ∈ sd.cache
    · rw [foldl_observedOf_batch d .ServiceCreated _ h.1 hd]
      simp [observedOf, hd]
    · rw [foldl_observedOf_other d .ServiceCreated _ hd]
      simp [hd]

/-- The full service table of a peer keeps the service discovery coherent. -/
theorem ReceiveParticipantDiscoveryEvent_coherent (services : List ServiceDescriptor)
    (sd : ServiceDiscovery) (h : sd.Coherent) :
    (ReceiveParticipantDiscoveryEvent services sd).Coherent := by
  induction services generalizing sd with
  | nil => exact h
  | cons x rest ih => exact ih _ (ReceivedServiceAddition_coherent sd x h)

/-- Every input keeps the service discovery coherent. -/
theorem step_coherent (sd : ServiceDiscovery) (input : DiscoveryInput) (h : sd.Coherent) :
    (sd.step input).Coherent := by
  cases input with
  | RegisterServiceDiscoveryHandler => exact RegisterServiceDiscoveryHandler_coherent sd h
  | ParticipantDiscoveryEvent services =>
    exact ReceiveParticipantDiscoveryEvent_coherent services sd h
  | ServiceDiscoveryEvent event =>
    show (sd.ReceiveServiceDiscoveryEvent event).Coherent
    unfold ReceiveServiceDiscoveryEvent
    cases event.type with
    | Invalid => exact h
    | ServiceCreated => exact ReceivedServiceAddition_coherent sd _ h
    | ServiceRemoved => exact ReceivedServiceRemoval_coherent sd _ h
  | OnParticpantRemoval participantName => exact OnParticpantRemoval_coherent sd _ h

/-- Every sequence of inputs keeps the service discovery coherent. -/
theorem run_coherent (inputs : List DiscoveryInput) (sd : ServiceDiscovery) (h : sd.Coherent) :
    (sd.run inputs).Coherent := by
  induction inputs generalizing sd with
  | nil => exact h
  | cons input rest ih => exact ih _ (step_coherent sd input h)

/-- What a handler has seen of a descriptor counts its events: the creations are the
removals, plus one while the last creation has not been followed by a removal. -/
theorem observed_counts (d : ServiceDescriptor) (called : List ServiceDiscoveryEvent) :
    ∀ (b0 b : Bool), called.foldl (observedOf d) (some b0) = some b →
      countOf .ServiceCreated d called + (if b0 then 1 else 0)
        = countOf .ServiceRemoved d called + (if b then 1 else 0) := by
  induction called with
  | nil =>
    intro b0 b h
    simp only [List.foldl_nil, Option.some.injEq] at h
    subst h
    simp [countOf]
  | cons e rest ih =>
    intro b0 b h
    rw [List.foldl_cons] at h
    rcases e with ⟨ty, x⟩
    by_cases hx : x = d
    · subst hx
      cases ty <;> cases b0 <;>
        simp only [observedOf, if_true, Bool.false_eq_true, if_false,
          foldl_observedOf_none] at h
      · have := ih _ _ h
        simp [countOf, List.count_cons] at this ⊢
        omega
      · have := ih _ _ h
        simp [countOf, List.count_cons] at this ⊢
        omega
      · have := ih _ _ h
        simp [countOf, List.count_cons] at this ⊢
        omega
      · cases h
      · cases h
      · have := ih _ _ h
        simp [countOf, List.count_cons] at this ⊢
        omega
    · have hstep : observedOf d (some b0) { type := ty, serviceDescriptor := x } = some b0 := by
        simp [observedOf, hx]
      rw [hstep] at h
      have := ih _ _ h
      simp [countOf, List.count_cons, hx] at this ⊢
      omega

/-- What a handler has seen of a descriptor was in order at every earlier moment. -/
theorem observed_take (d : ServiceDescriptor) (called : List ServiceDiscoveryEvent)
    (b : Bool) (h : observed called d = some b) (k : Nat) :
    ∃ b1, observed (called.take k) d = some b1 := by
  have hsplit : observed (called.take k ++ called.drop k) d = some b := by
    rw [List.take_append_drop]
    exact h
  rw [observed_append] at hsplit
  cases hk : observed (called.take k) d with
  | none =>
    rw [hk, foldl_observedOf_none] at hsplit
    cases hsplit
  | some b1 => exact ⟨b1, rfl⟩

/-- The descriptors of one participant in the events of one type, counted. -/
theorem count_descriptors (type : ServiceDiscoveryEventType) (participantName : String)
    (d : ServiceDescriptor) (called : List ServiceDiscoveryEvent) :
    ((called.filter (fun event =>
          event.type = type ∧ event.serviceDescriptor.participantName = participantName)).map
        (fun event => event.serviceDescriptor)).count d
      = if d.participantName = participantName then countOf type d called else 0 := by
  induction called with
  | nil => simp [countOf]
  | cons e rest ih =>
    rcases e with ⟨ty, x⟩
    by_cases hty : ty = type <;> by_cases hp : x.participantName = participantName <;>
      by_cases hx : x = d <;> by_cases hd : d.participantName = participantName <;>
      simp_all [countOf, List.count_cons, List.filter_cons]

/-- C16: service discovery is create/remove symmetric. After any sequence of handler
registrations, discovery messages and peer disconnects, for every registered handler and
every descriptor: at every moment the handler has seen at most one more `ServiceCreated`
than `ServiceRemoved` for the descriptor and never more removals than creations (a
removal is never observed without a creation before it); the two numbers differ exactly
while the descriptor is cached. Once the participant of the descriptor shuts down
(`OnParticpantRemoval`) or the service is removed explicitly, the handler has seen as
many removals as creations for it, and after the shutdown of a participant the sorted
created service names of that participant equal the sorted removed ones. -/
theorem C16_discovery_create_remove_symmetric (participantName : String)
    (inputs : List DiscoveryInput) (leaving : String) (d : ServiceDescriptor) :
    (∀ called ∈ ((ServiceDiscovery.create participantName).run inputs).handlers,
        (∀ k, countOf .ServiceRemoved d (called.take k) ≤ countOf .ServiceCreated d (called.take k)
              ∧ countOf .ServiceCreated d (called.take k)
                  ≤ countOf .ServiceRemoved d (called.take k) + 1)
          ∧ countOf .ServiceCreated d called
              = countOf .ServiceRemoved d called
                + (if d ∈ ((ServiceDiscovery.create participantName).run inputs).cache
                   then 1 else 0))
      ∧ (∀ called ∈ (((ServiceDiscovery.create participantName).run inputs).OnParticpantRemoval
            leaving).handlers,
          (d.participantName = leaving →
              countOf .ServiceCreated d called = countOf .ServiceRemoved d called)
            ∧ (serviceNamesOf .ServiceCreated leaving called).insertionSort (fun a b => a ≤ b)
              = (serviceNamesOf .ServiceRemoved leaving called).insertionSort (fun a b => a ≤ b))
      ∧ (∀ called ∈ (((ServiceDiscovery.create participantName).run inputs).ReceivedServiceRemoval
            d).handlers,
          countOf .ServiceCreated d called = countOf .ServiceRemoved d called) := by
  have hrun := run_coherent inputs _ (create_coherent participantName)
  have hcount : ∀ (sd : ServiceDiscovery), sd.Coherent → ∀ called ∈ sd.handlers,
      ∀ x : ServiceDescriptor,
        countOf .ServiceCreated x called
          = countOf .ServiceRemoved x called + (if x ∈ sd.cache then 1 else 0) := by
    intro sd hsd called hcalled x
    have h := observed_counts x called false _ (hsd.2 called hcalled x)
    by_cases hx : x ∈ sd.cache
    · simpa [hx] using h
    · simpa [hx] using h
  refine ⟨?_, ?_, ?_⟩
  · intro called hcalled
    refine ⟨?_, hcount _ hrun called hcalled d⟩
    intro k
    obtain ⟨b1, hb1⟩ := observed_take d called _ (hrun.2 called hcalled d) k
    have h := observed_counts d (called.take k) false b1 hb1
    cases b1 <;> simp at h <;> omega
  · intro called hcalled
    have hafter := OnParticpantRemoval_coherent _ leaving hrun
    have hgone : ∀ x : ServiceDescriptor, x.participantName = leaving →
        x ∉ (((ServiceDiscovery.create participantName).run inputs).OnParticpantRemoval
          leaving).cache := by
      intro x hx hmem
      have hmem2 : x ∈ ((ServiceDiscovery.create participantName).run inputs).cache.filter
          (fun d => ¬ d.participantName = leaving) := hmem
      simp only [List.mem_filter, decide_eq_true_eq] at hmem2
      exact hmem2.2 hx
    have hbalanced : ∀ x : ServiceDescriptor, x.participantName = leaving →
        countOf .ServiceCreated x called = countOf .ServiceRemoved x called := by
      intro x hx
      have h := hcount _ hafter called hcalled x
      rw [if_neg (hgone x hx)] at h
      exact h
    refine ⟨hbalanced d, ?_⟩
    have hperm : List.Perm
        ((called.filter (fun event => event.type = .ServiceCreated
            ∧ event.serviceDescriptor.participantName = leaving)).map
          (fun event => event.serviceDescriptor))
        ((called.filter (fun event => event.type = .ServiceRemoved
            ∧ event.serviceDescriptor.participantName = leaving)).map
          (fun event => event.serviceDescriptor)) := by
      rw [List.perm_iff_count]
      intro x
      rw [count_descriptors, count_descriptors]
      by_cases hx : x.participantName = leaving
      · rw [if_pos hx, if_pos hx]
        exact hbalanced x hx
      · rw [if_neg hx, if_neg hx]
    have hnames : List.Perm (serviceNamesOf .ServiceCreated leaving called)
        (serviceNamesOf .ServiceRemoved leaving called) := by
      have := hperm.map (fun x : ServiceDescriptor => x.serviceName)
      simpa [serviceNamesOf, List.map_map, Function.comp_def] using this
    exact List.eq_of_perm_of_sorted
      (((List.perm_insertionSort _ _).trans hnames).trans (List.perm_insertionSort _ _).symm)
      (List.sorted_insertionSort _ _) (List.sorted_insertionSort _ _)
  · intro called hcalled
    have hafter := ReceivedServiceRemoval_coherent _ d hrun
    have h := hcount _ hafter called hcalled d
    have hgone : d ∉ (((ServiceDiscovery.create participantName).run
        inputs).ReceivedServiceRemoval d).cache := by
      unfold ReceivedServiceRemoval
      by_cases hd : d ∈ ((ServiceDiscovery.create participantName).run inputs).cache
      · rw [if_pos hd]
        show d ∉ (((ServiceDiscovery.create participantName).run inputs).cache.erase d)
        rw [hrun.1.mem_erase_iff]
        exact fun hc => hc.1 rfl
      · rw [if_neg hd]
        exact hd
    rw [if_neg hgone] at h
    exact h

/-- C16 on the inputs of the test `discover_services`: the handler sees the five
publishers created and, after the publisher has left, removed. -/
theorem C16_discovery_create_remove_symmetric_witness :
    discoverServicesCalled
        ∈ (((ServiceDiscovery.create "Subscriber").run
            (discoverServicesInputs.take 2)).OnParticpantRemoval "Publisher").handlers
      ∧ (serviceNamesOf .ServiceCreated "Publisher" discoverServicesCalled).insertionSort
            (fun a b => a ≤ b)
          = (serviceNamesOf .ServiceRemoved "Publisher" discoverServicesCalled).insertionSort
              (fun a b => a ≤ b)
      ∧ serviceNamesOf .ServiceRemoved "Publisher" discoverServicesCalled
          = ["PubCtrl0", "PubCtrl1", "PubCtrl2", "PubCtrl3", "PubCtrl4"]
      ∧ ((ServiceDiscovery.create "Subscriber").run discoverServicesInputs).handlers
          = [discoverServicesCalled] := by
  have hmem : discoverServicesCalled
      ∈ (((ServiceDiscovery.create "Subscriber").run
          (discoverServicesInputs.take 2)).OnParticpantRemoval "Publisher").handlers := by
    decide
  have h := (C16_discovery_create_remove_symmetric "Subscriber"
    (discoverServicesInputs.take 2) "Publisher"
    { participantName := "Publisher", networkName := "default", serviceName := "PubCtrl0",
      serviceId := 1 }).2.1 discoverServicesCalled hmem
  exact ⟨hmem, h.2, by decide, by decide⟩

end Discovery
end Core
end SilKit

namespace SilKit
namespace Services
namespace Orchestration

open TimeSyncService

/-! ## Time synchronization: simulation steps -/

/-- The policy check keeps the step size, and so does every other operation. -/
theorem TimeSyncService.step_stepSize (s : TimeSyncService) (input : TimeSyncInput) :
    (s.step input).stepSize = s.stepSize := by
  cases input <;>
    simp only [TimeSyncService.step, StartTime, ReceiveMsg, CompleteSimulationStep,
      RemoveParticipant, processTimeUpdate, ExecuteSimStep, finishStep] <;>
    (repeat' split) <;> rfl

/-- The step size stays as configured. -/
theorem TimeSyncService.run_stepSize (inputs : List TimeSyncInput) (s : TimeSyncService) :
    (s.run inputs).stepSize = s.stepSize := by
  induction inputs generalizing s with
  | nil => rfl
  | cons input rest ih =>
    show ((s.step input).run rest).stepSize = s.stepSize
    rw [ih, TimeSyncService.step_stepSize]

/-- The end of the step in flight keeps the service in step. -/
theorem CompleteSimulationStep_inStep (s : TimeSyncService) (h : s.InStep) :
    s.CompleteSimulationStep.InStep := by
  unfold CompleteSimulationStep
  by_cases hflight : s.stepInFlight = true
  · rw [if_pos hflight]
    obtain ⟨hcalls, hlen, hnow⟩ := h
    rw [hflight] at hlen
    refine ⟨hcalls, ?_, ?_⟩
    · simp [finishStep]
      simpa using hlen
    · simp only [finishStep, List.length_append, List.length_singleton]
      rw [hnow, Nat.add_mul, Nat.one_mul]
  · rw [if_neg hflight]
    exact h

/-- The policy check keeps the service in step, whatever the quantum table holds. -/
theorem processTimeUpdate_inStep (s : TimeSyncService) (h : s.InStep) :
    s.processTimeUpdate.InStep := by
  unfold processTimeUpdate
  by_cases hmay : s.mayExecute = true
  · rw [if_pos hmay]
    have hflight : s.stepInFlight = false := by
      simp only [mayExecute, Bool.and_eq_true, Bool.not_eq_true'] at hmay
      exact hmay.1.2
    obtain ⟨hcalls, hlen, hnow⟩ := h
    rw [hflight] at hlen
    simp only [Bool.false_eq_true, if_false, Nat.add_zero] at hlen
    have hcalls2 : s.handlerCalls ++ [(s.now, s.stepSize)]
        = (List.range (s.handlerCalls.length + 1)).map
            (fun i => (i * s.stepSize, s.stepSize)) := by
      rw [List.range_succ, List.map_append, ← hcalls, hnow, hlen]
      rfl
    unfold ExecuteSimStep
    cases hasync : s.isAsync with
    | true =>
      refine ⟨?_, ?_, ?_⟩
      · simpa using hcalls2
      · simp [hlen]
      · exact hnow
    | false =>
      refine ⟨?_, ?_, ?_⟩
      · simpa [finishStep] using hcalls2
      · simp [finishStep, hlen]
      · simp only [finishStep, Bool.false_eq_true, if_false, List.length_append,
          List.length_singleton]
        rw [hnow, Nat.add_mul, Nat.one_mul]
  · rw [if_neg hmay]
    exact h

/-- Every input keeps the service in step. -/
theorem TimeSyncService.step_inStep (s : TimeSyncService) (input : TimeSyncInput)
    (h : s.InStep) : (s.step input).InStep := by
  cases input with
  | StartTime => exact processTimeUpdate_inStep _ h
  | ReceiveNextSimTask sender nextSimTask => exact processTimeUpdate_inStep _ h
  | CompleteSimulationStep => exact CompleteSimulationStep_inStep s h
  | Resume => exact processTimeUpdate_inStep s h
  | RemoveParticipant participantName => exact processTimeUpdate_inStep _ h

/-- Every sequence of inputs keeps the service in step. -/
theorem TimeSyncService.run_inStep (inputs : List TimeSyncInput) (s : TimeSyncService)
    (h : s.InStep) : (s.run inputs).InStep := by
  induction inputs generalizing s with
  | nil => exact h
  | cons input rest ih => exact ih _ (TimeSyncService.step_inStep s input h)

/-- The service as created is in step. -/
theorem TimeSyncService.create_inStep (stepSize : Nat) (isAsync : Bool)
    (others : List String) : (TimeSyncService.create stepSize isAsync others).InStep :=
  ⟨rfl, rfl, (Nat.zero_mul _).symm⟩

/-- C17: the simulation step handler is invoked in steps of the configured step size.
For every synchronized participant with step size `stepSize`, synchronous or
asynchronous handler, whatever the other participants send and whenever they are lost:
the `now` values of the handler invocations are 0, `stepSize`, twice `stepSize` and so
on, so each differs from the one before by exactly `stepSize` (and none is smaller
than the one before), and the duration passed is `stepSize`. The model has neither
pause nor a change of the period. -/
theorem C17_step_handler_times (stepSize : Nat) (isAsync : Bool) (others : List String)
    (inputs : List TimeSyncInput) :
    ((TimeSyncService.create stepSize isAsync others).run inputs).handlerCalls.map
          (fun call => call.1)
        = (List.range
            ((TimeSyncService.create stepSize isAsync others).run inputs).handlerCalls.length).map
            (fun i => i * stepSize)
      ∧ List.Chain' (fun earlier later => later = earlier + stepSize ∧ earlier ≤ later)
          (((TimeSyncService.create stepSize isAsync others).run inputs).handlerCalls.map
            (fun call => call.1))
      ∧ ∀ call ∈ ((TimeSyncService.create stepSize isAsync others).run inputs).handlerCalls,
          call.2 = stepSize := by
  have hstep := TimeSyncService.run_inStep inputs _
    (TimeSyncService.create_inStep stepSize isAsync others)
  have hsize : ((TimeSyncService.create stepSize isAsync others).run inputs).stepSize
      = stepSize := TimeSyncService.run_stepSize inputs _
  obtain ⟨hcalls, -, -⟩ := hstep
  rw [hsize] at hcalls
  have hnows : ((TimeSyncService.create stepSize isAsync others).run inputs).handlerCalls.map
        (fun call => call.1)
      = (List.range
          ((TimeSyncService.create stepSize isAsync others).run inputs).handlerCalls.length).map
          (fun i => i * stepSize) := by
    conv_lhs => rw [hcalls]
    simp [List.map_map, Function.comp_def]
  refine ⟨hnows, ?_, ?_⟩
  · rw [hnows, List.chain'_map]
    cases ((TimeSyncService.create stepSize isAsync others).run inputs).handlerCalls.length with
    | zero => simp
    | succ n =>
      rw [List.chain'_range_succ]
      intro m _
      exact ⟨Nat.succ_mul m stepSize, Nat.mul_le_mul_right stepSize (Nat.le_succ m)⟩
  · intro call hcall
    rw [hcalls] at hcall
    obtain ⟨i, -, rfl⟩ := List.mem_map.mp hcall
    rfl

/-- C17 on the inputs of the asynchronous participant of the test (step size 7 ms, next
to a participant with step size 1 ms): the handler is invoked at 0, 7 ms and 14 ms. -/
theorem C17_step_handler_times_witness :
    ((TimeSyncService.create (7 * ms) true ["Sync"]).run asyncParticipantInputs).handlerCalls.map
          (fun call => call.1)
        = [0, 7 * ms, 14 * ms]
      ∧ List.Chain' (fun earlier later => later = earlier + 7 * ms ∧ earlier ≤ later)
          (((TimeSyncService.create (7 * ms) true ["Sync"]).run
            asyncParticipantInputs).handlerCalls.map (fun call => call.1)) := by
  have h := C17_step_handler_times (7 * ms) true ["Sync"] asyncParticipantInputs
  exact ⟨by decide, h.2.1⟩

/-- C18: `CompleteSimulationStep` is idempotent within one asynchronous step. In every
state the service reaches: a second call changes nothing after the first; any number of
calls in a row has the effect of one call on everything that follows, the virtual time
and the next handler invocation included; a call while no step is in flight changes
nothing; the handler invocations exceed the completed steps by at most one, the step in
flight; and while a step is in flight no input but `CompleteSimulationStep` invokes the
handler again or moves the time. -/
theorem C18_complete_simulation_step_idempotent (stepSize : Nat) (isAsync : Bool)
    (others : List String) (inputs rest : List TimeSyncInput) (excess : Nat)
    (input : TimeSyncInput) :
    ((TimeSyncService.create stepSize isAsync others).run
          inputs).CompleteSimulationStep.CompleteSimulationStep
        = ((TimeSyncService.create stepSize isAsync others).run inputs).CompleteSimulationStep
      ∧ ((TimeSyncService.create stepSize isAsync others).run inputs).run
            (List.replicate (excess + 1) .CompleteSimulationStep ++ rest)
          = ((TimeSyncService.create stepSize isAsync others).run inputs).run
              (.CompleteSimulationStep :: rest)
      ∧ (((TimeSyncService.create stepSize isAsync others).run inputs).stepInFlight = false →
          ((TimeSyncService.create stepSize isAsync others).run inputs).CompleteSimulationStep
            = (TimeSyncService.create stepSize isAsync others).run inputs)
      ∧ ((TimeSyncService.create stepSize isAsync others).run inputs).handlerCalls.length
          = ((TimeSyncService.create stepSize isAsync others).run inputs).sentNextSimTasks.length
            + (if ((TimeSyncService.create stepSize isAsync others).run inputs).stepInFlight
               then 1 else 0)
      ∧ (((TimeSyncService.create stepSize isAsync others).run inputs).stepInFlight = true →
          input ≠ .CompleteSimulationStep →
          (((TimeSyncService.create stepSize isAsync others).run inputs).step input).handlerCalls
              = ((TimeSyncService.create stepSize isAsync others).run inputs).handlerCalls
            ∧ (((TimeSyncService.create stepSize isAsync others).run inputs).step input).now
              = ((TimeSyncService.create stepSize isAsync others).run inputs).now
            ∧ (((TimeSyncService.create stepSize isAsync others).run inputs).step
                input).stepInFlight = true) := by
  have hidem : ∀ s : TimeSyncService,
      s.CompleteSimulationStep.CompleteSimulationStep = s.CompleteSimulationStep := by
    intro s
    unfold CompleteSimulationStep
    by_cases hflight : s.stepInFlight = true
    · simp [hflight, finishStep]
    · simp [hflight]
  have hrepeat : ∀ (n : Nat) (s : TimeSyncService),
      s.run (List.replicate (n + 1) .CompleteSimulationStep ++ rest)
        = s.run (.CompleteSimulationStep :: rest) := by
    intro n
    induction n with
    | zero => intro s; rfl
    | succ n ih =>
      intro s
      have h1 : s.run (List.replicate (n + 1 + 1) .CompleteSimulationStep ++ rest)
          = s.CompleteSimulationStep.run
              (List.replicate (n + 1) .CompleteSimulationStep ++ rest) := rfl
      have h2 : s.CompleteSimulationStep.run (.CompleteSimulationStep :: rest)
          = s.CompleteSimulationStep.CompleteSimulationStep.run rest := rfl
      have h3 : s.run (.CompleteSimulationStep :: rest) = s.CompleteSimulationStep.run rest :=
        rfl
      rw [h1, ih, h2, hidem, h3]
  have hstep := TimeSyncService.run_inStep inputs _
    (TimeSyncService.create_inStep stepSize isAsync others)
  refine ⟨hidem _, hrepeat excess _, ?_, hstep.2.1, ?_⟩
  · intro hflight
    unfold CompleteSimulationStep
    rw [hflight]
    rfl
  · intro hflight hinput
    have hblocked : ∀ s : TimeSyncService, s.stepInFlight = true →
        s.processTimeUpdate.handlerCalls = s.handlerCalls
          ∧ s.processTimeUpdate.now = s.now
          ∧ s.processTimeUpdate.stepInFlight = true := by
      intro s hs
      have hmay : s.mayExecute = false := by simp [mayExecute, hs]
      have hsame : s.processTimeUpdate = s := by
        unfold processTimeUpdate
        rw [hmay]
        rfl
      rw [hsame]
      exact ⟨rfl, rfl, hs⟩
    cases input with
    | StartTime =>
      exact hblocked
        { (TimeSyncService.create stepSize isAsync others).run inputs with isRunning := true }
        hflight
    | ReceiveNextSimTask sender nextSimTask =>
      exact hblocked
        { (TimeSyncService.create stepSize isAsync others).run inputs with
          otherNextTasks :=
            ((TimeSyncService.create stepSize isAsync others).run inputs).otherNextTasks.filter
              (fun other => other.1 ≠ sender) ++ [(sender, nextSimTask)] }
        hflight
    | CompleteSimulationStep => exact absurd rfl hinput
    | Resume => exact hblocked _ hflight
    | RemoveParticipant participantName =>
      exact hblocked
        { (TimeSyncService.create stepSize isAsync others).run inputs with
          otherNextTasks :=
            ((TimeSyncService.create stepSize isAsync others).run inputs).otherNextTasks.filter
              (fun other => other.1 ≠ participantName) }
        hflight

/-- C18 on the asynchronous participant of the test after its first handler invocation:
three `CompleteSimulationStep` calls in the step leave the service as one call does, with
the step at 7 ms next and one `NextSimTask` sent. -/
theorem C18_complete_simulation_step_idempotent_witness :
    ((TimeSyncService.create (7 * ms) true ["Sync"]).run [.StartTime]).stepInFlight = true
      ∧ ((TimeSyncService.create (7 * ms) true ["Sync"]).run [.StartTime]).run
            (List.replicate (2 + 1) .CompleteSimulationStep ++ [])
          = ((TimeSyncService.create (7 * ms) true ["Sync"]).run [.StartTime]).run
              [.CompleteSimulationStep]
      ∧ (((TimeSyncService.create (7 * ms) true ["Sync"]).run [.StartTime]).run
            [.CompleteSimulationStep]).sentNextSimTasks = [7 * ms]
      ∧ (((TimeSyncService.create (7 * ms) true ["Sync"]).run [.StartTime]).step
            (.ReceiveNextSimTask "Sync" ms)).handlerCalls
          = ((TimeSyncService.create (7 * ms) true ["Sync"]).run [.StartTime]).handlerCalls := by
  have h := C18_complete_simulation_step_idempotent (7 * ms) true ["Sync"] [.StartTime] [] 2
    (.ReceiveNextSimTask "Sync" ms)
  have hflight : ((TimeSyncService.create (7 * ms) true ["Sync"]).run
      [.StartTime]).stepInFlight = true := by decide
  exact ⟨hflight, h.2.1, by decide, (h.2.2.2.2 hflight (by decide)).1⟩

end Orchestration
end Services
end SilKit

namespace SilKit
namespace Core

open Participant

/-! ## Configuration lookup, service discovery creation, labels -/

/-- C24: `GetConfigByControllerName(controllers, name)` returns the first element of
`controllers` whose name equals `name` if there is one (every element before it has
another name), and otherwise a default constructed configuration whose name is set to
`name`; in every case the name of the configuration returned is `name`. The function is
a value of its arguments, which it leaves as they are. Stated for the template, with
the member `name` of a configuration whose name was set being that name, and for its
instance at `Config::DataPublisher`. -/
theorem C24_GetConfigByControllerName_result {ConfigT : Type} (name : ConfigT → String)
    (named : String → ConfigT) (controllers : List ConfigT) (canonicalName : String)
    (dataPublishers : List DataPublisherConfig)
    (hnamed : ∀ n, name (named n) = n) :
    ((∃ before found after, controllers = before ++ found :: after
          ∧ (∀ c ∈ before, name c ≠ canonicalName) ∧ name found = canonicalName
          ∧ GetConfigByControllerNameOf name named controllers canonicalName = found)
        ∨ ((∀ c ∈ controllers, name c ≠ canonicalName)
          ∧ GetConfigByControllerNameOf name named controllers canonicalName
              = named canonicalName))
      ∧ name (GetConfigByControllerNameOf name named controllers canonicalName) = canonicalName
      ∧ GetConfigByControllerName dataPublishers canonicalName
          = GetConfigByControllerNameOf DataPublisherConfig.name
              (fun n => { name := n, topic := none, useTraceSinks := [] })
              dataPublishers canonicalName
      ∧ (GetConfigByControllerName dataPublishers canonicalName).name = canonicalName := by
  have hfirst : (∃ before found after, controllers = before ++ found :: after
        ∧ (∀ c ∈ before, name c ≠ canonicalName) ∧ name found = canonicalName
        ∧ GetConfigByControllerNameOf name named controllers canonicalName = found)
      ∨ ((∀ c ∈ controllers, name c ≠ canonicalName)
        ∧ GetConfigByControllerNameOf name named controllers canonicalName
            = named canonicalName) := by
    induction controllers with
    | nil =>
      right
      exact ⟨fun c hc => absurd hc (List.not_mem_nil c), rfl⟩
    | cons c rest ih =>
      by_cases hc : name c = canonicalName
      · left
        refine ⟨[], c, rest, rfl, fun x hx => absurd hx (List.not_mem_nil x), hc, ?_⟩
        simp [GetConfigByControllerNameOf, List.find?_cons, hc]
      · have hstep : GetConfigByControllerNameOf name named (c :: rest) canonicalName
            = GetConfigByControllerNameOf name named rest canonicalName := by
          simp [GetConfigByControllerNameOf, List.find?_cons, hc]
        rcases ih with ⟨before, found, after, hsplit, hbefore, hfound, hres⟩ | ⟨hnone, hres⟩
        · left
          refine ⟨c :: before, found, after, by rw [hsplit]; rfl, ?_, hfound, ?_⟩
          · intro x hx
            rcases List.mem_cons.mp hx with rfl | hx
            · exact hc
            · exact hbefore x hx
          · rw [hstep, hres]
        · right
          refine ⟨?_, by rw [hstep, hres]⟩
          intro x hx
          rcases List.mem_cons.mp hx with rfl | hx
          · exact hc
          · exact hnone x hx
  have hname : name (GetConfigByControllerNameOf name named controllers canonicalName)
      = canonicalName := by
    rcases hfirst with ⟨before, found, after, -, -, hfound, hres⟩ | ⟨-, hres⟩
    · rw [hres, hfound]
    · rw [hres, hnamed]
  have hinstance : GetConfigByControllerName dataPublishers canonicalName
      = GetConfigByControllerNameOf DataPublisherConfig.name
          (fun n => { name := n, topic := none, useTraceSinks := [] })
          dataPublishers canonicalName := by
    cases hfind : dataPublishers.find? (fun controllerConfig => controllerConfig.name
        == canonicalName) <;>
      simp [GetConfigByControllerName, GetConfigByControllerNameOf, hfind]
  refine ⟨hfirst, hname, hinstance, ?_⟩
  unfold GetConfigByControllerName
  cases hfind : dataPublishers.find? (fun controllerConfig => controllerConfig.name
      == canonicalName) with
  | none => rfl
  | some found =>
    have := List.find?_some hfind
    simpa using this

/-- C24 at two configured data publishers of the same name: the first one is returned;
for a name that is not configured the default with the name is. -/
theorem C24_GetConfigByControllerName_result_witness :
    GetConfigByControllerName
        [{ name := "Pub", topic := some "A", useTraceSinks := [] },
         { name := "Pub", topic := some "B", useTraceSinks := [] }] "Pub"
      = { name := "Pub", topic := some "A", useTraceSinks := [] }
    ∧ (GetConfigByControllerName
        [{ name := "Pub", topic := some "A", useTraceSinks := [] },
         { name := "Pub", topic := some "B", useTraceSinks := [] }] "Other").name = "Other" := by
  have h := C24_GetConfigByControllerName_result DataPublisherConfig.name
    (fun n => { name := n, topic := none, useTraceSinks := [] })
    [{ name := "Pub", topic := some "A", useTraceSinks := [] },
     { name := "Pub", topic := some "B", useTraceSinks := [] }] "Other"
    [{ name := "Pub", topic := some "A", useTraceSinks := [] },
     { name := "Pub", topic := some "B", useTraceSinks := [] }] (fun _ => rfl)
  exact ⟨by decide, h.2.2.2⟩

/-- `GetServiceDiscovery` returns the stored service discovery controller, whatever the
nesting bound. -/
theorem GetServiceDiscovery_stored (D : ParticipantDeclarations) (fuel : Nat)
    (p : Participant) (c : Controller)
    (h : p.GetController .ServiceDiscovery D.controllerTypeServiceDiscovery = some c) :
    GetServiceDiscovery D fuel p = .returned p c := by
  unfold GetServiceDiscovery GetServiceDiscoveryWith
  rw [h]

/-- Calls of `GetServiceDiscovery` after the controller is stored leave the participant
as it is. -/
theorem runCalls_GetServiceDiscovery_stored (D : ParticipantDeclarations) (fuel : Nat)
    (p : Participant) (c : Controller)
    (h : p.GetController .ServiceDiscovery D.controllerTypeServiceDiscovery = some c)
    (n : Nat) :
    runCalls D fuel p (List.replicate n .GetServiceDiscovery) = p := by
  induction n with
  | zero => rfl
  | succ n ih =>
    have hstep : runCalls D fuel p (List.replicate (n + 1) .GetServiceDiscovery)
        = runCalls D fuel
            ((GetServiceDiscovery D fuel p).participantAfter p)
            (List.replicate n .GetServiceDiscovery) := rfl
    rw [hstep, GetServiceDiscovery_stored D fuel p c h]
    exact ih

/-- C27: `GetServiceDiscovery` terminates although creating the discovery controller
publishes it through `GetServiceDiscovery` itself. One level of nesting is enough for
the call to finish: `CreateController` stores the new controller before it calls
`GetServiceDiscovery()->NotifyServiceCreated`, so the nested call finds the controller.
With the controller stored, the call returns it and changes nothing. Without it (and a
non-empty controller name), the first call creates the controller, registers it at the
connection, notifies its creation and registers one peer-shutdown callback; any number
of calls leaves the participant as the first call did, with that one controller, one
registration and one callback more, and every later call returns the same instance. -/
theorem C27_GetServiceDiscovery_creates_once (D : ParticipantDeclarations) (fuel : Nat)
    (p : Participant) (calls : Nat) :
    GetServiceDiscovery D (fuel + 1) p ≠ .unfinished
      ∧ (∀ c, p.GetController .ServiceDiscovery D.controllerTypeServiceDiscovery = some c →
          GetServiceDiscovery D fuel p = .returned p c)
      ∧ (p.GetController .ServiceDiscovery D.controllerTypeServiceDiscovery = none →
          D.controllerTypeServiceDiscovery ≠ "" →
          ∃ p1 c, GetServiceDiscovery D (fuel + 1) p = .returned p1 c
            ∧ runCalls D (fuel + 1) p (List.replicate (calls + 1) .GetServiceDiscovery) = p1
            ∧ GetServiceDiscovery D (fuel + 1) p1 = .returned p1 c
            ∧ c.controllerT = .ServiceDiscovery
            ∧ c.serviceId = p.localEndpointId
            ∧ (∀ t name, p1.controllers t name
                = if t = .ServiceDiscovery ∧ name = D.controllerTypeServiceDiscovery
                  then some c else p.controllers t name)
            ∧ p1.connection.peerShutdownCallbacks
                = p.connection.peerShutdownCallbacks ++ [.ServiceDiscovery]
            ∧ p1.connection.registeredServices
                = p.connection.registeredServices ++ [c.serviceDescriptor]
            ∧ p1.notifiedServiceCreated = p.notifiedServiceCreated ++ [c.serviceDescriptor]
            ∧ p1.localEndpointId = (p.localEndpointId + 1) % 2 ^ D.endpointIdBits) := by
  have hclosed := GetServiceDiscoveryWith_succ D fuel p
  refine ⟨?_, ?_, ?_⟩
  · intro hunfinished
    have hform : GetServiceDiscovery D (fuel + 1) p
        = GetServiceDiscoveryWith D (fun q b => CreateController D (fuel + 1) q b) p := rfl
    rw [hform, hclosed] at hunfinished
    cases hget : p.GetController .ServiceDiscovery D.controllerTypeServiceDiscovery with
    | some c =>
      rw [hget] at hunfinished
      cases hunfinished
    | none =>
      rw [hget] at hunfinished
      by_cases hname : D.controllerTypeServiceDiscovery = ""
      · simp [hname] at hunfinished
      · simp [hname] at hunfinished
  · intro c hc
    exact GetServiceDiscovery_stored D fuel p c hc
  · intro hnone hname
    have hfirst : GetServiceDiscovery D (fuel + 1) p
        = .returned
            (((p.constructController D (serviceDiscoveryArgs D)).1.notifyServiceCreated
                (p.constructController D (serviceDiscoveryArgs D)).2.serviceDescriptor
              ).registerPeerShutdownCallback .ServiceDiscovery)
            (p.constructController D (serviceDiscoveryArgs D)).2 := by
      have hform : GetServiceDiscovery D (fuel + 1) p
          = GetServiceDiscoveryWith D (fun q b => CreateController D (fuel + 1) q b) p := rfl
      rw [hform, hclosed, hnone]
      simp [hname]
    have hstored : (((p.constructController D (serviceDiscoveryArgs D)).1.notifyServiceCreated
          (p.constructController D (serviceDiscoveryArgs D)).2.serviceDescriptor
        ).registerPeerShutdownCallback .ServiceDiscovery).GetController .ServiceDiscovery
          D.controllerTypeServiceDiscovery
        = some (p.constructController D (serviceDiscoveryArgs D)).2 := by
      simp [constructController, GetController, storeController, serviceDiscoveryArgs,
        registerSilKitService, notifyServiceCreated, registerPeerShutdownCallback]
    refine ⟨_, _, hfirst, ?_, GetServiceDiscovery_stored D _ _ _ hstored, rfl, rfl, ?_, rfl,
      rfl, rfl, rfl⟩
    · have hstep : runCalls D (fuel + 1) p (List.replicate (calls + 1) .GetServiceDiscovery)
          = runCalls D (fuel + 1)
              ((GetServiceDiscovery D (fuel + 1) p).participantAfter p)
              (List.replicate calls .GetServiceDiscovery) := rfl
      rw [hstep, hfirst]
      exact runCalls_GetServiceDiscovery_stored D (fuel + 1) _ _ hstored calls
    · intro t name
      show (p.constructController D (serviceDiscoveryArgs D)).1.controllers t name = _
      rw [constructController_controllers]
      rfl

/-- C27 at the sample participant: three calls of `GetServiceDiscovery` with one level of
nesting create one controller, with service id 1, and register one callback. -/
theorem C27_GetServiceDiscovery_creates_once_witness :
    sampleParticipant.GetController .ServiceDiscovery
        sampleParticipantDeclarations.controllerTypeServiceDiscovery = none
      ∧ (∃ p1 c, GetServiceDiscovery sampleParticipantDeclarations (0 + 1) sampleParticipant
            = .returned p1 c
          ∧ runCalls sampleParticipantDeclarations (0 + 1) sampleParticipant
              (List.replicate (2 + 1) .GetServiceDiscovery) = p1
          ∧ c.serviceId = 1
          ∧ p1.connection.peerShutdownCallbacks = [.ServiceDiscovery]
          ∧ p1.connection.registeredServices = [c.serviceDescriptor]) := by
  have h := (C27_GetServiceDiscovery_creates_once sampleParticipantDeclarations 0
    sampleParticipant 2).2.2 rfl (by decide)
  obtain ⟨p1, c, hfirst, hruns, -, -, hid, -, hcallbacks, hregistered, -, -⟩ := h
  exact ⟨rfl, p1, c, hfirst, hruns, hid, hcallbacks, hregistered⟩

end Core
end SilKit

namespace SilKit
namespace Core

open VAsioConnection VAsioConnectionServices

/-! ## Sending and receiver ids of `VAsioConnection` -/

/-- C23: sending requires a registered sender link. `SendMsgImpl(from, msg)` and
`SendMsgToTargetImpl(from, target, msg)` throw `std::runtime_error` if and only if the
service-to-link map of the message type has no entry under the network name of the
descriptor of `from`, both under the same condition and with the same text; otherwise the
message is handed to exactly the link stored under that key, by
`DistributeLocalSilKitMessage` and by `DispatchSilKitMessageToTarget` with the target
named, and the connection with its map is as before. After `RegisterSilKitMsgSender` for
the message type and the service, sending from the service reaches the link that
`GetLinkByName` gave for the network registered. -/
theorem C23_send_requires_sender_link (s : VAsioConnectionServices)
    (msg : SilKitMessageTypes) (sender : ServiceDescriptor) (targetParticipantName : String)
    (message : Nat) (networkName : String) :
    ((∃ what, s.SendMsgImpl msg sender message = .error what)
        ↔ s.serviceToLinkMap msg sender.networkName = none)
      ∧ ((∃ what, s.SendMsgToTargetImpl msg sender targetParticipantName message = .error what)
        ↔ s.serviceToLinkMap msg sender.networkName = none)
      ∧ (s.serviceToLinkMap msg sender.networkName = none →
          s.SendMsgImpl msg sender message
            = .error ("VAsioConnection::SendMsgImpl: sending on empty link for "
                ++ sender.networkName)
          ∧ s.SendMsgToTargetImpl msg sender targetParticipantName message
            = .error ("VAsioConnection::SendMsgImpl: sending on empty link for "
                ++ sender.networkName))
      ∧ (∀ link, s.serviceToLinkMap msg sender.networkName = some link →
          s.SendMsgImpl msg sender message
            = .ok (s, .DistributeLocalSilKitMessage link sender msg message)
          ∧ s.SendMsgToTargetImpl msg sender targetParticipantName message
            = .ok (s, .DispatchSilKitMessageToTarget link sender targetParticipantName msg
                message))
      ∧ (s.RegisterSilKitMsgSender msg networkName sender).SendMsgImpl msg sender message
          = .ok (s.RegisterSilKitMsgSender msg networkName sender,
              .DistributeLocalSilKitMessage (s.connection.GetLinkByName msg networkName).2.name
                sender msg message) := by
  refine ⟨?_, ?_, ?_, ?_, ?_⟩
  · cases hlink : s.serviceToLinkMap msg sender.networkName with
    | none => simp [SendMsgImpl, hlink]
    | some link => simp [SendMsgImpl, hlink]
  · cases hlink : s.serviceToLinkMap msg sender.networkName with
    | none => simp [SendMsgToTargetImpl, hlink]
    | some link => simp [SendMsgToTargetImpl, hlink]
  · intro hnone
    simp [SendMsgImpl, SendMsgToTargetImpl, hnone]
  · intro link hlink
    simp [SendMsgImpl, SendMsgToTargetImpl, hlink]
  · have hentry : (s.RegisterSilKitMsgSender msg networkName sender).serviceToLinkMap msg
        sender.networkName = some (s.connection.GetLinkByName msg networkName).2.name := by
      simp [RegisterSilKitMsgSender]
    simp [SendMsgImpl, hentry]

/-- C23 at the sample connection: without a registered sender the send throws; after the
registration of the sender on `CAN1` the message goes to the link `CAN1`. -/
theorem C23_send_requires_sender_link_witness :
    sampleConnectionServices.serviceToLinkMap .CanFrameEvent
        (sampleReceiver 1).serviceDescriptor.networkName = none
      ∧ sampleConnectionServices.SendMsgImpl .CanFrameEvent
          (sampleReceiver 1).serviceDescriptor 7
        = .error "VAsioConnection::SendMsgImpl: sending on empty link for CAN1"
      ∧ ((sampleConnectionServices.RegisterSilKitMsgSender .CanFrameEvent "CAN1"
            (sampleReceiver 1).serviceDescriptor).SendMsgImpl .CanFrameEvent
            (sampleReceiver 1).serviceDescriptor 7).toOption.map (fun sent => sent.2)
        = some (.DistributeLocalSilKitMessage "CAN1" (sampleReceiver 1).serviceDescriptor
            .CanFrameEvent 7) := by
  have h := C23_send_requires_sender_link sampleConnectionServices .CanFrameEvent
    (sampleReceiver 1).serviceDescriptor "P2" 7 "CAN1"
  have hnone : sampleConnectionServices.serviceToLinkMap .CanFrameEvent
      (sampleReceiver 1).serviceDescriptor.networkName = none := rfl
  refine ⟨hnone, ?_, ?_⟩
  · rw [(h.2.2.1 hnone).1]
    rfl
  · rw [h.2.2.2.2]
    rfl

/-- What one registration does to the receivers and the receiver ids: nothing for an id
that is present, and one receiver with the next index, one id more for a new id. -/
theorem register_receivers_and_ids (D : VAsioDeclarations) (conn : VAsioConnection)
    (r : ReceiverRegistration) :
    (uniqueReceiverId r.networkName (D.SerdesName r.msg) ∈ conn.vasioUniqueReceiverIds →
        (conn.register D r).vasioReceivers = conn.vasioReceivers
          ∧ (conn.register D r).vasioUniqueReceiverIds = conn.vasioUniqueReceiverIds)
      ∧ (uniqueReceiverId r.networkName (D.SerdesName r.msg) ∉ conn.vasioUniqueReceiverIds →
        (conn.register D r).vasioReceivers.map (fun v => v.subscriptionInfo)
            = conn.vasioReceivers.map (fun v => v.subscriptionInfo)
              ++ [{ receiverIdx := conn.vasioReceivers.length % 2 ^ D.receiverIdxBits
                    networkName := r.networkName
                    msgTypeName := D.SerdesName r.msg
                    version := D.Version r.msg }]
          ∧ (conn.register D r).vasioUniqueReceiverIds
            = uniqueReceiverId r.networkName (D.SerdesName r.msg)
                :: conn.vasioUniqueReceiverIds) := by
  constructor
  · intro hid
    unfold register RegisterSilKitMsgReceiver GetLinkByName
    cases hlink : conn.links r.msg r.networkName <;> simp [setLink, hid]
  · intro hid
    unfold register RegisterSilKitMsgReceiver GetLinkByName
    cases hlink : conn.links r.msg r.networkName <;> simp [setLink, hid]

/-- Over any sequence of registrations: every receiver stands for one receiver id, in the
order of allocation, no id is present twice, and the receiver indices count up from the
number of receivers (modulo the width of the index). -/
theorem registerAll_receivers_and_ids (D : VAsioDeclarations)
    (regs : List ReceiverRegistration) (conn : VAsioConnection)
    (hids : conn.vasioReceivers.map
        (fun v => uniqueReceiverId v.subscriptionInfo.networkName v.subscriptionInfo.msgTypeName)
      = conn.vasioUniqueReceiverIds.reverse)
    (hnodup : conn.vasioUniqueReceiverIds.Nodup)
    (hidx : conn.vasioReceivers.map (fun v => v.subscriptionInfo.receiverIdx)
      = (List.range conn.vasioReceivers.length).map (fun i => i % 2 ^ D.receiverIdxBits)) :
    (conn.registerAll D regs).vasioReceivers.map
        (fun v => uniqueReceiverId v.subscriptionInfo.networkName v.subscriptionInfo.msgTypeName)
      = (conn.registerAll D regs).vasioUniqueReceiverIds.reverse
    ∧ (conn.registerAll D regs).vasioUniqueReceiverIds.Nodup
    ∧ (conn.registerAll D regs).vasioReceivers.map (fun v => v.subscriptionInfo.receiverIdx)
      = (List.range (conn.registerAll D regs).vasioReceivers.length).map
          (fun i => i % 2 ^ D.receiverIdxBits) := by
  induction regs generalizing conn with
  | nil => exact ⟨hids, hnodup, hidx⟩
  | cons r rest ih =>
    have hstep : conn.registerAll D (r :: rest) = (conn.register D r).registerAll D rest := rfl
    rw [hstep]
    have heffect := register_receivers_and_ids D conn r
    by_cases hid : uniqueReceiverId r.networkName (D.SerdesName r.msg)
        ∈ conn.vasioUniqueReceiverIds
    · obtain ⟨hrecv, hsame⟩ := heffect.1 hid
      apply ih
      · rw [hrecv, hsame]
        exact hids
      · rw [hsame]
        exact hnodup
      · rw [hrecv]
        exact hidx
    · obtain ⟨hinfo, hcons⟩ := heffect.2 hid
      have hlen : (conn.register D r).vasioReceivers.length = conn.vasioReceivers.length + 1 := by
        have := congrArg List.length hinfo
        simpa using this
      apply ih
      · have := congrArg (List.map (fun info : VAsioMsgSubscriber =>
          uniqueReceiverId info.networkName info.msgTypeName)) hinfo
        simp only [List.map_map, List.map_append, List.map_cons, List.map_nil] at this
        have hids2 : conn.vasioReceivers.map ((fun info : VAsioMsgSubscriber =>
              uniqueReceiverId info.networkName info.msgTypeName)
              ∘ fun v => v.subscriptionInfo)
            = conn.vasioUniqueReceiverIds.reverse := hids
        rw [hids2] at this
        rw [hcons, List.reverse_cons]
        exact this
      · rw [hcons]
        exact List.nodup_cons.mpr ⟨hid, hnodup⟩
      · have := congrArg (List.map (fun info : VAsioMsgSubscriber => info.receiverIdx)) hinfo
        simp only [List.map_map, List.map_append, List.map_cons, List.map_nil] at this
        have hidx2 : conn.vasioReceivers.map ((fun info : VAsioMsgSubscriber =>
              info.receiverIdx) ∘ fun v => v.subscriptionInfo)
            = (List.range conn.vasioReceivers.length).map
                (fun i => i % 2 ^ D.receiverIdxBits) := hidx
        rw [hidx2] at this
        rw [hlen, List.range_succ, List.map_append]
        exact this

/-- C26, amended: the unique receiver id `networkName + "/" + serdesName` is injective on
subscription keys when serdes names contain no slash. Two registrations with different
(network name, serdes name) pairs never produce the same id. After any sequence of
registrations on a connection as constructed, no id is stored twice, the number of
receivers is the number of ids stored, which is the number of distinct ids registered;
the receiver allocated as number `i` (counting from 0) has the receiver index
`i mod 2 ^ receiverIdxBits`, so receivers of different keys have different receiver
indices as long as there are no more than `2 ^ receiverIdxBits` receivers. -/
theorem C26_receiver_id_injective_on_keys (D : VAsioDeclarations) (participantName : String)
    (peers : List VAsioPeer) (regs : List ReceiverRegistration)
    (r1 r2 : ReceiverRegistration)
    (hSerdes : ∀ m, '/' ∉ (D.SerdesName m).data) :
    (r1.key D ≠ r2.key D →
        uniqueReceiverId r1.networkName (D.SerdesName r1.msg)
          ≠ uniqueReceiverId r2.networkName (D.SerdesName r2.msg))
      ∧ ((VAsioConnection.create participantName peers).registerAll D
            regs).vasioUniqueReceiverIds.Nodup
      ∧ ((VAsioConnection.create participantName peers).registerAll D
            regs).vasioReceivers.length
          = ((VAsioConnection.create participantName peers).registerAll D
              regs).vasioUniqueReceiverIds.length
      ∧ ((VAsioConnection.create participantName peers).registerAll D
            regs).vasioReceivers.length
          = ((regs.map (fun q =>
              uniqueReceiverId q.networkName (D.SerdesName q.msg))).dedup).length
      ∧ ((VAsioConnection.create participantName peers).registerAll D
            regs).vasioReceivers.map (fun v => v.subscriptionInfo.receiverIdx)
          = (List.range ((VAsioConnection.create participantName peers).registerAll D
              regs).vasioReceivers.length).map (fun i => i % 2 ^ D.receiverIdxBits)
      ∧ (((VAsioConnection.create participantName peers).registerAll D
              regs).vasioReceivers.length ≤ 2 ^ D.receiverIdxBits →
          ∀ v1 ∈ ((VAsioConnection.create participantName peers).registerAll D
              regs).vasioReceivers,
          ∀ v2 ∈ ((VAsioConnection.create participantName peers).registerAll D
              regs).vasioReceivers,
            (v1.subscriptionInfo.networkName, v1.subscriptionInfo.msgTypeName)
                ≠ (v2.subscriptionInfo.networkName, v2.subscriptionInfo.msgTypeName) →
              v1.subscriptionInfo.receiverIdx ≠ v2.subscriptionInfo.receiverIdx) := by
  obtain ⟨hids, hnodup, hidx⟩ := registerAll_receivers_and_ids D regs
    (VAsioConnection.create participantName peers) rfl List.nodup_nil rfl
  have hlen : ((VAsioConnection.create participantName peers).registerAll D
        regs).vasioReceivers.length
      = ((VAsioConnection.create participantName peers).registerAll D
          regs).vasioUniqueReceiverIds.length := by
    have := congrArg List.length hids
    simpa using this
  refine ⟨?_, hnodup, hlen, ?_, hidx, ?_⟩
  · intro hkey hid
    have := uniqueReceiverId_injective _ _ _ _ (hSerdes r1.msg) (hSerdes r2.msg) hid
    exact hkey (by simp [ReceiverRegistration.key, this.1, this.2])
  · rw [hlen]
    apply List.Perm.length_eq
    rw [List.perm_ext_iff_of_nodup hnodup (List.nodup_dedup _)]
    intro id
    rw [registerAll_vasioUniqueReceiverIds, List.mem_dedup, List.mem_map]
    constructor
    · rintro (h | ⟨q, hq, rfl⟩)
      · cases h
      · exact ⟨q, hq, rfl⟩
    · rintro ⟨q, hq, rfl⟩
      exact Or.inr ⟨q, hq, rfl⟩
  · intro hfit v1 hv1 v2 hv2 hkeys hsame
    have hnodupIdx : (((VAsioConnection.create participantName peers).registerAll D
        regs).vasioReceivers.map (fun v => v.subscriptionInfo.receiverIdx)).Nodup := by
      rw [hidx]
      have hrange : (List.range ((VAsioConnection.create participantName peers).registerAll D
            regs).vasioReceivers.length).map (fun i => i % 2 ^ D.receiverIdxBits)
          = List.range ((VAsioConnection.create participantName peers).registerAll D
            regs).vasioReceivers.length := by
        conv_rhs => rw [← List.map_id (List.range _)]
        apply List.map_congr_left
        intro i hi
        exact Nat.mod_eq_of_lt (Nat.lt_of_lt_of_le (List.mem_range.mp hi) hfit)
      rw [hrange]
      exact List.nodup_range _
    have heq : v1 = v2 := List.inj_on_of_nodup_map hnodupIdx hv1 hv2 hsame
    exact hkeys (by rw [heq])

/-- C26 (amended) at the sample declarations: a CAN frame receiver and a log message receiver on
`CAN1` have different ids, and three registrations of two keys give two receivers. -/
theorem C26_receiver_id_injective_on_keys_witness :
    uniqueReceiverId "CAN1" (sampleDeclarations.SerdesName .CanFrameEvent)
        ≠ uniqueReceiverId "CAN1" (sampleDeclarations.SerdesName .LogMsg)
      ∧ ((VAsioConnection.create "P" []).registerAll sampleDeclarations
            [⟨.CanFrameEvent, false, "CAN1", sampleReceiver 1⟩,
              ⟨.LogMsg, true, "CAN1", sampleReceiver 2⟩,
              ⟨.CanFrameEvent, false, "CAN1", sampleReceiver 3⟩]).vasioReceivers.length
          = ((VAsioConnection.create "P" []).registerAll sampleDeclarations
              [⟨.CanFrameEvent, false, "CAN1", sampleReceiver 1⟩,
                ⟨.LogMsg, true, "CAN1", sampleReceiver 2⟩,
                ⟨.CanFrameEvent, false, "CAN1", sampleReceiver 3⟩]).vasioUniqueReceiverIds.length
      ∧ ((VAsioConnection.create "P" []).registerAll sampleDeclarations
            [⟨.CanFrameEvent, false, "CAN1", sampleReceiver 1⟩,
              ⟨.LogMsg, true, "CAN1", sampleReceiver 2⟩,
              ⟨.CanFrameEvent, false, "CAN1", sampleReceiver 3⟩]).vasioReceivers.length = 2 := by
  have hSerdes : ∀ m, '/' ∉ (sampleDeclarations.SerdesName m).data := by
    intro m
    cases m <;> decide
  have h := C26_receiver_id_injective_on_keys sampleDeclarations "P" []
    [⟨.CanFrameEvent, false, "CAN1", sampleReceiver 1⟩,
      ⟨.LogMsg, true, "CAN1", sampleReceiver 2⟩,
      ⟨.CanFrameEvent, false, "CAN1", sampleReceiver 3⟩]
    ⟨.CanFrameEvent, false, "CAN1", sampleReceiver 1⟩
    ⟨.LogMsg, true, "CAN1", sampleReceiver 2⟩ hSerdes
  exact ⟨h.1 (by decide), h.2.2.1, by decide⟩

end Core
end SilKit

namespace SilKit
namespace Dashboard

open Dashboard

/-! ## The connected participants of the dashboard -/

/-- No handler changes the participant name of the dashboard. -/
theorem Dashboard.handle_participantName (d : Dashboard) (event : DashboardEvent) :
    (d.handle event).participantName = d.participantName := by
  cases event <;>
    simp only [Dashboard.handle, OnParticipantConnected, OnParticipantDisconnected,
      OnParticipantStatusChanged, OnSystemStateChanged, OnServiceDiscoveryEvent,
      LastParticipantDisconnected, AccessCachingEventHandler] <;>
    (repeat' split) <;> rfl

/-- No handler puts the name of the dashboard into the list of connected participants. -/
theorem Dashboard.handle_not_connected (d : Dashboard) (event : DashboardEvent)
    (h : d.participantName ∉ d.connectedParticipants) :
    (d.handle event).participantName ∉ (d.handle event).connectedParticipants := by
  rw [Dashboard.handle_participantName]
  cases event with
  | ParticipantConnected participantName =>
    simp only [Dashboard.handle, OnParticipantConnected, AccessCachingEventHandler]
    by_cases hown : participantName = d.participantName
    · rw [if_pos hown]
      exact h
    · rw [if_neg hown]
      intro hmem
      rcases List.mem_append.mp hmem with hmem | hmem
      · exact h hmem
      · exact hown (List.mem_singleton.mp hmem).symm
  | ParticipantDisconnected participantName =>
    simp only [Dashboard.handle, OnParticipantDisconnected, LastParticipantDisconnected,
      AccessCachingEventHandler]
    by_cases hown : participantName = d.participantName
    · rw [if_pos hown]
      exact h
    · rw [if_neg hown]
      split
      · intro hmem
        exact h (List.mem_filter.mp hmem).1
      · intro hmem
        exact h (List.mem_filter.mp hmem).1
  | ParticipantStatusChanged participantName status =>
    simp only [Dashboard.handle, OnParticipantStatusChanged, AccessCachingEventHandler]
    split
    · exact h
    · exact h
  | SystemStateChanged systemState => exact h
  | ServiceDiscoveryEvent discoveryType participantName serviceName =>
    simp only [Dashboard.handle, OnServiceDiscoveryEvent, AccessCachingEventHandler]
    split
    · exact h
    · exact h

/-- Over any sequence of events the dashboard keeps its name and stays out of the list of
connected participants. -/
theorem Dashboard.handleAll_not_connected (events : List DashboardEvent) (d : Dashboard)
    (h : d.participantName ∉ d.connectedParticipants) :
    (d.handleAll events).participantName = d.participantName
      ∧ (d.handleAll events).participantName ∉ (d.handleAll events).connectedParticipants := by
  induction events generalizing d with
  | nil => exact ⟨rfl, h⟩
  | cons event rest ih =>
    have hstep := ih (d.handle event) (Dashboard.handle_not_connected d event h)
    exact ⟨hstep.1.trans (Dashboard.handle_participantName d event), hstep.2⟩

/-- C29: the list of connected participants of the dashboard never contains the name of
the dashboard itself, whatever events the dashboard has handled, and
`OnParticipantDisconnected(p)` reports `OnLastParticipantDisconnected` exactly when `p`
is not the dashboard itself and the list is empty after every occurrence of `p` was
removed from it; that includes the case that the list was empty already and `p` never in
it. For the dashboard itself the list is left as it is, otherwise the occurrences of `p`
are removed. -/
theorem C29_connected_participants (participantName : String) (events : List DashboardEvent)
    (p : String) :
    ((Dashboard.create participantName).handleAll events).participantName = participantName
      ∧ participantName ∉ ((Dashboard.create participantName).handleAll events).connectedParticipants
      ∧ (((Dashboard.create participantName).handleAll events).OnParticipantDisconnected
            p).cachingEventHandlerCalls
          = ((Dashboard.create participantName).handleAll events).cachingEventHandlerCalls
            ++ (if p ≠ participantName
                  ∧ ((Dashboard.create participantName).handleAll
                      events).connectedParticipants.filter (fun connected => connected ≠ p) = []
                then [.OnLastParticipantDisconnected] else [])
      ∧ (((Dashboard.create participantName).handleAll events).OnParticipantDisconnected
            p).connectedParticipants
          = (if p = participantName
             then ((Dashboard.create participantName).handleAll events).connectedParticipants
             else ((Dashboard.create participantName).handleAll
                events).connectedParticipants.filter (fun connected => connected ≠ p))
      ∧ (p ≠ participantName →
          ((Dashboard.create participantName).handleAll events).connectedParticipants = [] →
          (((Dashboard.create participantName).handleAll events).OnParticipantDisconnected
              p).cachingEventHandlerCalls
            = ((Dashboard.create participantName).handleAll events).cachingEventHandlerCalls
              ++ [.OnLastParticipantDisconnected]) := by
  obtain ⟨hname, hnot⟩ := Dashboard.handleAll_not_connected events
    (Dashboard.create participantName) (fun h => by cases h)
  have hname2 : ((Dashboard.create participantName).handleAll events).participantName
      = participantName := hname
  rw [hname2] at hnot
  generalize (Dashboard.create participantName).handleAll events = d at hname2 hnot ⊢
  have hfilter : d.connectedParticipants.filter (fun connected => !(connected == p))
      = d.connectedParticipants.filter (fun connected => connected ≠ p) := by
    apply List.filter_congr
    intro x _
    by_cases hx : x = p <;> simp [hx]
  have hform : d.OnParticipantDisconnected p
      = if p = d.participantName then d
        else if (d.connectedParticipants.filter
            (fun connected => !(connected == p))).isEmpty = true
          then
            { d with
              connectedParticipants :=
                d.connectedParticipants.filter (fun connected => !(connected == p))
              cachingEventHandlerCalls :=
                d.cachingEventHandlerCalls ++ [.OnLastParticipantDisconnected] }
          else
            { d with
              connectedParticipants :=
                d.connectedParticipants.filter (fun connected => !(connected == p)) } := rfl
  rw [hform, hname2, hfilter]
  have hyes : d.connectedParticipants.filter (fun connected => connected ≠ p) = [] →
      (d.connectedParticipants.filter (fun connected => connected ≠ p)).isEmpty = true := by
    intro h
    rw [h]
    rfl
  have hno : ¬ d.connectedParticipants.filter (fun connected => connected ≠ p) = [] →
      ¬ (d.connectedParticipants.filter (fun connected => connected ≠ p)).isEmpty = true := by
    intro h hE
    exact h (List.isEmpty_iff.mp hE)
  refine ⟨rfl, hnot, ?_, ?_, ?_⟩
  · by_cases hown : p = participantName
    · rw [if_pos hown, if_neg (fun h => h.1 hown), List.append_nil]
    · rw [if_neg hown]
      by_cases hnone : d.connectedParticipants.filter (fun connected => connected ≠ p) = []
      · rw [if_pos (hyes hnone), if_pos ⟨hown, hnone⟩]
      · rw [if_neg (hno hnone), if_neg (fun h => hnone h.2), List.append_nil]
  · by_cases hown : p = participantName
    · rw [if_pos hown, if_pos hown]
    · rw [if_neg hown, if_neg hown]
      by_cases hnone : d.connectedParticipants.filter (fun connected => connected ≠ p) = []
      · rw [if_pos (hyes hnone)]
      · rw [if_neg (hno hnone)]
  · intro hown hnobody
    have hnone : d.connectedParticipants.filter (fun connected => connected ≠ p) = [] := by
      rw [hnobody]
      rfl
    rw [if_neg hown, if_pos (hyes hnone)]

/-- C29 on a dashboard to which `A` connected twice and `B` once: the disconnect of `A`
removes both entries and reports nothing, the disconnect of `B` then reports the last
participant disconnected. -/
theorem C29_connected_participants_witness :
    ((Dashboard.create "__SilKitDashboard").handleAll
        [.ParticipantConnected "A", .ParticipantConnected "__SilKitDashboard",
          .ParticipantConnected "B", .ParticipantConnected "A",
          .ParticipantDisconnected "A"]).connectedParticipants = ["B"]
      ∧ "B" ≠ "__SilKitDashboard"
      ∧ (((Dashboard.create "__SilKitDashboard").handleAll
          [.ParticipantConnected "A", .ParticipantConnected "__SilKitDashboard",
            .ParticipantConnected "B", .ParticipantConnected "A",
            .ParticipantDisconnected "A"]).OnParticipantDisconnected
            "B").cachingEventHandlerCalls
        = [.OnParticipantConnected "A", .OnParticipantConnected "B",
            .OnParticipantConnected "A", .OnLastParticipantDisconnected]
      ∧ "__SilKitDashboard" ∉ ((Dashboard.create "__SilKitDashboard").handleAll
          [.ParticipantConnected "A", .ParticipantConnected "__SilKitDashboard",
            .ParticipantConnected "B", .ParticipantConnected "A",
            .ParticipantDisconnected "A"]).connectedParticipants := by
  have h := C29_connected_participants "__SilKitDashboard"
    [.ParticipantConnected "A", .ParticipantConnected "__SilKitDashboard",
      .ParticipantConnected "B", .ParticipantConnected "A", .ParticipantDisconnected "A"] "B"
  exact ⟨by decide, by decide, by decide, h.2.1⟩

end Dashboard
end SilKit

namespace SilKit
namespace Hourglass
namespace Impl
namespace Services
namespace Lin

/-! ## The LIN frame conversions of the hourglass -/

/-- Copying all elements of a list of values that fit the element type of the destination
into a destination of the same length gives the list. -/
theorem copy_n_all (bits : Nat) (source : List Nat) (hfit : ∀ x ∈ source, x < 2 ^ bits) :
    copy_n bits source source.length (List.replicate source.length 0) = source := by
  unfold copy_n
  rw [List.take_length, List.drop_eq_nil_of_le (by simp), List.append_nil]
  conv_rhs => rw [← List.map_id source]
  apply List.map_congr_left
  intro x hx
  exact Nat.mod_eq_of_lt (hfit x hx)

/-- C30: the LIN frame conversions of the hourglass are mutually inverse. For every C++
frame that holds values of its member types, with the members of `SilKit_LinFrame` at
least as wide as those of `LinFrame`: `CxxToC` gives a C frame with the same id, checksum
model, data length and the same data, all `dataSize` elements of it whatever the data
length says, and the frame the frame-status handler thunk builds from that C frame is
the C++ frame again. -/
theorem C30_lin_frame_round_trip (D : LinFrameDeclarations) (frame : LinFrame)
    (hWell : frame.WellFormed D) (hId : D.idBits ≤ D.cIdBits)
    (hChecksum : D.checksumModelBits ≤ D.cChecksumModelBits)
    (hLength : D.dataLengthBits ≤ D.cDataLengthBits) (hData : D.dataBits ≤ D.cDataBits) :
    cHandlerFrame D (CxxToC D frame) = frame
      ∧ (CxxToC D frame).id = frame.id
      ∧ (CxxToC D frame).checksumModel = frame.checksumModel
      ∧ (CxxToC D frame).dataLength = frame.dataLength
      ∧ (CxxToC D frame).data = frame.data
      ∧ (CxxToC D frame).data.length = D.dataSize := by
  obtain ⟨hid, hchecksum, hlength, hsize, hdata⟩ := hWell
  have hwide : ∀ (small big x : Nat), small ≤ big → x < 2 ^ small → x % 2 ^ big = x := by
    intro small big x hle hx
    exact Nat.mod_eq_of_lt (Nat.lt_of_lt_of_le hx (Nat.pow_le_pow_right (by decide) hle))
  have hcid : (CxxToC D frame).id = frame.id := hwide _ _ _ hId hid
  have hcchecksum : (CxxToC D frame).checksumModel = frame.checksumModel :=
    hwide _ _ _ hChecksum hchecksum
  have hclength : (CxxToC D frame).dataLength = frame.dataLength :=
    hwide _ _ _ hLength hlength
  have hcdata : (CxxToC D frame).data = frame.data := by
    show copy_n D.cDataBits frame.data frame.data.length (List.replicate D.dataSize 0)
      = frame.data
    rw [← hsize]
    exact copy_n_all D.cDataBits frame.data
      (fun x hx => Nat.lt_of_lt_of_le (hdata x hx) (Nat.pow_le_pow_right (by decide) hData))
  refine ⟨?_, hcid, hcchecksum, hclength, hcdata, by rw [hcdata, hsize]⟩
  have hback : copy_n D.dataBits (CxxToC D frame).data D.dataSize (List.replicate D.dataSize 0)
      = frame.data := by
    rw [hcdata, ← hsize]
    exact copy_n_all D.dataBits frame.data hdata
  unfold cHandlerFrame
  rw [hcid, hcchecksum, hclength, hback, Nat.mod_eq_of_lt hid, Nat.mod_eq_of_lt hchecksum,
    Nat.mod_eq_of_lt hlength]

/-- C30 at the sample frame with data length 4: all eight data bytes reach the C frame
and come back. -/
theorem C30_lin_frame_round_trip_witness :
    sampleLinFrame.WellFormed sampleLinFrameDeclarations
      ∧ cHandlerFrame sampleLinFrameDeclarations (CxxToC sampleLinFrameDeclarations sampleLinFrame)
          = sampleLinFrame
      ∧ (CxxToC sampleLinFrameDeclarations sampleLinFrame).data = [1, 2, 3, 4, 5, 6, 7, 8] := by
  have hWell : sampleLinFrame.WellFormed sampleLinFrameDeclarations := by
    refine ⟨by decide, by decide, by decide, rfl, ?_⟩
    decide
  have h := C30_lin_frame_round_trip sampleLinFrameDeclarations sampleLinFrame hWell
    (Nat.le_refl _) (Nat.le_refl _) (Nat.le_refl _) (Nat.le_refl _)
  exact ⟨hWell, h.1, h.2.2.2.2.1⟩

end Lin

namespace Logging

open Logger

/-! ## The logger of the hourglass -/

/-- The C string of a message without a null character is the message. -/
theorem c_str_of_no_null (msg : String) (h : Char.ofNat 0 ∉ msg.data) : c_str msg = msg := by
  unfold c_str
  have hall : msg.data.takeWhile (fun c => c ≠ Char.ofNat 0) = msg.data := by
    rw [List.takeWhile_eq_self_iff]
    intro c hc
    have hne : c ≠ Char.ofNat 0 := by
      intro hnull
      rw [hnull] at hc
      exact h hc
    simpa using hne
  rw [hall]

/-- C25, a message the claim is not true of: `Log` with a message that has a null
character after its first letter calls `SilKit_Logger_Log` with the text up to that
character, not with the text of the message. -/
theorem C25_message_with_null_counterexample :
    (Logger.Log sampleLoggerDeclarations (fun _ _ => 0) { calls := [] } 5
        messageWithNull).1.calls = [(5, "a")]
      ∧ messageWithNull ≠ "a" := by
  decide

/-- C25, amended: the hourglass logger forwards to the C API. For every level value that
`SilKit_LoggingLevel` holds and every message, `Log(L, m)` makes exactly one
`SilKit_Logger_Log` call, with the same level value and the text of the message up to
its first null character, which is the whole text for a message without one, and throws
exactly what `ThrowOnError` throws for the return code of that call, so (with
`ThrowOnError` throwing for every return code but success) if and only if the call does
not return success. `Trace`, `Debug`, `Info`, `Warn`, `Error` and `Critical(m)` are each
`Log` with the level of the same name, the constants of the C API having the values of
the enumerators. -/
theorem C25_logger_forwards (D : LoggerDeclarations) (capi : Nat → String → Nat)
    (logger : Logger) (level : Nat) (msg : String)
    (hLevel : level < 2 ^ D.loggingLevelBits)
    (hThrow : ∀ returnCode,
      (D.ThrowOnError returnCode).isSome = true ↔ returnCode ≠ D.SilKit_ReturnCode_SUCCESS)
    (hValues : D.SilKit_LoggingLevel_Trace = D.Level_Trace
      ∧ D.SilKit_LoggingLevel_Debug = D.Level_Debug
      ∧ D.SilKit_LoggingLevel_Info = D.Level_Info
      ∧ D.SilKit_LoggingLevel_Warn = D.Level_Warn
      ∧ D.SilKit_LoggingLevel_Error = D.Level_Error
      ∧ D.SilKit_LoggingLevel_Critical = D.Level_Critical)
    (hFit : D.Level_Trace < 2 ^ D.loggingLevelBits ∧ D.Level_Debug < 2 ^ D.loggingLevelBits
      ∧ D.Level_Info < 2 ^ D.loggingLevelBits ∧ D.Level_Warn < 2 ^ D.loggingLevelBits
      ∧ D.Level_Error < 2 ^ D.loggingLevelBits ∧ D.Level_Critical < 2 ^ D.loggingLevelBits) :
    (Logger.Log D capi logger level msg).1.calls = logger.calls ++ [(level, c_str msg)]
      ∧ (Logger.Log D capi logger level msg).2 = D.ThrowOnError (capi level (c_str msg))
      ∧ (((Logger.Log D capi logger level msg).2).isSome = true
          ↔ capi level (c_str msg) ≠ D.SilKit_ReturnCode_SUCCESS)
      ∧ (Char.ofNat 0 ∉ msg.data → c_str msg = msg)
      ∧ ((c_str msg).data <+: msg.data ∧ Char.ofNat 0 ∉ (c_str msg).data)
      ∧ Logger.Trace D capi logger msg = Logger.Log D capi logger D.Level_Trace msg
      ∧ Logger.Debug D capi logger msg = Logger.Log D capi logger D.Level_Debug msg
      ∧ Logger.Info D capi logger msg = Logger.Log D capi logger D.Level_Info msg
      ∧ Logger.Warn D capi logger msg = Logger.Log D capi logger D.Level_Warn msg
      ∧ Logger.Error D capi logger msg = Logger.Log D capi logger D.Level_Error msg
      ∧ Logger.Critical D capi logger msg = Logger.Log D capi logger D.Level_Critical msg := by
  have hlog : ∀ l, l < 2 ^ D.loggingLevelBits →
      Logger.Log D capi logger l msg = callLog D capi logger l msg := by
    intro l hl
    unfold Logger.Log
    rw [Nat.mod_eq_of_lt hl]
  obtain ⟨hTrace, hDebug, hInfo, hWarn, hError, hCritical⟩ := hValues
  obtain ⟨fTrace, fDebug, fInfo, fWarn, fError, fCritical⟩ := hFit
  refine ⟨?_, ?_, ?_, c_str_of_no_null msg, ⟨?_, ?_⟩, ?_, ?_, ?_, ?_, ?_, ?_⟩
  · rw [hlog level hLevel]
    rfl
  · rw [hlog level hLevel]
    rfl
  · rw [hlog level hLevel]
    exact hThrow _
  · exact List.takeWhile_prefix _
  · intro hmem
    have := List.mem_takeWhile_imp hmem
    simp at this
  · rw [hlog _ fTrace, ← hTrace]
    rfl
  · rw [hlog _ fDebug, ← hDebug]
    rfl
  · rw [hlog _ fInfo, ← hInfo]
    rfl
  · rw [hlog _ fWarn, ← hWarn]
    rfl
  · rw [hlog _ fError, ← hError]
    rfl
  · rw [hlog _ fCritical, ← hCritical]
    rfl

/-- C25 at the call of the test `SilKit_Logger_Log`: `Log(Level::Critical, ...)` makes one
call with level 5 and the message, and `Critical` does the same. -/
theorem C25_logger_forwards_witness :
    (Logger.Log sampleLoggerDeclarations (fun _ _ => 0) { calls := [] } 5
        "This is a test message.").1.calls
        = [] ++ [(5, c_str "This is a test message.")]
      ∧ c_str "This is a test message." = "This is a test message."
      ∧ Logger.Critical sampleLoggerDeclarations (fun _ _ => 0) { calls := [] }
          "This is a test message."
        = Logger.Log sampleLoggerDeclarations (fun _ _ => 0) { calls := [] }
            sampleLoggerDeclarations.Level_Critical "This is a test message." := by
  have h := C25_logger_forwards sampleLoggerDeclarations (fun _ _ => 0) { calls := [] } 5
    "This is a test message." (by decide)
    (by
      intro returnCode
      by_cases hcode : returnCode = 0 <;> simp [sampleLoggerDeclarations, hcode])
    ⟨rfl, rfl, rfl, rfl, rfl, rfl⟩
    ⟨by decide, by decide, by decide, by decide, by decide, by decide⟩
  exact ⟨h.1, h.2.2.2.1 (by decide), h.2.2.2.2.2.2.2.2.2.2⟩

end Logging
end Services
end Impl
end Hourglass
end SilKit

namespace RpcDemo

/-! ## The remote function `Add100` of the RPC demo -/

/-- C22, an argument the claim is not true of: for the argument bytes 200, 0 and 255 the
result is 44, 100 and 99; 200 + 100 and 255 + 100 are no values of a byte. -/
theorem C22_byte_overflow_counterexample :
    callAdd100 sampleSerDes 1 [200, 0, 255] = some [44, 100, 99]
      ∧ RemoteFunc_Add100 sampleSerDes { callHandle := 1, argumentData := [3, 200, 0, 255] }
          = some { callHandle := 1, resultData := [3, 44, 100, 99] } := by
  decide

/-- C22, amended: for every argument vector of bytes, of every length, the result the
server submits for the call has the same length, and its i-th byte is the i-th argument
byte plus 100 modulo 256, which is the argument byte plus 100 for argument bytes up to
155; the client reads that result, for a deserializer that gives back what the
serializer was given. -/
theorem C22_add100_modulo_256 (serdes : SerDes) (callHandle : Nat)
    (argumentData : List Nat)
    (hRound : ∀ v, serdes.Deserialize (serdes.Serialize v) = some v) :
    RemoteFunc_Add100 serdes
        { callHandle := callHandle, argumentData := serdes.Serialize argumentData }
        = some { callHandle := callHandle
                 resultData := serdes.Serialize
                   (argumentData.map (fun v => (v + 100) % 2 ^ 8)) }
      ∧ callAdd100 serdes callHandle argumentData
        = some (argumentData.map (fun v => (v + 100) % 2 ^ 8))
      ∧ (argumentData.map (fun v => (v + 100) % 2 ^ 8)).length = argumentData.length
      ∧ (∀ i : Nat, (argumentData.map (fun v => (v + 100) % 2 ^ 8))[i]?
          = (argumentData[i]?).map (fun v => (v + 100) % 2 ^ 8))
      ∧ ((∀ v ∈ argumentData, v ≤ 155) →
          callAdd100 serdes callHandle argumentData = some (argumentData.map (fun v => v + 100)))
      := by
  have hserver : RemoteFunc_Add100 serdes
      { callHandle := callHandle, argumentData := serdes.Serialize argumentData }
      = some { callHandle := callHandle
               resultData := serdes.Serialize
                 (argumentData.map (fun v => (v + 100) % 2 ^ 8)) } := by
    unfold RemoteFunc_Add100
    simp only [hRound]
  have hclient : callAdd100 serdes callHandle argumentData
      = some (argumentData.map (fun v => (v + 100) % 2 ^ 8)) := by
    unfold callAdd100
    rw [hserver]
    exact hRound _
  refine ⟨hserver, hclient, List.length_map _ _, fun i => List.getElem?_map _ _ _, ?_⟩
  intro hsmall
  rw [hclient]
  congr 1
  apply List.map_congr_left
  intro v hv
  have := hsmall v hv
  exact Nat.mod_eq_of_lt (by omega)

/-- C22 at the argument bytes 1, 2 and 3: the client reads 101, 102 and 103. -/
theorem C22_add100_modulo_256_witness :
    (∀ v, sampleSerDes.Deserialize (sampleSerDes.Serialize v) = some v)
      ∧ callAdd100 sampleSerDes 1 [1, 2, 3] = some [101, 102, 103] := by
  have hRound : ∀ v, sampleSerDes.Deserialize (sampleSerDes.Serialize v) = some v := by
    intro v
    simp [sampleSerDes]
  have h := C22_add100_modulo_256 sampleSerDes 1 [1, 2, 3] hRound
  exact ⟨hRound, h.2.2.2.2 (by decide)⟩

end RpcDemo

namespace SilKit
namespace Services
namespace Lin

open LinController

/-! ## The LIN controller before `Init` -/

/-- A call other than `Init` on a controller whose status is `Unknown` throws
`StateError` and leaves the controller as it was. -/
theorem LinControllerCall.run_uninitialized (c : LinController) (call : LinControllerCall)
    (hStatus : c.controllerStatus = .Unknown) (hCall : call.isInit = false) :
    call.run c = (c, some .StateError) := by
  have hthrow : ThrowIfUninitialized c = some .StateError := by
    unfold ThrowIfUninitialized
    rw [if_pos hStatus]
  cases call with
  | Init config => cases hCall
  | SendFrame frame responseType =>
    show c.SendFrame frame responseType = _
    unfold LinController.SendFrame
    rw [hthrow]
  | SendFrameHeader id =>
    show c.SendFrameHeader id = _
    unfold LinController.SendFrameHeader
    rw [hthrow]
  | GoToSleep =>
    show c.GoToSleep = _
    unfold LinController.GoToSleep
    rw [hthrow]
  | GoToSleepInternal =>
    show c.GoToSleepInternal = _
    unfold LinController.GoToSleepInternal
    rw [hthrow]
  | Wakeup =>
    show c.Wakeup = _
    unfold LinController.Wakeup
    rw [hthrow]
  | WakeupInternal =>
    show c.WakeupInternal = _
    unfold LinController.WakeupInternal
    rw [hthrow]
  | UpdateTxBuffer frame =>
    show c.UpdateTxBuffer frame = _
    unfold LinController.UpdateTxBuffer
    rw [hthrow]

/-- Calls other than `Init` on a controller whose status is `Unknown` throw `StateError`,
each of them, and leave the controller as it was. -/
theorem runLinControllerCalls_uninitialized (c : LinController)
    (hStatus : c.controllerStatus = .Unknown) (calls : List LinControllerCall)
    (hCalls : ∀ call ∈ calls, call.isInit = false) :
    runLinControllerCalls c calls = (c, calls.map (fun _ => some .StateError)) := by
  induction calls with
  | nil => rfl
  | cons call calls ih =>
    have hrun := LinControllerCall.run_uninitialized c call hStatus
      (hCalls call (List.mem_cons_self _ _))
    have hrest := ih (fun x hx => hCalls x (List.mem_cons_of_mem _ hx))
    show ((runLinControllerCalls (call.run c).1 calls).1,
      (call.run c).2 :: (runLinControllerCalls (call.run c).1 calls).2) = _
    rw [hrun]
    dsimp only
    rw [hrest]
    rfl

/-- C21: every operation of a LIN controller that needs a configured controller fails
with `StateError` when called before `Init` and sends no message. For a controller
`Init` was not called on (its status is `Unknown`, as that of the controller as
constructed), every frame, response type and id: `SendFrame`, `SendFrameHeader`,
`GoToSleep`, `GoToSleepInternal`, `Wakeup`, `WakeupInternal` and `UpdateTxBuffer` each
throw `StateError` and leave the controller, the messages sent among it, as it was; so
after any sequence of such calls on the controller as constructed every call has thrown
`StateError` and no message is sent. After `Init` none of the seven throws
`StateError`. -/
theorem C21_uninitialized_throws_StateError (c : LinController) (frame : LinFrame)
    (responseType : LinFrameResponseType) (id : Nat) (calls : List LinControllerCall)
    (config : LinControllerConfig)
    (hStatus : c.controllerStatus = .Unknown)
    (hCalls : ∀ call ∈ calls, call.isInit = false) :
    c.SendFrame frame responseType = (c, some .StateError)
      ∧ c.SendFrameHeader id = (c, some .StateError)
      ∧ c.GoToSleep = (c, some .StateError)
      ∧ c.GoToSleepInternal = (c, some .StateError)
      ∧ c.Wakeup = (c, some .StateError)
      ∧ c.WakeupInternal = (c, some .StateError)
      ∧ c.UpdateTxBuffer frame = (c, some .StateError)
      ∧ LinController.create.controllerStatus = .Unknown
      ∧ (runLinControllerCalls LinController.create calls).2
          = calls.map (fun _ => some .StateError)
      ∧ (runLinControllerCalls LinController.create calls).1.sentMsgs = []
      ∧ (∀ call : LinControllerCall,
          (call.run (c.Init config).1).2 ≠ some .StateError) := by
  have hseq := runLinControllerCalls_uninitialized LinController.create rfl calls hCalls
  refine ⟨LinControllerCall.run_uninitialized c (.SendFrame frame responseType) hStatus rfl,
    LinControllerCall.run_uninitialized c (.SendFrameHeader id) hStatus rfl,
    LinControllerCall.run_uninitialized c .GoToSleep hStatus rfl,
    LinControllerCall.run_uninitialized c .GoToSleepInternal hStatus rfl,
    LinControllerCall.run_uninitialized c .Wakeup hStatus rfl,
    LinControllerCall.run_uninitialized c .WakeupInternal hStatus rfl,
    LinControllerCall.run_uninitialized c (.UpdateTxBuffer frame) hStatus rfl,
    rfl, ?_, ?_, ?_⟩
  · rw [hseq]
  · rw [hseq]
    rfl
  · have hfold : ∀ (responses : List LinFrameResponse) (d : LinController),
        d.controllerStatus = .Operational →
        (responses.foldl UpdateFrameResponse d).controllerStatus = .Operational := by
      intro responses
      induction responses with
      | nil => intro d hd; exact hd
      | cons r rs ih => intro d hd; exact ih _ hd
    have hinit : (c.Init config).1.controllerStatus = .Operational :=
      hfold config.frameResponses _ rfl
    have hnone : ThrowIfUninitialized (c.Init config).1 = none := by
      unfold ThrowIfUninitialized
      rw [hinit]
      rfl
    intro call
    cases call with
    | Init config2 => intro h; cases h
    | SendFrame frame2 responseType2 =>
      show ((c.Init config).1.SendFrame frame2 responseType2).2 ≠ _
      unfold LinController.SendFrame
      rw [hnone]
      dsimp only
      split_ifs <;> exact fun h => by cases h
    | SendFrameHeader id2 =>
      show ((c.Init config).1.SendFrameHeader id2).2 ≠ _
      unfold LinController.SendFrameHeader
      rw [hnone]
      exact fun h => by cases h
    | GoToSleep =>
      show ((c.Init config).1.GoToSleep).2 ≠ _
      unfold LinController.GoToSleep
      rw [hnone]
      exact fun h => by cases h
    | GoToSleepInternal =>
      show ((c.Init config).1.GoToSleepInternal).2 ≠ _
      unfold LinController.GoToSleepInternal
      rw [hnone]
      exact fun h => by cases h
    | Wakeup =>
      show ((c.Init config).1.Wakeup).2 ≠ _
      unfold LinController.Wakeup
      rw [hnone]
      exact fun h => by cases h
    | WakeupInternal =>
      show ((c.Init config).1.WakeupInternal).2 ≠ _
      unfold LinController.WakeupInternal
      rw [hnone]
      exact fun h => by cases h
    | UpdateTxBuffer frame2 =>
      show ((c.Init config).1.UpdateTxBuffer frame2).2 ≠ _
      unfold LinController.UpdateTxBuffer
      rw [hnone]
      dsimp only
      split_ifs <;> exact fun h => by cases h

/-- C21 at the master of the tests, the controller as constructed: `SendFrame({},
MasterResponse)`, `SendFrameHeader({})` and `UpdateTxBuffer({})` throw `StateError`, and
after the seven calls of the tests in a row nothing is sent; the master after `Init`
sends the header request of the test `send_frame_header`. -/
theorem C21_uninitialized_throws_StateError_witness :
    LinController.create.SendFrame default .MasterResponse
        = (LinController.create, some .StateError)
      ∧ LinController.create.SendFrameHeader 0 = (LinController.create, some .StateError)
      ∧ LinController.create.UpdateTxBuffer default = (LinController.create, some .StateError)
      ∧ (runLinControllerCalls LinController.create
          [.SendFrame default .MasterResponse, .SendFrameHeader 0, .GoToSleep,
           .GoToSleepInternal, .Wakeup, .WakeupInternal, .UpdateTxBuffer default]).1.sentMsgs = []
      ∧ ((LinController.create.Init (MakeControllerConfig .Master)).1.SendFrameHeader 13).1.sentMsgs
          = [.LinControllerConfig (MakeControllerConfig .Master), .LinSendFrameHeaderRequest 13] := by
  have h := C21_uninitialized_throws_StateError LinController.create default .MasterResponse 0
    [.SendFrame default .MasterResponse, .SendFrameHeader 0, .GoToSleep,
     .GoToSleepInternal, .Wakeup, .WakeupInternal, .UpdateTxBuffer default]
    (MakeControllerConfig .Master) rfl (by decide)
  exact ⟨h.1, h.2.1, h.2.2.2.2.2.2.1, h.2.2.2.2.2.2.2.2.2.1, by decide⟩

/-- The tests of the configured controller, replayed: `send_frame` (the request is sent
once a slave is configured to respond), `send_frame_without_configured_slave_response`
(two `LIN_RX_NO_RESPONSE` calls, no request), `go_to_sleep`, `go_to_sleep_internal`,
`wake_up`, `wake_up_internal`, `update_tx_buffer_not_configured_for_tx` and
`update_tx_buffer`. -/
theorem LinControllerDetailedSimTest_replayed :
    ((ReceiveMsg_LinControllerConfig (LinController.create.Init (MakeControllerConfig .Master)).1
        { controllerMode := .Slave
          frameResponses := [{ frame := MakeFrame 17 .Enhanced 4 [1, 2, 3, 4, 5, 6, 7, 8]
                               responseMode := .TxUnconditional }] }).SendFrame
        (MakeFrame 17 .Enhanced 4 [1, 2, 3, 4, 5, 6, 7, 8]) .SlaveResponse).1.sentMsgs
        = [.LinControllerConfig (MakeControllerConfig .Master),
           .LinSendFrameRequest (MakeFrame 17 .Enhanced 4 [1, 2, 3, 4, 5, 6, 7, 8]) .SlaveResponse]
      ∧ (runLinControllerCalls (LinController.create.Init (MakeControllerConfig .Master)).1
          [.SendFrame (MakeFrame 17 .Enhanced 4 [1, 2, 3, 4, 5, 6, 7, 8]) .SlaveResponse,
           .SendFrame (MakeFrame 17 .Enhanced 4 [1, 2, 3, 4, 5, 6, 7, 8])
             .SlaveToSlave]).1.frameStatusHandlerCalls
        = [(MakeFrame 17 .Enhanced 4 [1, 2, 3, 4, 5, 6, 7, 8], .LIN_RX_NO_RESPONSE),
           (MakeFrame 17 .Enhanced 4 [1, 2, 3, 4, 5, 6, 7, 8], .LIN_RX_NO_RESPONSE)]
      ∧ ((LinController.create.Init (MakeControllerConfig .Master)).1.GoToSleep).1.sentMsgs
        = [.LinControllerConfig (MakeControllerConfig .Master),
           .LinSendFrameRequest GoToSleepFrame .MasterResponse,
           .LinControllerStatusUpdate .SleepPending]
      ∧ ((LinController.create.Init (MakeControllerConfig .Master)).1.GoToSleepInternal).1.sentMsgs
        = [.LinControllerConfig (MakeControllerConfig .Master),
           .LinControllerStatusUpdate .Sleep]
      ∧ ((LinController.create.Init (MakeControllerConfig .Master)).1.Wakeup).1.sentMsgs
        = [.LinControllerConfig (MakeControllerConfig .Master), .LinWakeupPulse,
           .LinControllerStatusUpdate .Operational]
      ∧ ((LinController.create.Init (MakeControllerConfig .Master)).1.WakeupInternal).1.sentMsgs
        = [.LinControllerConfig (MakeControllerConfig .Master),
           .LinControllerStatusUpdate .Operational]
      ∧ ((LinController.create.Init
            { controllerMode := .Slave
              frameResponses := [{ frame := MakeFrame 19 .Enhanced 0 (List.replicate 8 0)
                                   responseMode := .Rx }] }).1.UpdateTxBuffer
          (MakeFrame 19 .Enhanced 0 (List.replicate 8 0))).2 = some .ConfigurationError
      ∧ (((LinController.create.Init
            { controllerMode := .Slave
              frameResponses := [{ frame := MakeFrame 19 .Enhanced 8 [1, 2, 3, 4, 5, 6, 7, 8]
                                   responseMode := .TxUnconditional }] }).1.UpdateTxBuffer
          (MakeFrame 19 .Enhanced 8 [1, 1, 1, 1, 1, 1, 1, 1])).1.responses.getD 19 default).frame.data
        = [1, 1, 1, 1, 1, 1, 1, 1] := by
  decide

end Lin
end Services
end SilKit

namespace SilKit
namespace Core

open VAsioConnection

/-! ## The receiver index beyond the width of its field -/

/-- The sample network names of different numbers are different. -/
theorem sampleNetworkName_injective (i j : Nat)
    (h : sampleNetworkName i = sampleNetworkName j) : i = j := by
  have hdata := congrArg (fun s : String => s.data.length) h
  simpa [sampleNetworkName] using hdata

/-- The sample registrations up to a number, and the next one. -/
theorem sampleRegistrations_succ (count : Nat) :
    sampleRegistrations (count + 1) = sampleRegistrations count ++ [sampleRegistration count] := by
  unfold sampleRegistrations
  rw [List.range_succ, List.map_append, List.map_singleton]

/-- The sample registrations from the first one on. -/
theorem sampleRegistrations_cons (count : Nat) :
    sampleRegistrations (count + 1)
      = sampleRegistration 0 :: (List.range count).map (fun i => sampleRegistration (i + 1)) := by
  unfold sampleRegistrations
  rw [List.range_succ_eq_map, List.map_cons, List.map_map]
  rfl

/-- The serdes names of the sample declarations contain no slash. -/
theorem sampleDeclarations_serdes_no_slash (m : SilKitMessageTypes) :
    '/' ∉ (sampleDeclarations.SerdesName m).data := by
  cases m <;> decide

/-- The receiver ids of the sample registrations of different numbers are different. -/
theorem sampleRegistration_id_injective (i j : Nat)
    (h : uniqueReceiverId (sampleRegistration i).networkName
        (sampleDeclarations.SerdesName (sampleRegistration i).msg)
      = uniqueReceiverId (sampleRegistration j).networkName
        (sampleDeclarations.SerdesName (sampleRegistration j).msg)) : i = j :=
  sampleNetworkName_injective i j
    (uniqueReceiverId_injective _ _ _ _ (sampleDeclarations_serdes_no_slash _)
      (sampleDeclarations_serdes_no_slash _) h).1

/-- A sequence of registrations is its first registration, then the others. -/
theorem registerAll_cons (D : VAsioDeclarations) (conn : VAsioConnection)
    (r : ReceiverRegistration) (rest : List ReceiverRegistration) :
    conn.registerAll D (r :: rest) = (conn.register D r).registerAll D rest :=
  rfl

/-- A sequence of registrations only appends receivers. -/
theorem registerAll_receivers_prefix (D : VAsioDeclarations)
    (regs : List ReceiverRegistration) (conn : VAsioConnection) :
    conn.vasioReceivers.map (fun v => v.subscriptionInfo)
      <+: (conn.registerAll D regs).vasioReceivers.map (fun v => v.subscriptionInfo) := by
  induction regs generalizing conn with
  | nil => exact List.prefix_refl _
  | cons r rest ih =>
    have hstep : conn.registerAll D (r :: rest) = (conn.register D r).registerAll D rest := rfl
    rw [hstep]
    refine List.IsPrefix.trans ?_ (ih (conn.register D r))
    by_cases hid : uniqueReceiverId r.networkName (D.SerdesName r.msg)
        ∈ conn.vasioUniqueReceiverIds
    · rw [((register_receivers_and_ids D conn r).1 hid).1]
    · rw [((register_receivers_and_ids D conn r).2 hid).1]
      exact List.prefix_append _ _

/-- After the sample registrations up to a number, on a connection as constructed, there
are as many receivers as registrations, and the receiver id of the next sample
registration is not stored. -/
theorem sampleRegistrations_receivers (count : Nat) :
    ((VAsioConnection.create "P" []).registerAll sampleDeclarations
        (sampleRegistrations count)).vasioReceivers.length = count
      ∧ uniqueReceiverId (sampleRegistration count).networkName
          (sampleDeclarations.SerdesName (sampleRegistration count).msg)
        ∉ ((VAsioConnection.create "P" []).registerAll sampleDeclarations
            (sampleRegistrations count)).vasioUniqueReceiverIds := by
  obtain ⟨hids, hnodup, -⟩ := registerAll_receivers_and_ids sampleDeclarations
    (sampleRegistrations count) (VAsioConnection.create "P" []) rfl List.nodup_nil rfl
  have hmem := registerAll_vasioUniqueReceiverIds sampleDeclarations
    (sampleRegistrations count) (VAsioConnection.create "P" [])
  have hregs : ((sampleRegistrations count).map (fun q =>
      uniqueReceiverId q.networkName (sampleDeclarations.SerdesName q.msg))).Nodup := by
    unfold sampleRegistrations
    rw [List.map_map]
    refine List.Nodup.map ?_ (List.nodup_range count)
    intro i j hij
    exact sampleRegistration_id_injective i j hij
  constructor
  · have hlen : ((VAsioConnection.create "P" []).registerAll sampleDeclarations
          (sampleRegistrations count)).vasioReceivers.length
        = ((VAsioConnection.create "P" []).registerAll sampleDeclarations
            (sampleRegistrations count)).vasioUniqueReceiverIds.length := by
      have := congrArg List.length hids
      simpa using this
    have hperm : ((VAsioConnection.create "P" []).registerAll sampleDeclarations
          (sampleRegistrations count)).vasioUniqueReceiverIds.Perm
        ((sampleRegistrations count).map (fun q =>
          uniqueReceiverId q.networkName (sampleDeclarations.SerdesName q.msg))) := by
      rw [List.perm_ext_iff_of_nodup hnodup hregs]
      intro id
      rw [hmem id, List.mem_map]
      constructor
      · rintro (h | ⟨q, hq, rfl⟩)
        · cases h
        · exact ⟨q, hq, rfl⟩
      · rintro ⟨q, hq, rfl⟩
        exact Or.inr ⟨q, hq, rfl⟩
    rw [hlen, hperm.length_eq, List.length_map]
    unfold sampleRegistrations
    rw [List.length_map, List.length_range]
  · intro hin
    rcases (hmem _).mp hin with h | ⟨q, hq, hid⟩
    · cases h
    · unfold sampleRegistrations at hq
      obtain ⟨i, hi, rfl⟩ := List.mem_map.mp hq
      have := sampleRegistration_id_injective count i hid
      rw [this] at hi
      exact absurd (List.mem_range.mp hi) (Nat.lt_irrefl i)

/-- The subscription record of the receiver that the sample registration of a number
gets, after the sample registrations of the numbers below it: its receiver index is the
number modulo `2 ^ 16`. -/
theorem sampleRegistrations_last (count : Nat) :
    (((VAsioConnection.create "P" []).registerAll sampleDeclarations
        (sampleRegistrations (count + 1))).vasioReceivers.map
        (fun v => v.subscriptionInfo)).getLast?
      = some { receiverIdx := count % 2 ^ 16
               networkName := sampleNetworkName count
               msgTypeName := "CANFRAMEEVENT"
               version := 1 } := by
  obtain ⟨hlen, hnew⟩ := sampleRegistrations_receivers count
  have hstep : (VAsioConnection.create "P" []).registerAll sampleDeclarations
      (sampleRegistrations (count + 1))
      = ((VAsioConnection.create "P" []).registerAll sampleDeclarations
          (sampleRegistrations count)).register sampleDeclarations
          (sampleRegistration count) := by
    rw [sampleRegistrations_succ]
    unfold registerAll
    rw [List.foldl_append]
    rfl
  rw [hstep, ((register_receivers_and_ids sampleDeclarations _ _).2 hnew).1,
    List.getLast?_concat, hlen]
  rfl

/-- C10, as stated, fails at the receiver that is allocated when 65536 receivers are
registered, for a 16-bit receiver index: after the registration of a CAN frame receiver
on each of 65536 networks, the first registration on one more network is the first of
its key, and its receiver gets the receiver index 0, not the number of receivers
registered before, which is 65536. -/
theorem C10_receiver_index_wraps_counterexample :
    ((VAsioConnection.create "P" []).registerAll sampleDeclarations
        (sampleRegistrations 65536)).vasioReceivers.length = 65536
      ∧ (sampleRegistration 65536).key sampleDeclarations
          ∉ (sampleRegistrations 65536).map (fun q => q.key sampleDeclarations)
      ∧ ((((VAsioConnection.create "P" []).registerAll sampleDeclarations
            (sampleRegistrations 65536)).register sampleDeclarations
            (sampleRegistration 65536)).vasioReceivers.map
          (fun v => v.subscriptionInfo)).getLast?
        = some { receiverIdx := 0
                 networkName := sampleNetworkName 65536
                 msgTypeName := "CANFRAMEEVENT"
                 version := 1 } := by
  obtain ⟨hlen, hnew⟩ := sampleRegistrations_receivers 65536
  refine ⟨hlen, ?_, ?_⟩
  · intro hin
    obtain ⟨q, hq, hkey⟩ := List.mem_map.mp hin
    unfold sampleRegistrations at hq
    obtain ⟨i, hi, rfl⟩ := List.mem_map.mp hq
    have hname : sampleNetworkName i = sampleNetworkName 65536 :=
      congrArg Prod.fst hkey
    have := sampleNetworkName_injective i 65536 hname
    rw [this] at hi
    exact absurd (List.mem_range.mp hi) (Nat.lt_irrefl _)
  · rw [((register_receivers_and_ids sampleDeclarations _ _).2 hnew).1,
      List.getLast?_concat, hlen]
    rfl

/-- C26, as stated, fails when more receivers are allocated than a 16-bit receiver index
counts: after the registration of a CAN frame receiver on each of 65537 networks, the
first and the last receiver stand for different keys (their network names differ) and
share the receiver index 0. -/
theorem C26_receiver_index_shared_counterexample :
    (((VAsioConnection.create "P" []).registerAll sampleDeclarations
          (sampleRegistrations 65537)).vasioReceivers.map (fun v => v.subscriptionInfo)).head?
        = some { receiverIdx := 0
                 networkName := sampleNetworkName 0
                 msgTypeName := "CANFRAMEEVENT"
                 version := 1 }
      ∧ (((VAsioConnection.create "P" []).registerAll sampleDeclarations
          (sampleRegistrations 65537)).vasioReceivers.map
          (fun v => v.subscriptionInfo)).getLast?
        = some { receiverIdx := 0
                 networkName := sampleNetworkName 65536
                 msgTypeName := "CANFRAMEEVENT"
                 version := 1 }
      ∧ sampleNetworkName 0 ≠ sampleNetworkName 65536 := by
  refine ⟨?_, sampleRegistrations_last 65536, ?_⟩
  · have hcons := sampleRegistrations_cons 65536
    have hstep : (VAsioConnection.create "P" []).registerAll sampleDeclarations
        (sampleRegistrations 65537)
        = ((VAsioConnection.create "P" []).register sampleDeclarations
            (sampleRegistration 0)).registerAll sampleDeclarations
            ((List.range 65536).map (fun i => sampleRegistration (i + 1))) := by
      rw [show sampleRegistrations 65537 = sampleRegistrations (65536 + 1) from rfl, hcons,
        registerAll_cons]
    have hfirst : ((VAsioConnection.create "P" []).register sampleDeclarations
        (sampleRegistration 0)).vasioReceivers.map (fun v => v.subscriptionInfo)
        = [{ receiverIdx := 0
             networkName := sampleNetworkName 0
             msgTypeName := "CANFRAMEEVENT"
             version := 1 }] := by
      decide
    obtain ⟨rest, hrest⟩ := registerAll_receivers_prefix sampleDeclarations
      ((List.range 65536).map (fun i => sampleRegistration (i + 1)))
      ((VAsioConnection.create "P" []).register sampleDeclarations (sampleRegistration 0))
    rw [hstep, ← hrest, hfirst]
    rfl
  · intro h
    have := sampleNetworkName_injective 0 65536 h
    exact absurd this (by decide)

end Core
end SilKit
